import Mathlib

/-!
# Rewindable physics state history (Chaos `FRewindData`)

A shallow embedding of `Source/Runtime/Experimental/Chaos/Private/RewindData.cpp`.

* Frames are `int32` in the source; they are embedded as `Int`.  The increment of the frame
  counter in `FinishFrame` wraps around at the greatest `int32` (`WrapInt32`); the other frame
  arithmetic is exact on the frames and window sizes that an `int32` can hold.
* `FReal` components are embedded as rationals: the coordinator only copies and compares them.
* Pointers to live simulation objects are embedded as natural-number identities into the
  solver's particle and joint stores.  Dereferencing a null pointer (a failed cast, a missing
  evolution) makes the embedded operation return `none`.
* `RewindData.h` is not part of the sources.  What it declares is either taken from the way
  `RewindData.cpp` uses it or modelled from the specification; each such definition says so.
-/

namespace Chaos

/-! ## Frame-phase keys -/

/-- The constant `INDEX_NONE` of the engine. -/
def INDEX_NONE : Int := -1

/-- The greatest value of the engine's `int32`, the type of the frame counters. -/
def INT32_MAX : Int := 2147483647

/-- The least value of the engine's `int32`. -/
def INT32_MIN : Int := -2147483648

/-- The value an `int32` holds after an operation whose exact result is `x`: `x` reduced
modulo `2^32` into the range from `INT32_MIN` to `INT32_MAX`. -/
def WrapInt32 (x : Int) : Int :=
  (x + 2147483648) % 4294967296 - 2147483648

/-- The sub-frame phases `FFrameAndPhase::EParticleHistoryPhase` named by the source. -/
inductive EParticleHistoryPhase where
  | PrePushData
  | PostPushData
  | PostCallbacks
  deriving DecidableEq, Repr

/-- Ordinal of a phase: PrePushData, then PostPushData, then PostCallbacks. -/
def EParticleHistoryPhase.toNat : EParticleHistoryPhase → Nat
  | .PrePushData => 0
  | .PostPushData => 1
  | .PostCallbacks => 2

/-- The composite key `FFrameAndPhase` of a frame number and a phase. -/
structure FFrameAndPhase where
  Frame : Int
  Phase : EParticleHistoryPhase
  deriving DecidableEq, Repr

/-- Modelled from the spec: the total order on keys, "first by frame, then by phase ordinal". -/
def FFrameAndPhase.le (a b : FFrameAndPhase) : Bool :=
  decide (a.Frame < b.Frame) || (decide (a.Frame = b.Frame) && decide (a.Phase.toNat ≤ b.Phase.toNat))

/-- Strict version of the key order. -/
def FFrameAndPhase.lt (a b : FFrameAndPhase) : Bool :=
  decide (a.Frame < b.Frame) || (decide (a.Frame = b.Frame) && decide (a.Phase.toNat < b.Phase.toNat))

/-! ## Property history channels -/

/-- Modelled from the spec: the Property History Channel (`TParticlePropertyBuffer`, declared
in `RewindData.h`).  The spec treats the storage as "an opaque keyed store supporting write at
frame/phase, read at frame/phase, is clean at frame/phase"; the entries are kept newest write
first.  Pooling and ring-buffer eviction are outside the modelled core. -/
structure TParticlePropertyBuffer (T : Type) where
  Buffer : List (FFrameAndPhase × T)
  deriving DecidableEq, Repr

namespace TParticlePropertyBuffer

variable {T : Type}

/-- The entry with the greatest key at or before `K`; among equal keys the newest write. -/
def Latest (K : FFrameAndPhase) : List (FFrameAndPhase × T) → Option (FFrameAndPhase × T)
  | [] => none
  | e :: es =>
    match Latest K es with
    | none => if e.1.le K then some e else none
    | some b => if e.1.le K && b.1.le e.1 then some e else some b

/-- Modelled from the spec: `read(key)` "returns the most recent non-clean value at or before K",
and nothing when there is none. -/
def Read (B : TParticlePropertyBuffer T) (K : FFrameAndPhase) : Option T :=
  (Latest K B.Buffer).map Prod.snd

/-- Modelled from the spec: `isClean(key)` is "true if no value was recorded at or before key". -/
def IsClean (B : TParticlePropertyBuffer T) (K : FFrameAndPhase) : Bool :=
  B.Buffer.all (fun e => !e.1.le K)

/-- Modelled from the spec: `write(key, value)` "stores value at key". -/
def Write (B : TParticlePropertyBuffer T) (K : FFrameAndPhase) (v : T) : TParticlePropertyBuffer T :=
  ⟨(K, v) :: B.Buffer.filter (fun e => decide (e.1 ≠ K))⟩

/-- Modelled from the spec: `WriteAccessMonotonic` hands out the slot of `key` for a writer that
"writes only forward in time"; the caller fills the slot with `v`. -/
def WriteAccessMonotonic (B : TParticlePropertyBuffer T) (K : FFrameAndPhase) (v : T) :
    TParticlePropertyBuffer T :=
  B.Write K v

/-- Modelled from the spec: `writeNonDecreasing(key, value)` is "like write, but returns the
storage slot only if key is ≥ the latest written key, else fails silently". -/
def WriteAccessNonDecreasing (B : TParticlePropertyBuffer T) (K : FFrameAndPhase) (v : T) :
    Option (TParticlePropertyBuffer T) :=
  if B.Buffer.all (fun e => e.1.le K) then some (B.Write K v) else none

/-- Modelled from the spec: `Insert` records a value "at a specific frame-phase", in any order. -/
def Insert (B : TParticlePropertyBuffer T) (K : FFrameAndPhase) (v : T) : TParticlePropertyBuffer T :=
  B.Write K v

/-- The channel holds no recorded value at all (`IsEmpty`). -/
def IsEmpty (B : TParticlePropertyBuffer T) : Bool :=
  B.Buffer.isEmpty

/-- Modelled from the spec: `clearFromFrame(key)` "discards all recorded values at key and
later". -/
def ClearEntryAndFuture (B : TParticlePropertyBuffer T) (K : FFrameAndPhase) :
    TParticlePropertyBuffer T :=
  ⟨B.Buffer.filter (fun e => e.1.lt K)⟩

/-- Modelled from the spec: a channel is in sync when the "value recorded in history at the
frame-phase under test matches the live object's corresponding current value"; a channel
with nothing recorded for the key has nothing to contradict the live value. -/
def IsInSync [DecidableEq T] (B : TParticlePropertyBuffer T) (Live : T) (K : FFrameAndPhase) : Bool :=
  match B.Read K with
  | none => true
  | some v => decide (v = Live)

/-- No recorded value at key `K` or later. -/
def ClearedFrom (B : TParticlePropertyBuffer T) (K : FFrameAndPhase) : Prop :=
  ∀ e ∈ B.Buffer, e.1.lt K = true

end TParticlePropertyBuffer

/-! ## Property payloads

The payload classes are declared in headers outside the sources.  They are embedded with the
members the source reads or writes; a payload the source only copies and compares is a single
opaque datum. -/

/-- Scalars of the simulation, embedded as rationals. -/
abbrev FReal := ℚ

/-- Three-component vector. -/
structure FVec3 where
  X : FReal
  Y : FReal
  Z : FReal
  deriving DecidableEq

/-- Quaternion. -/
structure FQuat where
  X : FReal
  Y : FReal
  Z : FReal
  W : FReal
  deriving DecidableEq

/-- The object states the source names, plus the remaining `Uninitialized` state. -/
inductive EObjectStateType where
  | Uninitialized
  | Sleeping
  | Kinematic
  | Static
  | Dynamic
  deriving DecidableEq, Repr

/-- Sync state of a live object: `InSync` or desynced. -/
inductive ESyncState where
  | InSync
  | HardDesync
  deriving DecidableEq, Repr

/-- Resim classification of a live object. -/
inductive EResimType where
  | FullResim
  | ResimAsFollower
  deriving DecidableEq, Repr

/-- Position and rotation (`SetX`, `SetR`, `X()`, `R()`). -/
structure FParticlePositionRotation where
  X : FVec3
  R : FQuat
  deriving DecidableEq

/-- Linear and angular velocity (`SetV`, `SetW`). -/
structure FParticleVelocities where
  V : FVec3
  W : FVec3
  deriving DecidableEq

/-- Non-frequent data, only copied and compared by the coordinator. -/
structure FParticleNonFrequentData where
  Data : Int
  deriving DecidableEq

/-- Kinematic target, only copied and compared by the coordinator. -/
structure FKinematicTarget where
  Data : Int
  deriving DecidableEq

/-- Dynamics (applied forces and impulses), only copied and compared by the coordinator. -/
structure FParticleDynamics where
  Data : Int
  deriving DecidableEq

/-- Misc dynamic flags: the object state and the disabled flag are the members the source uses. -/
structure FParticleDynamicMisc where
  ObjectState : EObjectStateType
  Disabled : Bool
  deriving DecidableEq

/-- Mass properties, only copied and compared by the coordinator. -/
structure FParticleMassProps where
  Data : Int
  deriving DecidableEq

/-- Joint settings, only copied and compared by the coordinator. -/
structure FPBDJointSettings where
  Data : Int
  deriving DecidableEq

/-! ## Live simulation objects -/

/-- Which downcasts of a geometry particle handle succeed. -/
inductive EParticleType where
  | Static
  | Kinematic
  | Rigid
  deriving DecidableEq, Repr

/-- The physics proxy of a particle, as far as the coordinator consults it. -/
structure FSingleParticlePhysicsProxy where
  /-- Whether `GetSolver<FPBDRigidsSolver>()` is not null. -/
  bHasSolver : Bool
  /-- Source member `GetInitializedStep()`. -/
  InitializedStep : Int
  /-- Source member `IsInitialized()`. -/
  bInitialized : Bool
  deriving DecidableEq

/-- A live particle (`FGeometryParticleHandle`) with the properties the coordinator reads and
writes.  `ParticleType` decides which casts succeed. -/
structure FGeometryParticleHandle where
  ParticleType : EParticleType
  XR : FParticlePositionRotation
  Velocities : FParticleVelocities
  NonFrequentData : FParticleNonFrequentData
  KinematicTarget : FKinematicTarget
  Dynamics : FParticleDynamics
  DynamicsMisc : FParticleDynamicMisc
  MassProps : FParticleMassProps
  SyncState : ESyncState
  ResimType : EResimType
  bEnabledDuringResim : Bool
  bInertiaConditioningDirty : Bool
  Proxy : FSingleParticlePhysicsProxy
  deriving DecidableEq

/-- A live joint constraint (`FPBDJointConstraintHandle`). -/
structure FPBDJointConstraintHandle where
  JointSettings : FPBDJointSettings
  SyncState : ESyncState
  ResimType : EResimType
  bEnabledDuringResim : Bool
  deriving DecidableEq

namespace FGeometryParticleHandle

/-- Source function `CastToKinematicParticle`: succeeds for kinematic and rigid particles. -/
def CastToKinematicParticle (P : FGeometryParticleHandle) : Option FGeometryParticleHandle :=
  match P.ParticleType with
  | .Static => none
  | _ => some P

/-- Source function `CastToRigidParticle`: succeeds for rigid particles only. -/
def CastToRigidParticle (P : FGeometryParticleHandle) : Option FGeometryParticleHandle :=
  match P.ParticleType with
  | .Rigid => some P
  | _ => none

/-- The identity cast: the handle itself, never null. -/
def AsGeometryParticle (P : FGeometryParticleHandle) : Option FGeometryParticleHandle :=
  some P

/-- Source member `Disabled()`. -/
def Disabled (P : FGeometryParticleHandle) : Bool := P.DynamicsMisc.Disabled

/-- Source member `ObjectState()`. -/
def ObjectState (P : FGeometryParticleHandle) : EObjectStateType := P.DynamicsMisc.ObjectState

/-- Source member `SetXR`. -/
def SetXR (P : FGeometryParticleHandle) (D : FParticlePositionRotation) : FGeometryParticleHandle :=
  { P with XR := D }

/-- Source member `SetVelocities`. -/
def SetVelocities (P : FGeometryParticleHandle) (D : FParticleVelocities) : FGeometryParticleHandle :=
  { P with Velocities := D }

/-- Source member `SetNonFrequentData`. -/
def SetNonFrequentData (P : FGeometryParticleHandle) (D : FParticleNonFrequentData) :
    FGeometryParticleHandle :=
  { P with NonFrequentData := D }

/-- Source member `SetKinematicTarget`. -/
def SetKinematicTarget (P : FGeometryParticleHandle) (D : FKinematicTarget) : FGeometryParticleHandle :=
  { P with KinematicTarget := D }

/-- Source member `SetDynamics`. -/
def SetDynamics (P : FGeometryParticleHandle) (D : FParticleDynamics) : FGeometryParticleHandle :=
  { P with Dynamics := D }

/-- Source member `SetMassProps`. -/
def SetMassProps (P : FGeometryParticleHandle) (D : FParticleMassProps) : FGeometryParticleHandle :=
  { P with MassProps := D }

/-- Source member `SetDisabled`. -/
def SetDisabled (P : FGeometryParticleHandle) (b : Bool) : FGeometryParticleHandle :=
  { P with DynamicsMisc := { P.DynamicsMisc with Disabled := b } }

/-- Source member `SetEnabledDuringResim`. -/
def SetEnabledDuringResim (P : FGeometryParticleHandle) (b : Bool) : FGeometryParticleHandle :=
  { P with bEnabledDuringResim := b }

/-- Source member `SetSyncState`. -/
def SetSyncState (P : FGeometryParticleHandle) (s : ESyncState) : FGeometryParticleHandle :=
  { P with SyncState := s }

/-- Source member `SetResimType`. -/
def SetResimType (P : FGeometryParticleHandle) (r : EResimType) : FGeometryParticleHandle :=
  { P with ResimType := r }

/-- Source member `SetInertiaConditioningDirty`. -/
def SetInertiaConditioningDirty (P : FGeometryParticleHandle) : FGeometryParticleHandle :=
  { P with bInertiaConditioningDirty := true }

end FGeometryParticleHandle

namespace FPBDJointConstraintHandle

/-- Source function `SetSyncState` of a joint. -/
def SetSyncState (J : FPBDJointConstraintHandle) (s : ESyncState) : FPBDJointConstraintHandle :=
  { J with SyncState := s }

/-- Source function `SetEnabledDuringResim` of a joint. -/
def SetEnabledDuringResim (J : FPBDJointConstraintHandle) (b : Bool) : FPBDJointConstraintHandle :=
  { J with bEnabledDuringResim := b }

end FPBDJointConstraintHandle

/-! ## Object state snapshots and the dirty object registry -/

/-- The recorded state of one particle (`FGeometryParticleStateBase`): the seven organic
channels, the three target channels and the cached pre-correction transform. -/
structure FGeometryParticleStateBase where
  ParticlePositionRotation : TParticlePropertyBuffer FParticlePositionRotation
  NonFrequentData : TParticlePropertyBuffer FParticleNonFrequentData
  Velocities : TParticlePropertyBuffer FParticleVelocities
  KinematicTarget : TParticlePropertyBuffer FKinematicTarget
  Dynamics : TParticlePropertyBuffer FParticleDynamics
  DynamicsMisc : TParticlePropertyBuffer FParticleDynamicMisc
  MassProps : TParticlePropertyBuffer FParticleMassProps
  TargetPositions : TParticlePropertyBuffer FParticlePositionRotation
  TargetVelocities : TParticlePropertyBuffer FParticleVelocities
  TargetStates : TParticlePropertyBuffer FParticleDynamicMisc
  PreCorrectionXR : FParticlePositionRotation
  deriving DecidableEq

/-- The recorded state of one joint (`FJointStateBase`). -/
structure FJointStateBase where
  JointSettings : TParticlePropertyBuffer FPBDJointSettings
  deriving DecidableEq

/-- Registry entry of a tracked particle (`FDirtyParticleInfo`).  `Object` is the non-owning
pointer to the live particle. -/
structure FDirtyParticleInfo where
  Object : Nat
  History : FGeometryParticleStateBase
  LastDirtyFrame : Int
  InitializedOnStep : Int
  bResimAsFollower : Bool
  DirtyDynamics : Int
  deriving DecidableEq

/-- Registry entry of a tracked joint (`FDirtyJointInfo`). -/
structure FDirtyJointInfo where
  Object : Nat
  History : FJointStateBase
  LastDirtyFrame : Int
  InitializedOnStep : Int
  bResimAsFollower : Bool
  deriving DecidableEq

/-- Entry of the error accumulator (`FDirtyParticleErrorInfo`). -/
structure FDirtyParticleErrorInfo where
  Object : Nat
  ErrorX : FVec3
  ErrorR : FQuat
  deriving DecidableEq

/-! ## External collaborators -/

/-- The evolution of the solver, as far as the coordinator consumes it: the resimming flag,
the particles held by the island manager, the island manager's resim frame per particle and
the particles marked transient dirty. -/
structure FPBDRigidsEvolution where
  bIsResimming : Bool
  IslandParticles : List Nat
  ParticleResimFrame : Nat → Int
  TransientDirtyParticles : List Nat

/-- The solver collaborator: the live particles and joints by pointer, the evolution (which
may be null) and the process-wide network physics prediction switch. -/
structure FPBDRigidsSolver where
  Particles : Nat → FGeometryParticleHandle
  Joints : Nat → FPBDJointConstraintHandle
  Evolution : Option FPBDRigidsEvolution
  bNetworkPhysicsPredictionEnabled : Bool

/-- A call received by an external inputs/states history. -/
inductive FHistoryCall where
  | ApplyInputs (ApplyFrame : Int) (bResetSolver : Bool)
  | RewindStates (RewindFrame : Int) (bResetSolver : Bool)
  deriving DecidableEq

/-- An external per-feature history tracker held by weak pointer (`FBaseRewindHistory`):
whether the weak pointer is still valid, its `HasValidDatas` answer per frame, and the calls
the coordinator has driven into it. -/
structure FBaseRewindHistory where
  bValid : Bool
  HasValidDatas : Int → Bool
  Calls : List FHistoryCall

/-- The engine's quaternion routines used by the error accumulation.  They are declared
outside the sources and are taken as parameters. -/
structure FQuatMath where
  Identity : FQuat
  Mul : FQuat → FQuat → FQuat
  Inverse : FQuat → FQuat
  EnforceShortestArcWith : FQuat → FQuat → FQuat
  Normalize : FQuat → FQuat
  IsIdentity : FQuat → FReal → Bool

/-! ## The rewind coordinator -/

/-- The coordinator `FRewindData`.  `ManagersCapacity` is `Managers.Capacity()`;
`SkipDesyncTest` is the console variable `p.SkipDesyncTest`. -/
structure FRewindData where
  CurFrame : Int
  LatestFrame : Int
  FramesSaved : Int
  bNeedsSave : Bool
  ManagersCapacity : Int
  DirtyParticles : List FDirtyParticleInfo
  DirtyJoints : List FDirtyJointInfo
  DirtyParticleErrors : List FDirtyParticleErrorInfo
  InputsHistories : List FBaseRewindHistory
  StatesHistories : List FBaseRewindHistory
  Solver : FPBDRigidsSolver
  SkipDesyncTest : Int

namespace FPBDRigidsSolver

/-- Store a new value for the live particle behind pointer `p`. -/
def SetParticle (Sv : FPBDRigidsSolver) (p : Nat) (P : FGeometryParticleHandle) : FPBDRigidsSolver :=
  { Sv with Particles := fun q => if q = p then P else Sv.Particles q }

/-- Store a new value for the live joint behind pointer `j`. -/
def SetJoint (Sv : FPBDRigidsSolver) (j : Nat) (J : FPBDJointConstraintHandle) : FPBDRigidsSolver :=
  { Sv with Joints := fun q => if q = j then J else Sv.Joints q }

/-- Modelled from the spec: `Solver->SetParticleDynamicMisc` stores the misc dynamic flags
(object state and enabled/disabled) into the live particle. -/
def SetParticleDynamicMisc (P : FGeometryParticleHandle) (D : FParticleDynamicMisc) :
    FGeometryParticleHandle :=
  { P with DynamicsMisc := D }

end FPBDRigidsSolver

namespace FPBDRigidsEvolution

/-- Modelled from the spec: `DisableParticle` of the solver collaborator disables the particle. -/
def DisableParticle (P : FGeometryParticleHandle) : FGeometryParticleHandle :=
  P.SetDisabled true

/-- Modelled from the spec: `EnableParticle` of the solver collaborator enables the particle. -/
def EnableParticle (P : FGeometryParticleHandle) : FGeometryParticleHandle :=
  P.SetDisabled false

/-- Modelled from the spec: `SetParticleObjectState` of the solver collaborator performs the
object-state transition of the particle. -/
def SetParticleObjectState (P : FGeometryParticleHandle) (s : EObjectStateType) :
    FGeometryParticleHandle :=
  { P with DynamicsMisc := { P.DynamicsMisc with ObjectState := s } }

/-- Modelled from the spec: `GetIslandManager().RemoveParticle` takes the particle out of the
island manager. -/
def RemoveParticle (E : FPBDRigidsEvolution) (p : Nat) : FPBDRigidsEvolution :=
  { E with IslandParticles := E.IslandParticles.filter (fun q => decide (q ≠ p)) }

/-- Source function `GetParticles().MarkTransientDirtyParticle`: the particle is reported back for
interpolation. -/
def MarkTransientDirtyParticle (E : FPBDRigidsEvolution) (p : Nat) : FPBDRigidsEvolution :=
  { E with TransientDirtyParticles := p :: E.TransientDirtyParticles }

end FPBDRigidsEvolution

namespace FGeometryParticleStateBase

/-- Modelled from the spec: `CachePreCorrectionState` keeps the live transform as the
"pre-correction snapshot" against which the error is later accumulated. -/
def CachePreCorrectionState (H : FGeometryParticleStateBase) (P : FGeometryParticleHandle) :
    FGeometryParticleStateBase :=
  { H with PreCorrectionXR := P.XR }

/-- Modelled from the spec: clearing a snapshot from a key "discards all recorded values at
key and later" in every channel of the snapshot. -/
def ClearEntryAndFuture (H : FGeometryParticleStateBase) (K : FFrameAndPhase) :
    FGeometryParticleStateBase :=
  { H with
    ParticlePositionRotation := H.ParticlePositionRotation.ClearEntryAndFuture K
    NonFrequentData := H.NonFrequentData.ClearEntryAndFuture K
    Velocities := H.Velocities.ClearEntryAndFuture K
    KinematicTarget := H.KinematicTarget.ClearEntryAndFuture K
    Dynamics := H.Dynamics.ClearEntryAndFuture K
    DynamicsMisc := H.DynamicsMisc.ClearEntryAndFuture K
    MassProps := H.MassProps.ClearEntryAndFuture K
    TargetPositions := H.TargetPositions.ClearEntryAndFuture K
    TargetVelocities := H.TargetVelocities.ClearEntryAndFuture K
    TargetStates := H.TargetStates.ClearEntryAndFuture K }

end FGeometryParticleStateBase

namespace FJointStateBase

/-- Modelled from the spec: clearing a joint snapshot from a key. -/
def ClearEntryAndFuture (H : FJointStateBase) (K : FFrameAndPhase) : FJointStateBase :=
  { H with JointSettings := H.JointSettings.ClearEntryAndFuture K }

end FJointStateBase

namespace FRewindData

/-- Modelled from the spec: `GetEarliestFrame_Internal` (declared in `RewindData.h`) is the
earliest retained frame, the current frame minus the retained window `FramesSaved`. -/
def GetEarliestFrame_Internal (S : FRewindData) : Int :=
  S.CurFrame - S.FramesSaved

/-- Modelled from the spec: `IsResim` holds in the Resimulating state, while frames
`[CurFrame, LatestFrame)` remain to be replayed. -/
def IsResim (S : FRewindData) : Bool :=
  decide (S.CurFrame < S.LatestFrame)

/-- Modelled from the spec: `IsFinalResim` holds on "the final resim pass", the replay of the
last frame before `LatestFrame`. -/
def IsFinalResim (S : FRewindData) : Bool :=
  decide (S.CurFrame + 1 = S.LatestFrame)

/-- Source function `IsResimAndInSync`: resimulating and the object is in sync. -/
def IsResimAndInSync (S : FRewindData) (SyncState : ESyncState) : Bool :=
  S.IsResim && decide (SyncState = ESyncState.InSync)

/-! ### RewindToFrame -/

/-- The lambda `RewindHelper` of `RewindToFrame` for one channel.  `Cast` is the cast applied
to the particle pointer before the call, `CopyDataFromObject` reads the live value of the
channel's property and `RewindFunc` stores a recorded value into the live particle.  The
result is the lambda's return value, the channel and the live particle; `none` stands for
the dereference of a null pointer. -/
def RewindHelper {T : Type} (RewindFrameAndPhase CurFrameAndPhase : FFrameAndPhase)
    (P : FGeometryParticleHandle) (Cast : FGeometryParticleHandle → Option FGeometryParticleHandle)
    (bResimAsFollower : Bool) (Property : TParticlePropertyBuffer T)
    (CopyDataFromObject : FGeometryParticleHandle → T)
    (RewindFunc : FGeometryParticleHandle → T → FGeometryParticleHandle) :
    Option (Bool × TParticlePropertyBuffer T × FGeometryParticleHandle) :=
  if bResimAsFollower then
    match Property.Read RewindFrameAndPhase with
    | some Val =>
      match Cast P with
      | some Obj => some (false, Property, RewindFunc Obj Val)
      | none => none
    | none => some (false, Property, P)
  else
    if !Property.IsClean RewindFrameAndPhase then
      match Cast P with
      | none => none
      | some Obj =>
        let Written := Property.WriteAccessMonotonic CurFrameAndPhase (CopyDataFromObject Obj)
        match Written.Read RewindFrameAndPhase with
        | some Val => some (true, Written, RewindFunc Obj Val)
        | none => none
    else some (false, Property, P)

/-- The seven `RewindHelper` calls of the particle loop of `RewindToFrame`, in source order:
the accumulated `bAnyChange`, the history and the live particle. -/
def RewindChannels (RewindFrameAndPhase CurFrameAndPhase : FFrameAndPhase)
    (bResimAsFollower : Bool) (H : FGeometryParticleStateBase) (P : FGeometryParticleHandle) :
    Option (Bool × FGeometryParticleStateBase × FGeometryParticleHandle) := do
  let (c1, b1, P1) ← RewindHelper RewindFrameAndPhase CurFrameAndPhase P
    FGeometryParticleHandle.AsGeometryParticle bResimAsFollower H.ParticlePositionRotation
    (fun O => O.XR) FGeometryParticleHandle.SetXR
  let (c2, b2, P2) ← RewindHelper RewindFrameAndPhase CurFrameAndPhase P1
    FGeometryParticleHandle.CastToKinematicParticle bResimAsFollower H.Velocities
    (fun O => O.Velocities) FGeometryParticleHandle.SetVelocities
  let (c3, b3, P3) ← RewindHelper RewindFrameAndPhase CurFrameAndPhase P2
    FGeometryParticleHandle.AsGeometryParticle bResimAsFollower H.NonFrequentData
    (fun O => O.NonFrequentData) FGeometryParticleHandle.SetNonFrequentData
  let (c4, b4, P4) ← RewindHelper RewindFrameAndPhase CurFrameAndPhase P3
    FGeometryParticleHandle.CastToKinematicParticle bResimAsFollower H.KinematicTarget
    (fun O => O.KinematicTarget) FGeometryParticleHandle.SetKinematicTarget
  let (c5, b5, P5) ← RewindHelper RewindFrameAndPhase CurFrameAndPhase P4
    FGeometryParticleHandle.CastToRigidParticle bResimAsFollower H.Dynamics
    (fun O => O.Dynamics) FGeometryParticleHandle.SetDynamics
  let (c6, b6, P6) ← RewindHelper RewindFrameAndPhase CurFrameAndPhase P5
    FGeometryParticleHandle.CastToRigidParticle bResimAsFollower H.DynamicsMisc
    (fun O => O.DynamicsMisc) FPBDRigidsSolver.SetParticleDynamicMisc
  let (c7, b7, P7) ← RewindHelper RewindFrameAndPhase CurFrameAndPhase P6
    FGeometryParticleHandle.CastToRigidParticle bResimAsFollower H.MassProps
    (fun O => O.MassProps) FGeometryParticleHandle.SetMassProps
  pure (c1 || c2 || c3 || c4 || c5 || c6 || c7,
    { H with
      ParticlePositionRotation := b1
      Velocities := b2
      NonFrequentData := b3
      KinematicTarget := b4
      Dynamics := b5
      DynamicsMisc := b6
      MassProps := b7 },
    P7)

/-- One iteration of the particle loop of `RewindToFrame`: the solver and the registry entry
after the iteration. -/
def RewindParticle (Frame CurFrame : Int) (Sv : FPBDRigidsSolver) (Info : FDirtyParticleInfo) :
    Option (FPBDRigidsSolver × FDirtyParticleInfo) :=
  let PTParticle := Sv.Particles Info.Object
  let History := Info.History.CachePreCorrectionState PTParticle
  let bResimAsFollower := Info.bResimAsFollower
  match RewindChannels ⟨Frame, .PostPushData⟩ ⟨CurFrame, .PrePushData⟩ bResimAsFollower
      History PTParticle with
  | none => none
  | some (bAnyChange, History1, P1) =>
    let Info1 := { Info with History := History1 }
    if !bResimAsFollower then
      -- `if (bAnyChange)`
      let Step1 : Option (Option FPBDRigidsEvolution × FDirtyParticleInfo × FGeometryParticleHandle) :=
        if bAnyChange then
          match Sv.Evolution with
          | none => none
          | some E =>
            some (some (E.MarkTransientDirtyParticle Info.Object),
              { Info1 with DirtyDynamics := INDEX_NONE }, P1.SetEnabledDuringResim true)
        else some (Sv.Evolution, Info1, P1)
      match Step1 with
      | none => none
      | some (Ev2, Info2, P2) =>
        -- `if (DirtyParticleInfo.InitializedOnStep > Frame)`
        if Info.InitializedOnStep > Frame then
          match Ev2 with
          | none => none
          | some E =>
            some ({ Sv with Evolution := some (E.RemoveParticle Info.Object) }.SetParticle Info.Object
              (FPBDRigidsEvolution.DisableParticle P2), Info2)
        else some ({ Sv with Evolution := Ev2 }.SetParticle Info.Object P2, Info2)
    else some (Sv.SetParticle Info.Object P1, Info1)

/-- The particle loop of `RewindToFrame` over the registry, in iteration order. -/
def RewindParticles (Frame CurFrame : Int) :
    FPBDRigidsSolver → List FDirtyParticleInfo → Option (FPBDRigidsSolver × List FDirtyParticleInfo)
  | Sv, [] => some (Sv, [])
  | Sv, Info :: Rest =>
    match RewindParticle Frame CurFrame Sv Info with
    | none => none
    | some (Sv1, Info1) =>
      match RewindParticles Frame CurFrame Sv1 Rest with
      | none => none
      | some (Sv2, Rest1) => some (Sv2, Info1 :: Rest1)

/-- Source function `FRewindData::RewindToFrame`: the returned flag and the coordinator afterwards.  The
`ensure` checks report and continue, they change no state. -/
def RewindToFrame (S : FRewindData) (Frame : Int) : Option (Bool × FRewindData) :=
  let EarliestFrame := S.GetEarliestFrame_Internal
  if Frame < EarliestFrame then
    some (false, S)
  else if Frame = EarliestFrame ∧ S.bNeedsSave = true ∧ S.FramesSaved = S.ManagersCapacity then
    some (false, S)
  else
    match RewindParticles Frame S.CurFrame S.Solver S.DirtyParticles with
    | none => none
    | some (Sv, Dirty) =>
      some (true, { S with Solver := Sv, DirtyParticles := Dirty, CurFrame := Frame, bNeedsSave := false })

/-! ### ApplyInputs, RewindStates and ApplyTargets -/

/-- Source function `FRewindData::ApplyInputs`: every inputs history whose weak pointer is valid receives the
call. -/
def ApplyInputs (S : FRewindData) (ApplyFrame : Int) (bResetSolver : Bool) : FRewindData :=
  { S with InputsHistories := S.InputsHistories.map (fun Hist =>
      if Hist.bValid then { Hist with Calls := Hist.Calls ++ [FHistoryCall.ApplyInputs ApplyFrame bResetSolver] }
      else Hist) }

/-- Source function `FRewindData::RewindStates`: every states history whose weak pointer is valid receives the
call. -/
def RewindStates (S : FRewindData) (RewindFrame : Int) (bResetSolver : Bool) : FRewindData :=
  { S with StatesHistories := S.StatesHistories.map (fun Hist =>
      if Hist.bValid then { Hist with Calls := Hist.Calls ++ [FHistoryCall.RewindStates RewindFrame bResetSolver] }
      else Hist) }

/-- The lambda `RewindHelper` of `ApplyTargets` up to the call of `RewindFunc`: the recorded
target value to apply, if the channel is not clean and the object is not a follower.  The
outer `none` stands for the dereference of a null `Read` result. -/
def TargetToApply {T : Type} (RewindFrameAndPhase : FFrameAndPhase) (bResimAsFollower : Bool)
    (Property : TParticlePropertyBuffer T) : Option (Option T) :=
  if !Property.IsClean RewindFrameAndPhase && !bResimAsFollower then
    match Property.Read RewindFrameAndPhase with
    | some Val => some (some Val)
    | none => none
  else some none

/-- The lambda passed for `TargetStates` in `ApplyTargets`, for a non-null rigid particle `P`
behind pointer `p` and a non-null evolution `E`. -/
def ApplyTargetState (E : FPBDRigidsEvolution) (p : Nat) (P : FGeometryParticleHandle)
    (Data : FParticleDynamicMisc) : FPBDRigidsEvolution × FGeometryParticleHandle :=
  -- Enable or disable the particle
  let (E1, P1) :=
    if P.Disabled ≠ Data.Disabled then
      if Data.Disabled then (E.RemoveParticle p, FPBDRigidsEvolution.DisableParticle P)
      else (E, FPBDRigidsEvolution.EnableParticle P)
    else (E, P)
  let bDirtyInertiaConditioning := decide (P1.ObjectState ≠ Data.ObjectState)
  let P2 := if bDirtyInertiaConditioning then P1.SetInertiaConditioningDirty else P1
  let P3 := P2.SetDisabled Data.Disabled
  let P4 := FPBDRigidsEvolution.SetParticleObjectState P3 Data.ObjectState
  let P5 :=
    if Data.ObjectState = EObjectStateType.Dynamic then P4.SetResimType EResimType.FullResim
    else if Data.ObjectState = EObjectStateType.Static ∨ Data.ObjectState = EObjectStateType.Kinematic then
      P4.SetResimType EResimType.ResimAsFollower
    else P4
  (E1, P5)

/-- One iteration of the particle loop of `ApplyTargets`. -/
def ApplyTargetsParticle (Frame : Int) (Sv : FPBDRigidsSolver) (Info : FDirtyParticleInfo) :
    Option FPBDRigidsSolver :=
  let K : FFrameAndPhase := ⟨Frame, .PostPushData⟩
  let PTParticle := Sv.Particles Info.Object
  let bResimAsFollower := Info.bResimAsFollower
  match TargetToApply K bResimAsFollower Info.History.TargetPositions with
  | none => none
  | some XR =>
    let P1 := match XR with
      | some Data => PTParticle.SetXR Data
      | none => PTParticle
    match TargetToApply K bResimAsFollower Info.History.TargetVelocities with
    | none => none
    | some Vel =>
      let Step2 : Option FGeometryParticleHandle :=
        match Vel with
        | some Data =>
          match P1.CastToKinematicParticle with
          | some Kinematic => some (Kinematic.SetVelocities Data)
          | none => none
        | none => some P1
      match Step2 with
      | none => none
      | some P2 =>
        match TargetToApply K bResimAsFollower Info.History.TargetStates with
        | none => none
        | some St =>
          match St, P2.CastToRigidParticle, Sv.Evolution with
          | some Data, some Rigid, some E =>
            let (E1, P3) := ApplyTargetState E Info.Object Rigid Data
            some ({ Sv with Evolution := some E1 }.SetParticle Info.Object P3)
          | _, _, _ => some (Sv.SetParticle Info.Object P2)

/-- The particle loop of `ApplyTargets` over the registry. -/
def ApplyTargetsParticles (Frame : Int) :
    FPBDRigidsSolver → List FDirtyParticleInfo → Option FPBDRigidsSolver
  | Sv, [] => some Sv
  | Sv, Info :: Rest =>
    match ApplyTargetsParticle Frame Sv Info with
    | none => none
    | some Sv1 => ApplyTargetsParticles Frame Sv1 Rest

/-- Source member `FRewindData::ApplyTargets`. -/
def ApplyTargets (S : FRewindData) (Frame : Int) (bResetSimulation : Bool) : Option FRewindData :=
  let S1 := S.RewindStates Frame bResetSimulation
  match ApplyTargetsParticles Frame S1.Solver S1.DirtyParticles with
  | none => none
  | some Sv => some { S1 with Solver := Sv }

/-! ### Desync detection -/

/-- Source function `FGeometryParticleStateBase::IsResimFrameValid` for the live particle `P` behind pointer
`p`.  The frame-phase argument is unused by the source. -/
def IsResimFrameValid (Sv : FPBDRigidsSolver) (p : Nat) (P : FGeometryParticleHandle) : Bool :=
  if P.Proxy.bHasSolver then
    match Sv.Evolution with
    | some E =>
      if E.bIsResimming then
        let ResimFrame := E.ParticleResimFrame p
        if ResimFrame ≠ INDEX_NONE then false else true
      else true
    | none => true
  else true

/-- Source function `FGeometryParticleStateBase::IsInSync<bSkipDynamics>` for the history `H` against the live
particle `P` behind pointer `p`. -/
def ParticleIsInSync (bSkipDynamics : Bool) (Sv : FPBDRigidsSolver) (H : FGeometryParticleStateBase)
    (p : Nat) (P : FGeometryParticleHandle) (FrameAndPhase : FFrameAndPhase) : Bool :=
  if Sv.bNetworkPhysicsPredictionEnabled && !H.TargetPositions.IsEmpty && !H.TargetVelocities.IsEmpty
      && !H.TargetStates.IsEmpty then
    if !IsResimFrameValid Sv p P then false else true
  else
    if !H.ParticlePositionRotation.IsInSync P.XR FrameAndPhase then false
    else if !H.NonFrequentData.IsInSync P.NonFrequentData FrameAndPhase then false
    else
      let KinematicOk :=
        match P.CastToKinematicParticle with
        | some Kinematic =>
          if !H.Velocities.IsInSync Kinematic.Velocities FrameAndPhase then false
          else if !H.KinematicTarget.IsInSync Kinematic.KinematicTarget FrameAndPhase then false
          else true
        | none => true
      if !KinematicOk then false
      else
        match P.CastToRigidParticle with
        | some Rigid =>
          if !bSkipDynamics && !H.Dynamics.IsInSync Rigid.Dynamics FrameAndPhase then false
          else if !H.DynamicsMisc.IsInSync Rigid.DynamicsMisc FrameAndPhase then false
          else if !H.MassProps.IsInSync Rigid.MassProps FrameAndPhase then false
          else true
        | none => true

/-- Source member `FJointStateBase::IsInSync<bSkipDynamics>`. -/
def JointIsInSync (_bSkipDynamics : Bool) (H : FJointStateBase) (J : FPBDJointConstraintHandle)
    (FrameAndPhase : FFrameAndPhase) : Bool :=
  if !H.JointSettings.IsInSync J.JointSettings FrameAndPhase then false else true

/-- Modelled from the spec: `DesyncObject` (declared in `RewindData.h`): the "first detected
mismatch flips the object to Desynced and truncates/clears its forward-in-time history from
that point". -/
def DesyncParticle (Info : FDirtyParticleInfo) (P : FGeometryParticleHandle) (FrameAndPhase : FFrameAndPhase) :
    FDirtyParticleInfo × FGeometryParticleHandle :=
  ({ Info with History := Info.History.ClearEntryAndFuture FrameAndPhase },
    P.SetSyncState ESyncState.HardDesync)

/-- Modelled from the spec: `DesyncObject` for a joint. -/
def DesyncJoint (Info : FDirtyJointInfo) (J : FPBDJointConstraintHandle) (FrameAndPhase : FFrameAndPhase) :
    FDirtyJointInfo × FPBDJointConstraintHandle :=
  ({ Info with History := Info.History.ClearEntryAndFuture FrameAndPhase },
    J.SetSyncState ESyncState.HardDesync)

/-- Source function `FRewindData::DesyncIfNecessary<bSkipDynamics>` for a particle entry. -/
def DesyncParticleIfNecessary (bSkipDynamics : Bool) (SkipDesyncTest : Int) (Sv : FPBDRigidsSolver)
    (Info : FDirtyParticleInfo) (P : FGeometryParticleHandle) (FrameAndPhase : FFrameAndPhase) :
    FDirtyParticleInfo × FGeometryParticleHandle :=
  if P.SyncState = ESyncState.InSync
      ∧ ParticleIsInSync bSkipDynamics Sv Info.History Info.Object P FrameAndPhase = false then
    if SkipDesyncTest = 0 then DesyncParticle Info P FrameAndPhase else (Info, P)
  else (Info, P)

/-- Source function `FRewindData::DesyncIfNecessary<bSkipDynamics>` for a joint entry. -/
def DesyncJointIfNecessary (bSkipDynamics : Bool) (SkipDesyncTest : Int)
    (Info : FDirtyJointInfo) (J : FPBDJointConstraintHandle) (FrameAndPhase : FFrameAndPhase) :
    FDirtyJointInfo × FPBDJointConstraintHandle :=
  if J.SyncState = ESyncState.InSync
      ∧ JointIsInSync bSkipDynamics Info.History J FrameAndPhase = false then
    if SkipDesyncTest = 0 then DesyncJoint Info J FrameAndPhase else (Info, J)
  else (Info, J)

end FRewindData

/-! ### Error accumulation -/

namespace FVec3

/-- Component-wise difference. -/
def sub (a b : FVec3) : FVec3 := ⟨a.X - b.X, a.Y - b.Y, a.Z - b.Z⟩

/-- Component-wise sum. -/
def add (a b : FVec3) : FVec3 := ⟨a.X + b.X, a.Y + b.Y, a.Z + b.Z⟩

/-- The zero vector. -/
def zero : FVec3 := ⟨0, 0, 0⟩

/-- Modelled from the spec: `IsNearlyZero(Tolerance)`: no component exceeds the tolerance in
magnitude. -/
def IsNearlyZero (a : FVec3) (Tolerance : FReal) : Bool :=
  decide (|a.X| ≤ Tolerance) && decide (|a.Y| ≤ Tolerance) && decide (|a.Z| ≤ Tolerance)

end FVec3

namespace FDirtyParticleErrorInfo

/-- Modelled from the spec: `AccumulateError` adds the positional error and composes the
rotational error into the accumulated one. -/
def AccumulateError (M : FQuatMath) (Er : FDirtyParticleErrorInfo) (ErrorX : FVec3) (ErrorR : FQuat) :
    FDirtyParticleErrorInfo :=
  { Er with ErrorX := Er.ErrorX.add ErrorX, ErrorR := M.Mul Er.ErrorR ErrorR }

/-- Modelled from the spec: a freshly created accumulator entry holds no error yet. -/
def Create (M : FQuatMath) (Obj : Nat) : FDirtyParticleErrorInfo :=
  ⟨Obj, FVec3.zero, M.Identity⟩

end FDirtyParticleErrorInfo

namespace FRewindData

/-- Accumulate into the entry of particle `Obj`, which the caller knows to be present: the
first entry of the particle is the one `Find` returns. -/
def AccumulateInto (M : FQuatMath) (Obj : Nat) (ErrorX : FVec3) (ErrorR : FQuat) :
    List FDirtyParticleErrorInfo → List FDirtyParticleErrorInfo
  | [] => []
  | Er :: Rest =>
    if Er.Object = Obj then Er.AccumulateError M ErrorX ErrorR :: Rest
    else Er :: AccumulateInto M Obj ErrorX ErrorR Rest

/-- Source function `FRewindData::AccumulateErrorIfNecessary` for the live particle `P` behind pointer `Obj`:
the error accumulator afterwards. -/
def AccumulateErrorIfNecessary (M : FQuatMath) (DirtyParticles : List FDirtyParticleInfo)
    (DirtyParticleErrors : List FDirtyParticleErrorInfo) (Obj : Nat) (P : FGeometryParticleHandle) :
    List FDirtyParticleErrorInfo :=
  match DirtyParticles.find? (fun Info => decide (Info.Object = Obj)) with
  | none => DirtyParticleErrors
  | some DirtyInfo =>
    -- Get the error offset after a correction
    let ErrorX := DirtyInfo.History.PreCorrectionXR.X.sub P.XR.X
    let ErrorR0 := M.Mul DirtyInfo.History.PreCorrectionXR.R (M.Inverse P.XR.R)
    let ErrorR1 := M.EnforceShortestArcWith ErrorR0 M.Identity
    let ErrorR := M.Normalize ErrorR1
    -- Check if error is large enough to hide behind render interpolation
    if !ErrorX.IsNearlyZero (1 / 10) || !M.IsIdentity ErrorR (2 / 100) then
      if DirtyParticleErrors.any (fun Er => decide (Er.Object = Obj)) then
        AccumulateInto M Obj ErrorX ErrorR DirtyParticleErrors
      else
        DirtyParticleErrors ++ [(FDirtyParticleErrorInfo.Create M Obj).AccumulateError M ErrorX ErrorR]
    else DirtyParticleErrors

/-! ### FinishFrame -/

/-- Modelled from the spec: `Info.ClearPhaseAndFuture` clears the snapshot of the entry from
the key onward. -/
def ClearPhaseAndFutureParticle (Info : FDirtyParticleInfo) (K : FFrameAndPhase) : FDirtyParticleInfo :=
  { Info with History := Info.History.ClearEntryAndFuture K }

/-- Modelled from the spec: `Info.ClearPhaseAndFuture` for a joint entry. -/
def ClearPhaseAndFutureJoint (Info : FDirtyJointInfo) (K : FFrameAndPhase) : FDirtyJointInfo :=
  { Info with History := Info.History.ClearEntryAndFuture K }

/-- The body of the loop of `FinishHelper` for one particle entry.  `Registry` is the particle
registry as it stands when the body runs (it is searched by `AccumulateErrorIfNecessary`).
The result is the entry, the solver and the error accumulator afterwards. -/
def FinishParticle (M : FQuatMath) (S : FRewindData) (FutureFrame : FFrameAndPhase)
    (Registry : List FDirtyParticleInfo) (Sv : FPBDRigidsSolver)
    (Errors : List FDirtyParticleErrorInfo) (Info : FDirtyParticleInfo) :
    FDirtyParticleInfo × FPBDRigidsSolver × List FDirtyParticleErrorInfo :=
  if Info.bResimAsFollower then (Info, Sv, Errors)
  else
    let Handle := Sv.Particles Info.Object
    if Handle.ResimType = EResimType.FullResim then
      if S.IsFinalResim then
        let Errors1 := AccumulateErrorIfNecessary M Registry Errors Info.Object Handle
        let Handle1 := (Handle.SetSyncState ESyncState.InSync).SetEnabledDuringResim false
        (ClearPhaseAndFutureParticle Info FutureFrame, Sv.SetParticle Info.Object Handle1, Errors1)
      else
        let (Info1, Handle1) :=
          DesyncParticleIfNecessary true S.SkipDesyncTest Sv Info Handle FutureFrame
        (Info1, Sv.SetParticle Info.Object Handle1, Errors)
    else (Info, Sv, Errors)

/-- The loop of `FinishHelper` over the particle registry: `Done` are the entries already
visited, `Todo` the ones still to visit. -/
def FinishParticles (M : FQuatMath) (S : FRewindData) (FutureFrame : FFrameAndPhase) :
    List FDirtyParticleInfo → List FDirtyParticleInfo → FPBDRigidsSolver →
    List FDirtyParticleErrorInfo →
    List FDirtyParticleInfo × FPBDRigidsSolver × List FDirtyParticleErrorInfo
  | Done, [], Sv, Errors => (Done, Sv, Errors)
  | Done, Info :: Rest, Sv, Errors =>
    match FinishParticle M S FutureFrame (Done ++ Info :: Rest) Sv Errors Info with
    | (Info1, Sv1, Errors1) => FinishParticles M S FutureFrame (Done ++ [Info1]) Rest Sv1 Errors1

/-- The body of the loop of `FinishHelper` for one joint entry.  Joints have no error
accumulator: `AccumulateErrorIfNecessary` is specialised for particles only. -/
def FinishJoint (S : FRewindData) (FutureFrame : FFrameAndPhase) (Sv : FPBDRigidsSolver)
    (Info : FDirtyJointInfo) : FDirtyJointInfo × FPBDRigidsSolver :=
  if Info.bResimAsFollower then (Info, Sv)
  else
    let Handle := Sv.Joints Info.Object
    if Handle.ResimType = EResimType.FullResim then
      if S.IsFinalResim then
        let Handle1 := (Handle.SetSyncState ESyncState.InSync).SetEnabledDuringResim false
        (ClearPhaseAndFutureJoint Info FutureFrame, Sv.SetJoint Info.Object Handle1)
      else
        let (Info1, Handle1) := DesyncJointIfNecessary true S.SkipDesyncTest Info Handle FutureFrame
        (Info1, Sv.SetJoint Info.Object Handle1)
    else (Info, Sv)

/-- The loop of `FinishHelper` over the joint registry. -/
def FinishJoints (S : FRewindData) (FutureFrame : FFrameAndPhase) :
    List FDirtyJointInfo → FPBDRigidsSolver → List FDirtyJointInfo × FPBDRigidsSolver
  | [], Sv => ([], Sv)
  | Info :: Rest, Sv =>
    match FinishJoint S FutureFrame Sv Info with
    | (Info1, Sv1) =>
      match FinishJoints S FutureFrame Rest Sv1 with
      | (Rest1, Sv2) => (Info1 :: Rest1, Sv2)

/-- The resimulation part of `FinishFrame` (the body of `if (IsResim())`). -/
def FinishResim (M : FQuatMath) (S : FRewindData) : FRewindData :=
  let FutureFrame : FFrameAndPhase := ⟨S.CurFrame + 1, .PrePushData⟩
  match FinishParticles M S FutureFrame [] S.DirtyParticles S.Solver S.DirtyParticleErrors with
  | (Particles, Sv1, Errors) =>
    match FinishJoints S FutureFrame S.DirtyJoints Sv1 with
    | (Joints, Sv2) =>
      { S with DirtyParticles := Particles, DirtyJoints := Joints, DirtyParticleErrors := Errors,
               Solver := Sv2 }

/-- Source member `FRewindData::FinishFrame`. -/
def FinishFrame (M : FQuatMath) (S : FRewindData) : FRewindData :=
  let S1 := if S.IsResim then FinishResim M S else S
  -- `++CurFrame` on an `int32`
  let CurFrame := WrapInt32 (S1.CurFrame + 1)
  { S1 with CurFrame := CurFrame, LatestFrame := max S1.LatestFrame CurFrame }

/-! ### AdvanceFrameImp -/

/-- Modelled from the spec: `Info.AddFrame(Frame)` marks the entry dirty on `Frame` (its
last-dirty-frame) and hands out its snapshot. -/
def AddFrameParticle (Info : FDirtyParticleInfo) (Frame : Int) : FDirtyParticleInfo :=
  { Info with LastDirtyFrame := Frame }

/-- The resim cache handed to `AdvanceFrameImp` (`IResimCacheBase`): the desynced particles
it was last given. -/
structure IResimCacheBase where
  DesyncedParticles : List Nat
  deriving DecidableEq

/-- The body of the loop of `AdvanceHelper` for one particle entry, with the two lambdas
passed for particles.  The entry is `none` when the object is removed from the registry. -/
def AdvanceParticle (S : FRewindData) (EarliestFrame : Int) (FrameAndPhase : FFrameAndPhase)
    (Sv : FPBDRigidsSolver) (DesyncedParticles : List Nat) (Info : FDirtyParticleInfo) :
    Option FDirtyParticleInfo × FPBDRigidsSolver × List Nat :=
  -- if hasn't changed in a while stop tracking
  if Info.LastDirtyFrame < EarliestFrame then (none, Sv, DesyncedParticles)
  else
    let Handle := Sv.Particles Info.Object
    let Info1 := { Info with bResimAsFollower := decide (Handle.ResimType = EResimType.ResimAsFollower) }
    let (Info2, Handle2) :=
      if S.IsResim && !Info1.bResimAsFollower then
        DesyncParticleIfNecessary false S.SkipDesyncTest Sv Info1 Handle FrameAndPhase
      else (Info1, Handle)
    let (Handle3, Desynced3) :=
      if S.IsResim && decide (Handle2.SyncState ≠ ESyncState.InSync) && decide (S.SkipDesyncTest = 0) then
        (Handle2.SetEnabledDuringResim true, DesyncedParticles ++ [Info.Object])
      else (Handle2, DesyncedParticles)
    -- the lambda `AdvanceDirtyFunc`
    let Info4 :=
      if Info2.DirtyDynamics = S.CurFrame ∧ S.IsResimAndInSync Handle3.SyncState = false then
        match Handle3.CastToRigidParticle with
        | some Rigid =>
          let Latest := AddFrameParticle Info2 S.CurFrame
          { Latest with History := { Latest.History with
              Dynamics := Latest.History.Dynamics.WriteAccessMonotonic FrameAndPhase Rigid.Dynamics } }
        | none => Info2
      else Info2
    (some Info4, Sv.SetParticle Info.Object Handle3, Desynced3)

/-- The loop of `AdvanceHelper` over the particle registry.  The source walks the dense array
from the last index down to the first, so the tail of the list is visited before its head. -/
def AdvanceParticles (S : FRewindData) (EarliestFrame : Int) (FrameAndPhase : FFrameAndPhase) :
    List FDirtyParticleInfo → FPBDRigidsSolver → List Nat →
    List FDirtyParticleInfo × FPBDRigidsSolver × List Nat
  | [], Sv, Desynced => ([], Sv, Desynced)
  | Info :: Rest, Sv, Desynced =>
    match AdvanceParticles S EarliestFrame FrameAndPhase Rest Sv Desynced with
    | (Rest1, Sv1, Desynced1) =>
      match AdvanceParticle S EarliestFrame FrameAndPhase Sv1 Desynced1 Info with
      | (none, Sv2, Desynced2) => (Rest1, Sv2, Desynced2)
      | (some Info1, Sv2, Desynced2) => (Info1 :: Rest1, Sv2, Desynced2)

/-- The body of the loop of `AdvanceHelper` for one joint entry, with the two empty lambdas
passed for joints. -/
def AdvanceJoint (S : FRewindData) (EarliestFrame : Int) (FrameAndPhase : FFrameAndPhase)
    (Sv : FPBDRigidsSolver) (Info : FDirtyJointInfo) : Option FDirtyJointInfo × FPBDRigidsSolver :=
  if Info.LastDirtyFrame < EarliestFrame then (none, Sv)
  else
    let Handle := Sv.Joints Info.Object
    let Info1 := { Info with bResimAsFollower := decide (Handle.ResimType = EResimType.ResimAsFollower) }
    let (Info2, Handle2) :=
      if S.IsResim && !Info1.bResimAsFollower then
        DesyncJointIfNecessary false S.SkipDesyncTest Info1 Handle FrameAndPhase
      else (Info1, Handle)
    let Handle3 :=
      if S.IsResim && decide (Handle2.SyncState ≠ ESyncState.InSync) && decide (S.SkipDesyncTest = 0) then
        Handle2.SetEnabledDuringResim true
      else Handle2
    (some Info2, Sv.SetJoint Info.Object Handle3)

/-- The loop of `AdvanceHelper` over the joint registry, last index first. -/
def AdvanceJoints (S : FRewindData) (EarliestFrame : Int) (FrameAndPhase : FFrameAndPhase) :
    List FDirtyJointInfo → FPBDRigidsSolver → List FDirtyJointInfo × FPBDRigidsSolver
  | [], Sv => ([], Sv)
  | Info :: Rest, Sv =>
    match AdvanceJoints S EarliestFrame FrameAndPhase Rest Sv with
    | (Rest1, Sv1) =>
      match AdvanceJoint S EarliestFrame FrameAndPhase Sv1 Info with
      | (none, Sv2) => (Rest1, Sv2)
      | (some Info1, Sv2) => (Info1 :: Rest1, Sv2)

/-- Source function `FRewindData::AdvanceFrameImp`: the coordinator and the resim cache (null or not)
afterwards. -/
def AdvanceFrameImp (S : FRewindData) (ResimCache : Option IResimCacheBase) :
    FRewindData × Option IResimCacheBase :=
  let FramesSaved := min (S.FramesSaved + 1) (S.ManagersCapacity - 1)
  let S0 := { S with FramesSaved := FramesSaved }
  let EarliestFrame := S0.CurFrame - 1 - S0.FramesSaved
  let FrameAndPhase : FFrameAndPhase := ⟨S0.CurFrame, .PostCallbacks⟩
  match AdvanceParticles S0 EarliestFrame FrameAndPhase S0.DirtyParticles S0.Solver [] with
  | (Particles, Sv1, DesyncedParticles) =>
    match AdvanceJoints S0 EarliestFrame FrameAndPhase S0.DirtyJoints Sv1 with
    | (Joints, Sv2) =>
      let S1 := { S0 with DirtyParticles := Particles, DirtyJoints := Joints, Solver := Sv2 }
      let Cache :=
        match ResimCache with
        | some _ => if S1.IsResim then some (IResimCacheBase.mk DesyncedParticles) else ResimCache
        | none => none
      (S1, Cache)

end FRewindData

/-! ## Example states

A rigid particle behind pointer `0`, tracked since frame 0, whose position was recorded on
frames 11 and 15, in a coordinator at frame 20 that retains ten frames. -/

/-- A transform at position `(x, 0, 0)` with the identity rotation. -/
def ExampleXR (x : FReal) : FParticlePositionRotation := ⟨⟨x, 0, 0⟩, ⟨0, 0, 0, 1⟩⟩

/-- A live rigid particle, enabled, dynamic and in sync, at position `(7, 0, 0)`. -/
def ExampleParticle : FGeometryParticleHandle where
  ParticleType := .Rigid
  XR := ExampleXR 7
  Velocities := ⟨⟨1, 0, 0⟩, ⟨0, 0, 0⟩⟩
  NonFrequentData := ⟨0⟩
  KinematicTarget := ⟨0⟩
  Dynamics := ⟨0⟩
  DynamicsMisc := ⟨.Dynamic, false⟩
  MassProps := ⟨1⟩
  SyncState := .InSync
  ResimType := .FullResim
  bEnabledDuringResim := false
  bInertiaConditioningDirty := false
  Proxy := ⟨true, 0, true⟩

/-- A live joint, in sync. -/
def ExampleJoint : FPBDJointConstraintHandle where
  JointSettings := ⟨0⟩
  SyncState := .InSync
  ResimType := .FullResim
  bEnabledDuringResim := false

/-- A snapshot with nothing recorded. -/
def EmptyHistory : FGeometryParticleStateBase where
  ParticlePositionRotation := ⟨[]⟩
  NonFrequentData := ⟨[]⟩
  Velocities := ⟨[]⟩
  KinematicTarget := ⟨[]⟩
  Dynamics := ⟨[]⟩
  DynamicsMisc := ⟨[]⟩
  MassProps := ⟨[]⟩
  TargetPositions := ⟨[]⟩
  TargetVelocities := ⟨[]⟩
  TargetStates := ⟨[]⟩
  PreCorrectionXR := ExampleXR 0

/-- A snapshot whose position channel was written on frames 11 and 15 and whose misc dynamic
flags were written on frame 11 (enabled, dynamic). -/
def ExampleHistory : FGeometryParticleStateBase :=
  { EmptyHistory with
    ParticlePositionRotation := ⟨[(⟨15, .PostPushData⟩, ExampleXR 5), (⟨11, .PostPushData⟩, ExampleXR 3)]⟩
    DynamicsMisc := ⟨[(⟨11, .PostPushData⟩, ⟨.Dynamic, false⟩)]⟩ }

/-- The registry entry of the example particle. -/
def ExampleInfo : FDirtyParticleInfo where
  Object := 0
  History := ExampleHistory
  LastDirtyFrame := 15
  InitializedOnStep := 0
  bResimAsFollower := false
  DirtyDynamics := INDEX_NONE

/-- An evolution that is not resimming and holds particle `0` in its island manager. -/
def ExampleEvolution : FPBDRigidsEvolution where
  bIsResimming := false
  IslandParticles := [0]
  ParticleResimFrame := fun _ => INDEX_NONE
  TransientDirtyParticles := []

/-- A solver in which every pointer leads to the example particle and the example joint. -/
def ExampleSolver : FPBDRigidsSolver where
  Particles := fun _ => ExampleParticle
  Joints := fun _ => ExampleJoint
  Evolution := some ExampleEvolution
  bNetworkPhysicsPredictionEnabled := false

/-- A coordinator at head: frame 20, ten frames retained out of a capacity of 32. -/
def ExampleState : FRewindData where
  CurFrame := 20
  LatestFrame := 20
  FramesSaved := 10
  bNeedsSave := true
  ManagersCapacity := 32
  DirtyParticles := [ExampleInfo]
  DirtyJoints := []
  DirtyParticleErrors := []
  InputsHistories := []
  StatesHistories := []
  Solver := ExampleSolver
  SkipDesyncTest := 0

/-- The example coordinator after a rewind to frame 12. -/
def ExampleRewound : FRewindData :=
  ((ExampleState.RewindToFrame 12).getD (false, ExampleState)).2

/-- The example coordinator at frame 42 with a saturated window (as many frames saved as the
`Managers` buffer holds, so that frame 10 is the earliest retained frame) and nothing pending
to save. -/
def ExampleSaturated : FRewindData :=
  { ExampleState with CurFrame := 42, LatestFrame := 42, FramesSaved := 32, bNeedsSave := false }

/-- The channels of a snapshot fit the type of the live particle: velocities and kinematic
target are recorded for kinematic and rigid particles only, dynamics, misc dynamic flags and
mass properties for rigid particles only (the recording paths write them under the
corresponding cast). -/
def ChannelsMatchType (H : FGeometryParticleStateBase) (P : FGeometryParticleHandle) : Prop :=
  (P.ParticleType = EParticleType.Static → H.Velocities.Buffer = [] ∧ H.KinematicTarget.Buffer = []) ∧
  (P.ParticleType ≠ EParticleType.Rigid →
    H.Dynamics.Buffer = [] ∧ H.DynamicsMisc.Buffer = [] ∧ H.MassProps.Buffer = [])

/-- A coordinator on which the particle loop of `RewindToFrame` dereferences no null pointer:
the solver has an evolution and every tracked particle's channels fit its type. -/
def RewindSafe (S : FRewindData) : Prop :=
  S.Solver.Evolution.isSome = true ∧
  ∀ Info ∈ S.DirtyParticles, ChannelsMatchType Info.History (S.Solver.Particles Info.Object)

/-- Post-condition of one channel after a rewind from key `CurKey` back to key `RewindKey`,
for a channel that was not clean at `RewindKey`: the channel afterwards holds at `CurKey` the
live value from before the call, the live value afterwards is what the channel reads at
`RewindKey`, and when `RewindKey` lies before `CurKey` that is also what it read there before
the call. -/
def Rewound {T : Type} (RewindKey CurKey : FFrameAndPhase) (Before After : TParticlePropertyBuffer T)
    (LiveBefore LiveAfter : T) : Prop :=
  Before.IsClean RewindKey = false →
    After.Read CurKey = some LiveBefore ∧ After.Read RewindKey = some LiveAfter ∧
    (CurKey.le RewindKey = false → Before.Read RewindKey = some LiveAfter)

/-- Post-condition of the misc dynamic flags channel after a rewind of a particle that is
disabled afterwards as not yet spawned: as `Rewound`, but the live value afterwards is the
value read at `RewindKey` with the disabled flag set. -/
def RewoundDisabled (RewindKey CurKey : FFrameAndPhase)
    (Before After : TParticlePropertyBuffer FParticleDynamicMisc)
    (LiveBefore LiveAfter : FParticleDynamicMisc) : Prop :=
  Before.IsClean RewindKey = false →
    After.Read CurKey = some LiveBefore ∧
    ∃ v, After.Read RewindKey = some v ∧ LiveAfter = { v with Disabled := true } ∧
      (CurKey.le RewindKey = false → Before.Read RewindKey = some v)

/-- Post-condition of a rewind from frame `CurFrame` to frame `Frame` for one tracked particle
that is not resim-as-follower: `Info`, `P` are the registry entry and the live particle before
the call, `Info1`, `P1` after it.  Every organic channel is `Rewound`; the misc dynamic flags
of a particle not yet spawned on `Frame` end disabled. -/
def RewoundParticle (Frame CurFrame : Int) (Info : FDirtyParticleInfo) (P : FGeometryParticleHandle)
    (Info1 : FDirtyParticleInfo) (P1 : FGeometryParticleHandle) : Prop :=
  Rewound ⟨Frame, .PostPushData⟩ ⟨CurFrame, .PrePushData⟩
    Info.History.ParticlePositionRotation Info1.History.ParticlePositionRotation P.XR P1.XR ∧
  Rewound ⟨Frame, .PostPushData⟩ ⟨CurFrame, .PrePushData⟩
    Info.History.Velocities Info1.History.Velocities P.Velocities P1.Velocities ∧
  Rewound ⟨Frame, .PostPushData⟩ ⟨CurFrame, .PrePushData⟩
    Info.History.NonFrequentData Info1.History.NonFrequentData P.NonFrequentData P1.NonFrequentData ∧
  Rewound ⟨Frame, .PostPushData⟩ ⟨CurFrame, .PrePushData⟩
    Info.History.KinematicTarget Info1.History.KinematicTarget P.KinematicTarget P1.KinematicTarget ∧
  Rewound ⟨Frame, .PostPushData⟩ ⟨CurFrame, .PrePushData⟩
    Info.History.Dynamics Info1.History.Dynamics P.Dynamics P1.Dynamics ∧
  Rewound ⟨Frame, .PostPushData⟩ ⟨CurFrame, .PrePushData⟩
    Info.History.MassProps Info1.History.MassProps P.MassProps P1.MassProps ∧
  (Info.InitializedOnStep ≤ Frame →
    Rewound ⟨Frame, .PostPushData⟩ ⟨CurFrame, .PrePushData⟩
      Info.History.DynamicsMisc Info1.History.DynamicsMisc P.DynamicsMisc P1.DynamicsMisc) ∧
  (Info.InitializedOnStep > Frame →
    RewoundDisabled ⟨Frame, .PostPushData⟩ ⟨CurFrame, .PrePushData⟩
      Info.History.DynamicsMisc Info1.History.DynamicsMisc P.DynamicsMisc P1.DynamicsMisc)

/-- The example registry entry for a particle that only spawns on frame 15. -/
def ExampleInfoUnspawned : FDirtyParticleInfo :=
  { ExampleInfo with InitializedOnStep := 15 }

/-- The example coordinator tracking the particle that only spawns on frame 15. -/
def ExampleUnspawned : FRewindData :=
  { ExampleState with DirtyParticles := [ExampleInfoUnspawned] }

/-- The coordinator `ExampleUnspawned` after a rewind to frame 12. -/
def ExampleUnspawnedRewound : FRewindData :=
  ((ExampleUnspawned.RewindToFrame 12).getD (false, ExampleUnspawned)).2

/-- Post-condition of a successful `RewindToFrame(Frame)` on the spawn rule, for one tracked
particle: `P`, `Island` are the live particle and the island manager's particles before the
call, `Info1`, `P1`, `Island1` the registry entry, the live particle and the island manager's
particles after it.  A non-follower particle initialized after `Frame` ends disabled and out
of the island manager; a particle initialized on or before `Frame` keeps its place in the
island manager and its misc dynamic flags are either untouched or the restored ones. -/
def SpawnRule (Frame : Int) (Info : FDirtyParticleInfo) (P : FGeometryParticleHandle)
    (Island : Option (List Nat)) (Info1 : FDirtyParticleInfo) (P1 : FGeometryParticleHandle)
    (Island1 : Option (List Nat)) : Prop :=
  (Info.bResimAsFollower = false → Info.InitializedOnStep > Frame →
    P1.Disabled = true ∧ ∃ Members, Island1 = some Members ∧ Info.Object ∉ Members) ∧
  (Info.InitializedOnStep ≤ Frame →
    (P1.DynamicsMisc = P.DynamicsMisc ∨
      Info1.History.DynamicsMisc.Read ⟨Frame, .PostPushData⟩ = some P1.DynamicsMisc) ∧
    (∀ Members Members1, Island = some Members → Island1 = some Members1 →
      (Info.Object ∈ Members1 ↔ Info.Object ∈ Members)))

/-- The particles held by the island manager of the solver's evolution, if there is one. -/
def FPBDRigidsSolver.Island (Sv : FPBDRigidsSolver) : Option (List Nat) :=
  Sv.Evolution.map (fun E => E.IslandParticles)

/-! ### Forgetting one channel family -/

/-- The snapshot with its three target channels emptied. -/
def FGeometryParticleStateBase.EraseTargets (H : FGeometryParticleStateBase) :
    FGeometryParticleStateBase :=
  { H with TargetPositions := ⟨[]⟩, TargetVelocities := ⟨[]⟩, TargetStates := ⟨[]⟩ }

/-- The snapshot with its seven organic channels emptied. -/
def FGeometryParticleStateBase.EraseOrganic (H : FGeometryParticleStateBase) :
    FGeometryParticleStateBase :=
  { H with
    ParticlePositionRotation := ⟨[]⟩
    NonFrequentData := ⟨[]⟩
    Velocities := ⟨[]⟩
    KinematicTarget := ⟨[]⟩
    Dynamics := ⟨[]⟩
    DynamicsMisc := ⟨[]⟩
    MassProps := ⟨[]⟩ }

/-- The three target channels of a snapshot. -/
def FGeometryParticleStateBase.Targets (H : FGeometryParticleStateBase) :
    TParticlePropertyBuffer FParticlePositionRotation × TParticlePropertyBuffer FParticleVelocities ×
      TParticlePropertyBuffer FParticleDynamicMisc :=
  (H.TargetPositions, H.TargetVelocities, H.TargetStates)

/-- The seven organic channels of a snapshot. -/
def FGeometryParticleStateBase.Organic (H : FGeometryParticleStateBase) :
    TParticlePropertyBuffer FParticlePositionRotation × TParticlePropertyBuffer FParticleNonFrequentData ×
      TParticlePropertyBuffer FParticleVelocities × TParticlePropertyBuffer FKinematicTarget ×
      TParticlePropertyBuffer FParticleDynamics × TParticlePropertyBuffer FParticleDynamicMisc ×
      TParticlePropertyBuffer FParticleMassProps :=
  (H.ParticlePositionRotation, H.NonFrequentData, H.Velocities, H.KinematicTarget, H.Dynamics,
    H.DynamicsMisc, H.MassProps)

/-- The registry entry with its target channels emptied. -/
def FDirtyParticleInfo.EraseTargets (Info : FDirtyParticleInfo) : FDirtyParticleInfo :=
  { Info with History := Info.History.EraseTargets }

/-- The registry entry with its organic channels emptied. -/
def FDirtyParticleInfo.EraseOrganic (Info : FDirtyParticleInfo) : FDirtyParticleInfo :=
  { Info with History := Info.History.EraseOrganic }

/-- The coordinator with the target channels of every tracked particle emptied: two
coordinators with the same image differ only in target channels. -/
def FRewindData.EraseTargets (S : FRewindData) : FRewindData :=
  { S with DirtyParticles := S.DirtyParticles.map FDirtyParticleInfo.EraseTargets }

/-- The coordinator with the organic channels of every tracked particle emptied: two
coordinators with the same image differ only in organic channels. -/
def FRewindData.EraseOrganic (S : FRewindData) : FRewindData :=
  { S with DirtyParticles := S.DirtyParticles.map FDirtyParticleInfo.EraseOrganic }

/-- The example snapshot with target values recorded on frame 12. -/
def ExampleHistoryTargets : FGeometryParticleStateBase :=
  { ExampleHistory with
    TargetPositions := ⟨[(⟨12, .PostPushData⟩, ExampleXR 9)]⟩
    TargetVelocities := ⟨[(⟨12, .PostPushData⟩, ⟨⟨2, 0, 0⟩, ⟨0, 0, 0⟩⟩)]⟩
    TargetStates := ⟨[(⟨12, .PostPushData⟩, ⟨.Sleeping, false⟩)]⟩ }

/-- The example coordinator with targets recorded for its particle. -/
def ExampleStateTargets : FRewindData :=
  { ExampleState with DirtyParticles := [{ ExampleInfo with History := ExampleHistoryTargets }] }

/-- The example coordinator with targets recorded for its particle and no organic history. -/
def ExampleStateTargetsOnly : FRewindData :=
  { ExampleState with
    DirtyParticles := [{ ExampleInfo with History := ExampleHistoryTargets.EraseOrganic }] }

/-! ### Post-conditions of the final resim pass -/

/-- Every channel of the particle snapshot is cleared from key `K` onward. -/
def FGeometryParticleStateBase.ClearedFrom (H : FGeometryParticleStateBase) (K : FFrameAndPhase) : Prop :=
  H.ParticlePositionRotation.ClearedFrom K ∧ H.NonFrequentData.ClearedFrom K ∧
  H.Velocities.ClearedFrom K ∧ H.KinematicTarget.ClearedFrom K ∧ H.Dynamics.ClearedFrom K ∧
  H.DynamicsMisc.ClearedFrom K ∧ H.MassProps.ClearedFrom K ∧ H.TargetPositions.ClearedFrom K ∧
  H.TargetVelocities.ClearedFrom K ∧ H.TargetStates.ClearedFrom K

/-- The joint snapshot is cleared from key `K` onward. -/
def FJointStateBase.ClearedFrom (H : FJointStateBase) (K : FFrameAndPhase) : Prop :=
  H.JointSettings.ClearedFrom K

/-- Post-condition of `FinishFrame` on the final resim pass for one tracked particle: `Info`,
`P` are the registry entry and live particle before the call, `Info1`, `P1` after it, and
`FutureFrame` is the old `CurFrame + 1`. -/
def FinalResimParticle (FutureFrame : Int) (Info : FDirtyParticleInfo) (P : FGeometryParticleHandle)
    (Info1 : FDirtyParticleInfo) (P1 : FGeometryParticleHandle) : Prop :=
  (Info.bResimAsFollower = false → P.ResimType = EResimType.FullResim →
    P1.SyncState = ESyncState.InSync ∧ P1.bEnabledDuringResim = false ∧
    Info1.History.ClearedFrom ⟨FutureFrame, .PrePushData⟩) ∧
  (Info.bResimAsFollower = true → Info1 = Info ∧ P1 = P)

/-- Post-condition of `FinishFrame` on the final resim pass for one tracked joint. -/
def FinalResimJoint (FutureFrame : Int) (Info : FDirtyJointInfo) (J : FPBDJointConstraintHandle)
    (Info1 : FDirtyJointInfo) (J1 : FPBDJointConstraintHandle) : Prop :=
  (Info.bResimAsFollower = false → J.ResimType = EResimType.FullResim →
    J1.SyncState = ESyncState.InSync ∧ J1.bEnabledDuringResim = false ∧
    Info1.History.ClearedFrom ⟨FutureFrame, .PrePushData⟩) ∧
  (Info.bResimAsFollower = true → Info1 = Info ∧ J1 = J)

/-- Exact quaternion routines for the examples: Hamilton product, conjugate, sign flip onto
the shorter arc, and a normalisation that leaves its argument as it is. -/
def ExampleQuatMath : FQuatMath where
  Identity := ⟨0, 0, 0, 1⟩
  Mul := fun a b =>
    ⟨a.W * b.X + a.X * b.W + a.Y * b.Z - a.Z * b.Y,
     a.W * b.Y - a.X * b.Z + a.Y * b.W + a.Z * b.X,
     a.W * b.Z + a.X * b.Y - a.Y * b.X + a.Z * b.W,
     a.W * b.W - a.X * b.X - a.Y * b.Y - a.Z * b.Z⟩
  Inverse := fun a => ⟨-a.X, -a.Y, -a.Z, a.W⟩
  EnforceShortestArcWith := fun a b =>
    if a.X * b.X + a.Y * b.Y + a.Z * b.Z + a.W * b.W < 0 then ⟨-a.X, -a.Y, -a.Z, -a.W⟩ else a
  Normalize := fun a => a
  IsIdentity := fun a Tolerance =>
    decide (|a.X| ≤ Tolerance) && decide (|a.Y| ≤ Tolerance) && decide (|a.Z| ≤ Tolerance)
      && decide (|a.W - 1| ≤ Tolerance)

/-- The example particle while it is being resimulated: desynced and enabled during resim. -/
def ExampleParticleDesynced : FGeometryParticleHandle :=
  { ExampleParticle with SyncState := .HardDesync, bEnabledDuringResim := true }

/-- A registry entry whose position channel also holds the head value saved on frame 20. -/
def ExampleInfoHead : FDirtyParticleInfo :=
  { ExampleInfo with
    History := { ExampleHistory with
      ParticlePositionRotation :=
        ⟨[(⟨20, .PrePushData⟩, ExampleXR 7), (⟨11, .PostPushData⟩, ExampleXR 3)]⟩ } }

/-- A tracked joint behind pointer `0` with settings saved on frame 20. -/
def ExampleJointInfo : FDirtyJointInfo where
  Object := 0
  History := ⟨⟨[(⟨20, .PrePushData⟩, ⟨4⟩)]⟩⟩
  LastDirtyFrame := 15
  InitializedOnStep := 0
  bResimAsFollower := false

/-- A coordinator on its final resim pass: frame 19 of 20, its particle desynced. -/
def ExampleFinalResim : FRewindData :=
  { ExampleState with
    CurFrame := 19
    LatestFrame := 20
    DirtyParticles := [ExampleInfoHead]
    DirtyJoints := [ExampleJointInfo]
    Solver := { ExampleSolver with Particles := fun _ => ExampleParticleDesynced } }

/-- The properties of a live particle that no channel restores. -/
def FGeometryParticleHandle.Rest (P : FGeometryParticleHandle) :
    EParticleType × ESyncState × EResimType × Bool × Bool × FSingleParticlePhysicsProxy :=
  (P.ParticleType, P.SyncState, P.ResimType, P.bEnabledDuringResim, P.bInertiaConditioningDirty, P.Proxy)

/-- The registry entry after one iteration of the particle loop of `RewindToFrame`, given the
result `bAnyChange`, `H1` of the channel restores. -/
def RewindInfoResult (Info : FDirtyParticleInfo) (bAnyChange : Bool) (H1 : FGeometryParticleStateBase) :
    FDirtyParticleInfo :=
  if Info.bResimAsFollower = false ∧ bAnyChange = true then
    { Info with History := H1, DirtyDynamics := INDEX_NONE }
  else { Info with History := H1 }

/-- The live particle after one iteration of the particle loop of `RewindToFrame`, given the
result `bAnyChange`, `P1` of the channel restores. -/
def RewindLiveResult (Frame : Int) (Info : FDirtyParticleInfo) (bAnyChange : Bool)
    (P1 : FGeometryParticleHandle) : FGeometryParticleHandle :=
  if Info.bResimAsFollower = true then P1
  else
    let P2 := if bAnyChange = true then P1.SetEnabledDuringResim true else P1
    if Info.InitializedOnStep > Frame then FPBDRigidsEvolution.DisableParticle P2 else P2

/-- The evolution after one iteration of the particle loop of `RewindToFrame`. -/
def RewindEvolutionResult (Frame : Int) (Info : FDirtyParticleInfo) (bAnyChange : Bool)
    (E : FPBDRigidsEvolution) : FPBDRigidsEvolution :=
  if Info.bResimAsFollower = true then E
  else
    let E1 := if bAnyChange = true then E.MarkTransientDirtyParticle Info.Object else E
    if Info.InitializedOnStep > Frame then E1.RemoveParticle Info.Object else E1

/-- The example coordinator at frame 42 with a saturated window and data pending to save. -/
def ExampleSaturatedPending : FRewindData :=
  { ExampleState with CurFrame := 42, LatestFrame := 42, FramesSaved := 32 }

/-! ## The ingestion API -/

/-- The dirty property data of a proxy (`Dirty.PropertyData`): which properties `IsDirty`
reports, and the dynamics `FindDynamics` finds in the source manager, if any. -/
structure FDirtyChaosProperties where
  bXR : Bool
  bNonFrequentData : Bool
  bVelocities : Bool
  bKinematicTarget : Bool
  bDynamicMisc : Bool
  bMassProps : Bool
  bJointSettings : Bool
  Dynamics : Option FParticleDynamics
  deriving DecidableEq

/-- The proxy of a dirty entry (`Dirty.Proxy`), by its `GetType()`: a single particle proxy
with its low-level handle (which may be null), a joint constraint proxy with its handle, or a
proxy of any other type. -/
inductive IPhysicsProxyBase where
  | SingleParticleProxy (Proxy : FSingleParticlePhysicsProxy) (Handle : Option Nat)
  | JointConstraintType (InitializedStep : Int) (bInitialized : Bool) (Handle : Option Nat)
  | Unsupported
  deriving DecidableEq

/-- A dirty proxy enqueued by the game thread (`FDirtyProxy`). -/
structure FDirtyProxy where
  Proxy : IPhysicsProxyBase
  PropertyData : FDirtyChaosProperties
  deriving DecidableEq

namespace FRewindData

/-- Modelled from the spec: the follower flag of a registry entry created by `findOrAdd`.  The
flag is refreshed from the live resim type by the next `AdvanceFrame`; until then the entry
takes the conservative default and is not exempt from desync testing. -/
def NewEntryResimAsFollower : Bool := false

/-- Modelled from the spec: the Dirty Object Info that `findOrAdd(object, initializedFrame)`
creates "on first mutation observed for an object": an empty snapshot, dirty on the current
frame. -/
def NewDirtyParticleInfo (Object : Nat) (CurFrame InitializedOnFrame : Int) : FDirtyParticleInfo where
  Object := Object
  History := EmptyHistory
  LastDirtyFrame := CurFrame
  InitializedOnStep := InitializedOnFrame
  bResimAsFollower := NewEntryResimAsFollower
  DirtyDynamics := INDEX_NONE

/-- Modelled from the spec: the Dirty Object Info that `findOrAdd` creates for a joint. -/
def NewDirtyJointInfo (Object : Nat) (CurFrame InitializedOnFrame : Int) : FDirtyJointInfo where
  Object := Object
  History := ⟨⟨[]⟩⟩
  LastDirtyFrame := CurFrame
  InitializedOnStep := InitializedOnFrame
  bResimAsFollower := NewEntryResimAsFollower

/-- Modelled from the spec: `DirtyParticles.Find`, the registry lookup by object identity. -/
def FindDirtyParticle (Registry : List FDirtyParticleInfo) (Object : Nat) : Option FDirtyParticleInfo :=
  Registry.find? (fun Info => decide (Info.Object = Object))

/-- Modelled from the spec: `DirtyJoints.Find`, the registry lookup by object identity. -/
def FindDirtyJoint (Registry : List FDirtyJointInfo) (Object : Nat) : Option FDirtyJointInfo :=
  Registry.find? (fun Info => decide (Info.Object = Object))

/-- Modelled from the spec: `FindOrAddDirtyObj(Object, InitializedOnFrame)`, the idempotent
`findOrAdd` of the particle registry: the registry afterwards and the entry of the object. -/
def FindOrAddDirtyParticle (Registry : List FDirtyParticleInfo) (Object : Nat)
    (CurFrame InitializedOnFrame : Int) : List FDirtyParticleInfo × FDirtyParticleInfo :=
  match FindDirtyParticle Registry Object with
  | some Info => (Registry, Info)
  | none =>
    (Registry ++ [NewDirtyParticleInfo Object CurFrame InitializedOnFrame],
      NewDirtyParticleInfo Object CurFrame InitializedOnFrame)

/-- Modelled from the spec: `FindOrAddDirtyObj` of the joint registry. -/
def FindOrAddDirtyJoint (Registry : List FDirtyJointInfo) (Object : Nat)
    (CurFrame InitializedOnFrame : Int) : List FDirtyJointInfo × FDirtyJointInfo :=
  match FindDirtyJoint Registry Object with
  | some Info => (Registry, Info)
  | none =>
    (Registry ++ [NewDirtyJointInfo Object CurFrame InitializedOnFrame],
      NewDirtyJointInfo Object CurFrame InitializedOnFrame)

/-- The write through the reference that `FindOrAddDirtyObj` returned: the entry of the
object (the first one with its identity) is replaced by `Info`. -/
def StoreDirtyParticle : List FDirtyParticleInfo → FDirtyParticleInfo → List FDirtyParticleInfo
  | [], _ => []
  | Old :: Rest, Info =>
    if Old.Object = Info.Object then Info :: Rest else Old :: StoreDirtyParticle Rest Info

/-- The write through the reference that `FindOrAddDirtyObj` returned for a joint. -/
def StoreDirtyJoint : List FDirtyJointInfo → FDirtyJointInfo → List FDirtyJointInfo
  | [], _ => []
  | Old :: Rest, Info =>
    if Old.Object = Info.Object then Info :: Rest else Old :: StoreDirtyJoint Rest Info

/-- Modelled from the spec: `Info.AddFrame(Frame)` for a joint entry. -/
def AddFrameJoint (Info : FDirtyJointInfo) (Frame : Int) : FDirtyJointInfo :=
  { Info with LastDirtyFrame := Frame }

/-- The lambda `DirtyPropHelper` of `PushGTDirtyData`: a dirty property is recorded from the
live object at `(CurFrame, PrePushData)`. -/
def DirtyPropHelper {T : Type} (CurFrame : Int) (Property : TParticlePropertyBuffer T)
    (bIsDirty : Bool) (Live : T) : TParticlePropertyBuffer T :=
  if bIsDirty then Property.WriteAccessMonotonic ⟨CurFrame, .PrePushData⟩ Live else Property

/-- The lambda passed as `CopyFunc` for a particle in `PushGTDirtyData`. -/
def CopyParticleProps (CurFrame : Int) (Dirty : FDirtyChaosProperties) (PTParticle : FGeometryParticleHandle)
    (Latest : FGeometryParticleStateBase) : FGeometryParticleStateBase :=
  let L1 := { Latest with
    ParticlePositionRotation :=
      DirtyPropHelper CurFrame Latest.ParticlePositionRotation Dirty.bXR PTParticle.XR }
  let L2 := { L1 with
    NonFrequentData :=
      DirtyPropHelper CurFrame L1.NonFrequentData Dirty.bNonFrequentData PTParticle.NonFrequentData }
  match PTParticle.CastToKinematicParticle with
  | some Kinematic =>
    let L3 := { L2 with
      Velocities := DirtyPropHelper CurFrame L2.Velocities Dirty.bVelocities Kinematic.Velocities }
    let L4 := { L3 with
      KinematicTarget :=
        DirtyPropHelper CurFrame L3.KinematicTarget Dirty.bKinematicTarget Kinematic.KinematicTarget }
    match Kinematic.CastToRigidParticle with
    | some Rigid =>
      let L5 := { L4 with
        DynamicsMisc := DirtyPropHelper CurFrame L4.DynamicsMisc Dirty.bDynamicMisc Rigid.DynamicsMisc }
      { L5 with MassProps := DirtyPropHelper CurFrame L5.MassProps Dirty.bMassProps Rigid.MassProps }
    | none => L4
  | none => L2

/-- The lambda `CopyHelper` of `PushGTDirtyData` for the particle behind pointer `Object`, with
the lambda passed for particles: the returned flag and the coordinator afterwards. -/
def CopyHelperParticle (S : FRewindData) (Proxy : FSingleParticlePhysicsProxy)
    (Dirty : FDirtyChaosProperties) (Object : Nat) : Bool × FRewindData :=
  let PTParticle := S.Solver.Particles Object
  -- During a resim the same exact push data comes from gt
  if S.IsResim && decide (PTParticle.SyncState = ESyncState.InSync) then (false, S)
  else
    let P1 :=
      if S.IsResim && decide (Proxy.InitializedStep = S.CurFrame) then
        PTParticle.SetEnabledDuringResim true
      else PTParticle
    let (Registry, Info) := FindOrAddDirtyParticle S.DirtyParticles Object S.CurFrame
      (if Proxy.bInitialized then INDEX_NONE else S.CurFrame)
    let Latest := AddFrameParticle Info S.CurFrame
    let Info1 :=
      if Latest.InitializedOnStep < S.CurFrame then
        { Latest with History := CopyParticleProps S.CurFrame Dirty P1 Latest.History }
      else Latest
    (true, { S with
      Solver := S.Solver.SetParticle Object P1
      DirtyParticles := StoreDirtyParticle Registry Info1 })

/-- The lambda `CopyHelper` of `PushGTDirtyData` for the joint behind pointer `Object`, with
the lambda passed for joints. -/
def CopyHelperJoint (S : FRewindData) (InitializedStep : Int) (bInitialized : Bool)
    (Dirty : FDirtyChaosProperties) (Object : Nat) : Bool × FRewindData :=
  let Joint := S.Solver.Joints Object
  if S.IsResim && decide (Joint.SyncState = ESyncState.InSync) then (false, S)
  else
    let J1 :=
      if S.IsResim && decide (InitializedStep = S.CurFrame) then Joint.SetEnabledDuringResim true
      else Joint
    let (Registry, Info) := FindOrAddDirtyJoint S.DirtyJoints Object S.CurFrame
      (if bInitialized then INDEX_NONE else S.CurFrame)
    let Latest := AddFrameJoint Info S.CurFrame
    let Info1 :=
      if Latest.InitializedOnStep < S.CurFrame then
        { Latest with History :=
            ⟨DirtyPropHelper S.CurFrame Latest.History.JointSettings Dirty.bJointSettings
              J1.JointSettings⟩ }
      else Latest
    (true, { S with
      Solver := S.Solver.SetJoint Object J1
      DirtyJoints := StoreDirtyJoint Registry Info1 })

/-- Source function `FRewindData::PushGTDirtyData`.  The result is `none` when the handle of a
joint proxy is null, which the source dereferences. -/
def PushGTDirtyData (S : FRewindData) (Dirty : FDirtyProxy) : Option FRewindData :=
  -- This records changes enqueued by GT.
  let S0 := { S with bNeedsSave := true }
  match Dirty.Proxy with
  | .SingleParticleProxy ParticleProxy Handle =>
    match Handle with
    | none => some S0
    | some PTParticle =>
      match CopyHelperParticle S0 ParticleProxy Dirty.PropertyData PTParticle with
      | (bKeepRecording, S1) =>
        if bKeepRecording then
          match Dirty.PropertyData.Dynamics with
          | some NewData =>
            let (Registry, Info) := FindOrAddDirtyParticle S1.DirtyParticles PTParticle S1.CurFrame
              (if ParticleProxy.bInitialized then INDEX_NONE else S1.CurFrame)
            let Latest := AddFrameParticle Info S1.CurFrame
            let Info1 := { Latest with
              History := { Latest.History with
                Dynamics := Latest.History.Dynamics.WriteAccessMonotonic
                  ⟨S1.CurFrame, .PostPushData⟩ NewData }
              DirtyDynamics := S1.CurFrame }
            some { S1 with DirtyParticles := StoreDirtyParticle Registry Info1 }
          | none => some S1
        else some S1
  | .JointConstraintType InitializedStep bInitialized Handle =>
    match Handle with
    | none => none
    | some Joint => some (CopyHelperJoint S0 InitializedStep bInitialized Dirty.PropertyData Joint).2
  | .Unsupported => some S0

/-- One guarded write of `MarkDirtyFromPT` and `PushPTDirtyData`: the live value is recorded
at the key when history is being recorded or the channel is clean there, provided
`WriteAccessNonDecreasing` hands out a slot. -/
def RecordNonDecreasing {T : Type} (bRecordingHistory : Bool) (K : FFrameAndPhase)
    (Property : TParticlePropertyBuffer T) (Live : T) : TParticlePropertyBuffer T :=
  if bRecordingHistory || Property.IsClean K then
    match Property.WriteAccessNonDecreasing K Live with
    | some Written => Written
    | none => Property
  else Property

/-- Source function `FRewindData::MarkDirtyFromPT` for the particle behind pointer `Handle`. -/
def MarkDirtyFromPT (S : FRewindData) (Handle : Nat) : FRewindData :=
  let P := S.Solver.Particles Handle
  let (Registry, Info) := FindOrAddDirtyParticle S.DirtyParticles Handle S.CurFrame INDEX_NONE
  let Info1 := { Info with DirtyDynamics := S.CurFrame }
  let bRecordingHistory := !S.IsResimAndInSync P.SyncState
  let Latest := AddFrameParticle Info1 S.CurFrame
  let FrameAndPhase : FFrameAndPhase := ⟨S.CurFrame, .PostPushData⟩
  let H1 := { Latest.History with
    ParticlePositionRotation :=
      RecordNonDecreasing bRecordingHistory FrameAndPhase Latest.History.ParticlePositionRotation P.XR }
  let H3 :=
    match P.CastToKinematicParticle with
    | some Kinematic =>
      let H2 := { H1 with
        Velocities :=
          RecordNonDecreasing bRecordingHistory FrameAndPhase H1.Velocities Kinematic.Velocities }
      match Kinematic.CastToRigidParticle with
      | some Rigid =>
        { H2 with
          DynamicsMisc :=
            RecordNonDecreasing bRecordingHistory FrameAndPhase H2.DynamicsMisc Rigid.DynamicsMisc }
      | none => H2
    | none => H1
  { S with DirtyParticles := StoreDirtyParticle Registry { Latest with History := H3 } }

/-- One guarded write of `PushStateAtFrame`: the target value is inserted at the key when
history is being recorded or the channel is clean there. -/
def InsertTarget {T : Type} (bRecordingHistory : Bool) (K : FFrameAndPhase)
    (Property : TParticlePropertyBuffer T) (Value : T) : TParticlePropertyBuffer T :=
  if bRecordingHistory || Property.IsClean K then Property.Insert K Value else Property

/-- Source function `FRewindData::PushStateAtFrame` for the particle behind pointer `Handle`. -/
def PushStateAtFrame (S : FRewindData) (Handle : Nat) (Frame : Int) (Phase : EParticleHistoryPhase)
    (Position : FVec3) (Quaternion : FQuat) (LinVelocity AngVelocity : FVec3)
    (bShouldSleep : Bool) : FRewindData :=
  let bRecordingHistory := !S.IsResimAndInSync (S.Solver.Particles Handle).SyncState
  let (Registry, Info) := FindOrAddDirtyParticle S.DirtyParticles Handle S.CurFrame INDEX_NONE
  let Latest := Info.History
  let FrameAndPhase : FFrameAndPhase := ⟨Frame, Phase⟩
  let L1 := { Latest with
    TargetPositions :=
      InsertTarget bRecordingHistory FrameAndPhase Latest.TargetPositions ⟨Position, Quaternion⟩ }
  let L2 := { L1 with
    TargetVelocities :=
      InsertTarget bRecordingHistory FrameAndPhase L1.TargetVelocities ⟨LinVelocity, AngVelocity⟩ }
  let L3 := { L2 with
    TargetStates :=
      InsertTarget bRecordingHistory FrameAndPhase L2.TargetStates
        ⟨if bShouldSleep then EObjectStateType.Sleeping else EObjectStateType.Dynamic, false⟩ }
  { S with DirtyParticles := StoreDirtyParticle Registry { Info with History := L3 } }

/-- Source function `FRewindData::SetTargetStateAtFrame`. -/
def SetTargetStateAtFrame (S : FRewindData) (Handle : Nat) (Frame : Int) (Phase : EParticleHistoryPhase)
    (Position : FVec3) (Quaternion : FQuat) (LinVelocity AngVelocity : FVec3)
    (bShouldSleep : Bool) : FRewindData :=
  S.PushStateAtFrame Handle Frame Phase Position Quaternion LinVelocity AngVelocity bShouldSleep

end FRewindData

/-! ## Further example states -/

/-- A solver with network physics prediction enabled whose evolution is resimming and whose
island manager reports resim frame 12 for every particle. -/
def ExampleSolverResimming : FPBDRigidsSolver :=
  { ExampleSolver with
    bNetworkPhysicsPredictionEnabled := true
    Evolution := some { ExampleEvolution with bIsResimming := true, ParticleResimFrame := fun _ => 12 } }

/-- A registry entry whose cached pre-correction position is `(x, 0, 0)`. -/
def ExampleInfoCorrected (x : FReal) : FDirtyParticleInfo :=
  { ExampleInfo with History := { ExampleHistory with PreCorrectionXR := ExampleXR x } }

/-- The example particle at the origin. -/
def ExampleParticleOrigin : FGeometryParticleHandle :=
  { ExampleParticle with XR := ExampleXR 0 }

/-- The positional error of `AccumulateErrorIfNecessary`: the cached pre-correction position
less the live position. -/
def CorrectionErrorX (DirtyInfo : FDirtyParticleInfo) (P : FGeometryParticleHandle) : FVec3 :=
  DirtyInfo.History.PreCorrectionXR.X.sub P.XR.X

/-- The rotational error of `AccumulateErrorIfNecessary`, on the shortest arc and normalised. -/
def CorrectionErrorR (M : FQuatMath) (DirtyInfo : FDirtyParticleInfo) (P : FGeometryParticleHandle) :
    FQuat :=
  M.Normalize (M.EnforceShortestArcWith
    (M.Mul DirtyInfo.History.PreCorrectionXR.R (M.Inverse P.XR.R)) M.Identity)

/-- Some component of the vector exceeds the tolerance in magnitude. -/
def FVec3.Exceeds (a : FVec3) (Tolerance : FReal) : Prop :=
  Tolerance < |a.X| ∨ Tolerance < |a.Y| ∨ Tolerance < |a.Z|

/-- A game-thread push for the particle behind pointer `0`: every property dirty, with new
dynamics. -/
def ExampleDirtyParticle : FDirtyProxy where
  Proxy := .SingleParticleProxy ⟨true, 0, true⟩ (some 0)
  PropertyData := ⟨true, true, true, true, true, true, false, some ⟨5⟩⟩

/-- A game-thread push for the joint behind pointer `0`. -/
def ExampleDirtyJoint : FDirtyProxy where
  Proxy := .JointConstraintType 0 true (some 0)
  PropertyData := ⟨false, false, false, false, false, false, true, none⟩

/-! ## Post-conditions of the ingestion API -/

/-- The two channels hold the same entries at every key other than `K`. -/
def TParticlePropertyBuffer.AgreeOff {T : Type} (K : FFrameAndPhase) (B B1 : TParticlePropertyBuffer T) :
    Prop :=
  B1.Buffer.filter (fun e => decide (e.1 ≠ K)) = B.Buffer.filter (fun e => decide (e.1 ≠ K))

/-- The registry entry `Info1` is `Info` except, possibly, for what its three target channels
hold at key `K`: same object, same bookkeeping, same organic channels and cached transform,
and the target channels agree at every other key. -/
def SameButTargetsAt (K : FFrameAndPhase) (Info Info1 : FDirtyParticleInfo) : Prop :=
  Info1.Object = Info.Object ∧ Info1.LastDirtyFrame = Info.LastDirtyFrame ∧
  Info1.InitializedOnStep = Info.InitializedOnStep ∧
  Info1.bResimAsFollower = Info.bResimAsFollower ∧ Info1.DirtyDynamics = Info.DirtyDynamics ∧
  Info1.History.Organic = Info.History.Organic ∧
  Info1.History.PreCorrectionXR = Info.History.PreCorrectionXR ∧
  Info.History.TargetPositions.AgreeOff K Info1.History.TargetPositions ∧
  Info.History.TargetVelocities.AgreeOff K Info1.History.TargetVelocities ∧
  Info.History.TargetStates.AgreeOff K Info1.History.TargetStates

/-- The channel `B1` is the channel `B` unless `B` was clean at key `K`, in which case it may
also be `B` with the live value written at `K`. -/
def RecordedIfClean {T : Type} (K : FFrameAndPhase) (B B1 : TParticlePropertyBuffer T) (Live : T) :
    Prop :=
  (B.IsClean K = false → B1 = B) ∧ (B1 = B ∨ (B.IsClean K = true ∧ B1 = B.Write K Live))

/-- The example coordinator resimulating frame 12, tracking its particle with nothing
recorded yet. -/
def ExampleResimFresh : FRewindData :=
  { ExampleState with CurFrame := 12, DirtyParticles := [{ ExampleInfo with History := EmptyHistory }] }

/-! ## Post-conditions of the advance step -/

/-- The coordinator as the loops of `AdvanceFrameImp` see it: the retained window is updated
before the loops run. -/
def FRewindData.Advancing (S : FRewindData) : FRewindData :=
  { S with FramesSaved := min (S.FramesSaved + 1) (S.ManagersCapacity - 1) }

/-- A registry entry with a velocity recorded at `(12, PostCallbacks)` that differs from the
live velocity of the example particle, and with dynamics marked dirty on frame 12. -/
def ExampleInfoDiverged : FDirtyParticleInfo :=
  { ExampleInfo with
    History := { EmptyHistory with
      Velocities := ⟨[(⟨12, .PostCallbacks⟩, ⟨⟨3, 0, 0⟩, ⟨0, 0, 0⟩⟩)]⟩ }
    DirtyDynamics := 12 }

/-- A coordinator resimulating frame 12 of 20 whose particle is in sync, has a velocity
recorded at `(12, PostCallbacks)` that differs from its live velocity, and had its dynamics
marked dirty on frame 12. -/
def ExampleResimDiverged : FRewindData :=
  { ExampleState with CurFrame := 12, DirtyParticles := [ExampleInfoDiverged] }

/-! ## Post-condition of ApplyTargets -/

/-- Post-condition of `ApplyTargets` at key `K` for one tracked particle: `P` is the live
particle before the call and `P1` after it, and `bEvolution` tells whether the solver has an
evolution.  A target channel that is not clean at `K` overwrites the live property of a
non-follower (the target states only for a rigid particle of a solver with an evolution);
otherwise the live property is unchanged. -/
def TargetsApplied (K : FFrameAndPhase) (Info : FDirtyParticleInfo) (bEvolution : Bool)
    (P P1 : FGeometryParticleHandle) : Prop :=
  (Info.bResimAsFollower = false → Info.History.TargetPositions.IsClean K = false →
    some P1.XR = Info.History.TargetPositions.Read K) ∧
  (Info.bResimAsFollower = false → Info.History.TargetVelocities.IsClean K = false →
    some P1.Velocities = Info.History.TargetVelocities.Read K) ∧
  (Info.bResimAsFollower = false → Info.History.TargetStates.IsClean K = false →
    P.ParticleType = EParticleType.Rigid → bEvolution = true →
    some (P1.Disabled, P1.ObjectState) =
      (Info.History.TargetStates.Read K).map (fun Data => (Data.Disabled, Data.ObjectState))) ∧
  (Info.bResimAsFollower = true ∨ Info.History.TargetPositions.IsClean K = true → P1.XR = P.XR) ∧
  (Info.bResimAsFollower = true ∨ Info.History.TargetVelocities.IsClean K = true →
    P1.Velocities = P.Velocities) ∧
  (Info.bResimAsFollower = true ∨ Info.History.TargetStates.IsClean K = true ∨
      P.ParticleType ≠ EParticleType.Rigid ∨ bEvolution = false →
    P1.Disabled = P.Disabled ∧ P1.ObjectState = P.ObjectState)

/-- A live kinematic particle, enabled and in sync, at position `(7, 0, 0)`. -/
def ExampleParticleKinematic : FGeometryParticleHandle :=
  { ExampleParticle with ParticleType := .Kinematic, DynamicsMisc := ⟨.Kinematic, false⟩ }

/-- The example coordinator with a kinematic particle behind every pointer, after a target
state for frame 12 was pushed for particle `0`. -/
def ExampleStateKinematicTarget : FRewindData :=
  ({ ExampleState with
      DirtyParticles := []
      Solver := { ExampleSolver with Particles := fun _ => ExampleParticleKinematic } }
    : FRewindData).PushStateAtFrame 0 12 .PostPushData ⟨9, 0, 0⟩ ⟨0, 0, 0, 1⟩ ⟨2, 0, 0⟩ ⟨0, 0, 0⟩ false

/-! ## Queries, spawning and the error hand-over -/

/-- The error data handed to the solver collection per particle
(`FDirtyRigidParticleReplicationErrorData`). -/
structure FDirtyRigidParticleReplicationErrorData where
  ErrorX : FVec3
  ErrorR : FQuat
  deriving DecidableEq

/-- Modelled from the spec: the output of the error hand-over is a map keyed by the pointer of
the particle's physics proxy; it is kept as a list of key-value pairs with one pair per key. -/
abbrev TMap (V : Type) := List (Nat × V)

namespace TMap

/-- Modelled from the spec: `Add(Key, Value)` stores the value for the key, replacing the value
the map already holds for it. -/
def Add {V : Type} : TMap V → Nat → V → TMap V
  | [], Key, Value => [(Key, Value)]
  | (k, v) :: Rest, Key, Value =>
    if k = Key then (Key, Value) :: Rest else (k, v) :: Add Rest Key Value

/-- Modelled from the spec: `Find(Key)` is the value the map holds for the key, if any. -/
def Find {V : Type} (Map : TMap V) (Key : Nat) : Option V :=
  (List.find? (fun e => decide (e.1 = Key)) Map).map Prod.snd

end TMap

namespace FSingleParticlePhysicsProxy

/-- Modelled from the spec: `SetInitialized(Step)` marks the proxy as initialized on `Step`. -/
def SetInitialized (Proxy : FSingleParticlePhysicsProxy) (Step : Int) : FSingleParticlePhysicsProxy :=
  { Proxy with InitializedStep := Step, bInitialized := true }

end FSingleParticlePhysicsProxy

namespace FRewindData

/-- Source function `FRewindData::ExtendHistoryWithFrame`. -/
def ExtendHistoryWithFrame (S : FRewindData) (Frame : Int) : FRewindData :=
  { S with FramesSaved := max (S.CurFrame - Frame + 1) S.FramesSaved }

/-- The body of the particle loop of `FindValidResimFrame` for one registry entry: whether the
entry makes the loop set `bHasTargetHistory = false` and break. -/
def LacksTargetHistory (DirtyParticleInfo : FDirtyParticleInfo) (ValidFrame : Int) : Bool :=
  let History := DirtyParticleInfo.History
  let bResimAsFollower := DirtyParticleInfo.bResimAsFollower
  let FrameAndPhase : FFrameAndPhase := ⟨ValidFrame, .PostPushData⟩
  match History.DynamicsMisc.Read FrameAndPhase with
  | some DynamicMisc =>
    if !DynamicMisc.Disabled && decide (DynamicMisc.ObjectState = EObjectStateType.Dynamic)
        && !History.TargetPositions.IsEmpty && !History.TargetVelocities.IsEmpty
        && !History.TargetStates.IsEmpty then
      bResimAsFollower || History.TargetPositions.IsClean FrameAndPhase
        || History.TargetVelocities.IsClean FrameAndPhase
        || History.TargetStates.IsClean FrameAndPhase
    else false
  | none => false

/-- The particle loop of `FindValidResimFrame`: the value of `bHasTargetHistory` after it. -/
def HasTargetHistory (ValidFrame : Int) : List FDirtyParticleInfo → Bool
  | [] => true
  | DirtyParticleInfo :: Rest =>
    if LacksTargetHistory DirtyParticleInfo ValidFrame then false
    else HasTargetHistory ValidFrame Rest

/-- The loop of `FindValidResimFrame` over the inputs histories, and the one over the states
histories: the value of `bHasTargetHistory` after it.  Each weak pointer is pinned and
dereferenced without an `IsValid` check; `none` stands for the dereference of an expired one. -/
def HistoriesHaveValidDatas (ValidFrame : Int) : List FBaseRewindHistory → Option Bool
  | [] => some true
  | History :: Rest =>
    if History.bValid then
      if !History.HasValidDatas ValidFrame then some false
      else HistoriesHaveValidDatas ValidFrame Rest
    else none

/-- The body of the frame loop of `FindValidResimFrame`: the value of `bHasTargetHistory` at
the final test of the iteration for `ValidFrame`. -/
def IsValidResimFrame (S : FRewindData) (ValidFrame : Int) : Option Bool :=
  if HasTargetHistory ValidFrame S.DirtyParticles then
    match HistoriesHaveValidDatas ValidFrame S.InputsHistories with
    | none => none
    | some false => some false
    | some true => HistoriesHaveValidDatas ValidFrame S.StatesHistories
  else some false

/-- The frame loop `for(ValidFrame = RequestedFrame; ValidFrame >= EarliestFrame; --ValidFrame)`
of `FindValidResimFrame`, started at `ValidFrame`: the value of `ValidFrame` when the loop is
left.  `Fuel` bounds the number of iterations. -/
def FindValidResimLoop (S : FRewindData) (EarliestFrame : Int) : Nat → Int → Option Int
  | 0, ValidFrame => some ValidFrame
  | Fuel + 1, ValidFrame =>
    if ValidFrame ≥ EarliestFrame then
      match IsValidResimFrame S ValidFrame with
      | none => none
      | some true => some ValidFrame
      | some false => FindValidResimLoop S EarliestFrame Fuel (ValidFrame - 1)
    else some ValidFrame

/-- Source function `FRewindData::FindValidResimFrame`.  The frame loop runs at most
`RequestedFrame - EarliestFrame + 1` times. -/
def FindValidResimFrame (S : FRewindData) (RequestedFrame : Int) : Option Int :=
  if RequestedFrame > 0 then
    -- First frame of the history datas
    let EarliestFrame := max S.GetEarliestFrame_Internal 0
    FindValidResimLoop S EarliestFrame (RequestedFrame - EarliestFrame + 1).toNat RequestedFrame
  else some INDEX_NONE

/-- Source function `FRewindData::SpawnProxyIfNeeded`.  `Handle` is `Proxy.GetHandle_LowLevel()`, a null pointer
or the pointer of the particle of the proxy; the proxy is one object, reached through the
argument and through the particle, so `SetInitialized` shows in both.  The result is the
coordinator and the proxy afterwards; `none` stands for the dereference of a null handle or
of a null evolution. -/
def SpawnProxyIfNeeded (S : FRewindData) (Proxy : FSingleParticlePhysicsProxy) (Handle : Option Nat) :
    Option (FRewindData × FSingleParticlePhysicsProxy) :=
  if Proxy.InitializedStep > S.CurFrame then
    match Handle with
    | none => none
    | some p =>
      let (Registry, Info) := FindOrAddDirtyParticle S.DirtyParticles p S.CurFrame S.CurFrame
      match S.Solver.Evolution with
      | none => none
      | some _ =>
        let P1 := FPBDRigidsEvolution.EnableParticle (S.Solver.Particles p)
        if Proxy.InitializedStep ≠ S.CurFrame then
          -- Spawned earlier so mark as desynced from that first frame
          let (Info1, P2) := DesyncParticle Info P1 ⟨Proxy.InitializedStep, .PrePushData⟩
          let Proxy1 := Proxy.SetInitialized S.CurFrame
          let Info2 := { Info1 with InitializedOnStep := S.CurFrame }
          some ({ S with
                  DirtyParticles := StoreDirtyParticle Registry Info2
                  Solver := S.Solver.SetParticle p { P2 with Proxy := Proxy1 } }, Proxy1)
        else
          some ({ S with DirtyParticles := Registry, Solver := S.Solver.SetParticle p P1 }, Proxy)
  else some (S, Proxy)

/-- Source function `FRewindData::BufferPhysicsResults`.  `PhysicsProxy` gives the pointer of the physics proxy
of the particle behind a pointer (`GetObjectPtr()->PhysicsProxy()`); the result is the output
map and the coordinator afterwards. -/
def BufferPhysicsResults (S : FRewindData) (PhysicsProxy : Nat → Nat)
    (DirtyRigidErrors : TMap FDirtyRigidParticleReplicationErrorData) :
    TMap FDirtyRigidParticleReplicationErrorData × FRewindData :=
  (S.DirtyParticleErrors.foldl
      (fun Map ErrorInfo =>
        Map.Add (PhysicsProxy ErrorInfo.Object) ⟨ErrorInfo.ErrorX, ErrorInfo.ErrorR⟩)
      DirtyRigidErrors,
    { S with DirtyParticleErrors := [] })

end FRewindData

/-! ## Post-conditions of the queries -/

/-- Following the claim's words, "valid target history" of a tracked particle for frame `F`.
Target history is asked of a particle that targets drive on that frame: its recorded misc
dynamic flags for `(F, PostPushData)` say enabled and dynamic, and each of its three target
channels holds some value.  Such a particle has valid target history when its entry is not a
follower and each of its target channels holds a value recorded at or before
`(F, PostPushData)`.  Of any other particle nothing is asked. -/
def FDirtyParticleInfo.HasValidTargetHistory (Info : FDirtyParticleInfo) (F : Int) : Bool :=
  match Info.History.DynamicsMisc.Read ⟨F, .PostPushData⟩ with
  | none => true
  | some Misc =>
    if Misc.Disabled = false ∧ Misc.ObjectState = EObjectStateType.Dynamic ∧
        Info.History.TargetPositions.IsEmpty = false ∧ Info.History.TargetVelocities.IsEmpty = false ∧
        Info.History.TargetStates.IsEmpty = false then
      decide (Info.bResimAsFollower = false) &&
        (Info.History.TargetPositions.Read ⟨F, .PostPushData⟩).isSome &&
        (Info.History.TargetVelocities.Read ⟨F, .PostPushData⟩).isSome &&
        (Info.History.TargetStates.Read ⟨F, .PostPushData⟩).isSome
    else true

/-- Following the claim's words, frame `F` has fully valid history: every tracked particle
has valid target history for `F`, and every inputs history and every states history that is
still alive has valid data for `F`. -/
def FRewindData.FullyValidFrame (S : FRewindData) (F : Int) : Prop :=
  (∀ Info ∈ S.DirtyParticles, Info.HasValidTargetHistory F = true) ∧
  (∀ History ∈ S.InputsHistories, History.bValid = true → History.HasValidDatas F = true) ∧
  (∀ History ∈ S.StatesHistories, History.bValid = true → History.HasValidDatas F = true)

/-- The weak pointers to the inputs and states histories are all valid. -/
def FRewindData.HistoriesAlive (S : FRewindData) : Prop :=
  (∀ History ∈ S.InputsHistories, History.bValid = true) ∧
  (∀ History ∈ S.StatesHistories, History.bValid = true)

/-- An inputs history that has valid data from frame 14 on. -/
def ExampleInputsHistory : FBaseRewindHistory where
  bValid := true
  HasValidDatas := fun Frame => decide (14 ≤ Frame)
  Calls := []

/-- A states history that has valid data up to frame 16. -/
def ExampleStatesHistory : FBaseRewindHistory where
  bValid := true
  HasValidDatas := fun Frame => decide (Frame ≤ 16)
  Calls := []

/-- The example coordinator with targets recorded on frame 12 (frame 20, earliest retained
frame 10), an inputs history valid from frame 10 on and a states history valid up to frame 11.
Frames 12 to 18 lack states data; on frame 11 the particle is enabled and dynamic but its
targets are recorded from frame 12 on; frame 10, before its first recorded flags, is fully
valid. -/
def ExampleStateTargetHistories : FRewindData :=
  { ExampleStateTargets with
    InputsHistories := [{ ExampleInputsHistory with HasValidDatas := fun Frame => decide (10 ≤ Frame) }]
    StatesHistories := [{ ExampleStatesHistory with HasValidDatas := fun Frame => decide (Frame ≤ 11) }] }

/-- The example coordinator with targets recorded on frame 12 (frame 20, earliest retained
frame 10), whose only inputs history has expired (its weak pointer is no longer valid) and
whose states history is valid up to frame 16. -/
def ExampleStateExpiredHistory : FRewindData :=
  { ExampleStateTargets with
    InputsHistories := [{ ExampleInputsHistory with bValid := false }]
    StatesHistories := [ExampleStatesHistory] }

/-! ### The desync condition -/

/-- The example coordinator (frame 20, earliest retained frame 10) with an inputs history that
has valid data for frames 0 to 9 only. -/
def ExampleStateNoValidFrame : FRewindData :=
  { ExampleState with
    InputsHistories := [{ ExampleInputsHistory with HasValidDatas := fun Frame => decide (Frame < 10) }] }

/-- Post-condition of one guarded insert of `PushStateAtFrame` into a target channel at key `K`:
`B` is the channel before and `B1` after.  When the call records (history is being recorded, or
the channel is clean at `K`) the channel reads `Value` at `K`; otherwise it is as it was. -/
def TargetStored {T : Type} (bRecordingHistory : Bool) (K : FFrameAndPhase)
    (B B1 : TParticlePropertyBuffer T) (Value : T) : Prop :=
  (bRecordingHistory = true ∨ B.IsClean K = true → B1.Read K = some Value) ∧
  (bRecordingHistory = false → B.IsClean K = false → B1 = B)

/-- The example coordinator with accumulated errors for the particles behind pointers 0 and 1. -/
def ExampleStateErrors : FRewindData :=
  { ExampleState with
    DirtyParticleErrors := [⟨0, ⟨1, 0, 0⟩, ⟨0, 0, 0, 1⟩⟩, ⟨1, ⟨0, 2, 0⟩, ⟨0, 0, 0, 1⟩⟩] }

/-! ## Sequences of calls on the coordinator -/

/-- A live static particle (a plain geometry particle), enabled and in sync. -/
def ExampleParticleStatic : FGeometryParticleHandle :=
  { ExampleParticle with ParticleType := .Static, DynamicsMisc := ⟨.Static, false⟩ }

/-- The example coordinator with a static particle behind every pointer, after a target state
for frame 12 was pushed for particle `0`. -/
def ExampleStateStaticTarget : FRewindData :=
  ({ ExampleState with
      DirtyParticles := []
      Solver := { ExampleSolver with Particles := fun _ => ExampleParticleStatic } }
    : FRewindData).PushStateAtFrame 0 12 .PostPushData ⟨9, 0, 0⟩ ⟨0, 0, 0, 1⟩ ⟨2, 0, 0⟩ ⟨0, 0, 0⟩ false

/-- Every value recorded in a `TargetStates` channel of the registry is enabled and either
sleeping or dynamic: the values that `PushStateAtFrame` stores. -/
def FRewindData.TargetStatesPushed (S : FRewindData) : Prop :=
  ∀ Info ∈ S.DirtyParticles, ∀ e ∈ Info.History.TargetStates.Buffer,
    e.2.Disabled = false ∧
    (e.2.ObjectState = EObjectStateType.Sleeping ∨ e.2.ObjectState = EObjectStateType.Dynamic)

/-- The example coordinator with targets recorded on frame 12 for its particle, which is live
but disabled. -/
def ExampleStateTargetsDisabled : FRewindData :=
  { ExampleStateTargets with
    Solver := { ExampleSolver with
      Particles := fun _ => { ExampleParticle with DynamicsMisc := ⟨.Dynamic, true⟩ } } }

/-! ## Facts about keys and channels -/

theorem key_le_refl (a : FFrameAndPhase) : a.le a = true := by
  simp [FFrameAndPhase.le]

theorem key_lt_iff_not_le (a b : FFrameAndPhase) : a.lt b = true ↔ b.le a = false := by
  simp only [FFrameAndPhase.lt, FFrameAndPhase.le, Bool.or_eq_true, Bool.and_eq_true,
    decide_eq_true_eq, Bool.or_eq_false_iff, Bool.and_eq_false_iff, decide_eq_false_iff_not]
  omega

theorem key_le_antisymm (a b : FFrameAndPhase) (h1 : a.le b = true) (h2 : b.le a = true) : a = b := by
  obtain ⟨af, ap⟩ := a
  obtain ⟨bf, bp⟩ := b
  simp only [FFrameAndPhase.le, Bool.or_eq_true, Bool.and_eq_true, decide_eq_true_eq] at h1 h2
  have hf : af = bf := by omega
  subst hf
  have hp : ap.toNat = bp.toNat := by omega
  cases ap <;> cases bp <;> simp_all [EParticleHistoryPhase.toNat]

theorem key_le_trans (a b c : FFrameAndPhase) (h1 : a.le b = true) (h2 : b.le c = true) :
    a.le c = true := by
  simp only [FFrameAndPhase.le, Bool.or_eq_true, Bool.and_eq_true, decide_eq_true_eq] at h1 h2 ⊢
  omega

theorem key_le_total (a b : FFrameAndPhase) : a.le b = true ∨ b.le a = true := by
  simp only [FFrameAndPhase.le, Bool.or_eq_true, Bool.and_eq_true, decide_eq_true_eq]
  omega

namespace TParticlePropertyBuffer

variable {T : Type}

theorem Latest_eq_none_iff (K : FFrameAndPhase) (es : List (FFrameAndPhase × T)) :
    Latest K es = none ↔ ∀ e ∈ es, e.1.le K = false := by
  induction es with
  | nil => simp [Latest]
  | cons e es ih =>
    simp only [Latest, List.mem_cons, forall_eq_or_imp]
    cases h : Latest K es with
    | none =>
      have ih1 := ih.mp h
      by_cases he : e.1.le K = true
      · simp [he]
      · simp [he, ih1] 
        intro a b hab
        exact ih1 (a, b) hab
    | some b =>
      have hne : ¬ (∀ e ∈ es, e.1.le K = false) := fun hall => by
        have := ih.mpr hall
        rw [h] at this
        cases this
      constructor
      · intro hh
        exfalso
        by_cases hc : (e.1.le K && b.1.le e.1) = true <;> simp [hc] at hh
      · intro hh
        exact absurd hh.2 hne

theorem Latest_cons_of_not_le (K : FFrameAndPhase) (e : FFrameAndPhase × T)
    (es : List (FFrameAndPhase × T)) (h : e.1.le K = false) : Latest K (e :: es) = Latest K es := by
  simp only [Latest, h]
  cases Latest K es <;> simp

theorem Latest_some_le (K : FFrameAndPhase) (es : List (FFrameAndPhase × T)) (b : FFrameAndPhase × T)
    (h : Latest K es = some b) : b ∈ es ∧ b.1.le K = true := by
  induction es generalizing b with
  | nil => simp [Latest] at h
  | cons e es ih =>
    simp only [Latest] at h
    cases h2 : Latest K es with
    | none =>
      rw [h2] at h
      simp only at h
      split at h
      · cases h
        exact ⟨List.mem_cons_self _ _, by assumption⟩
      · cases h
    | some c =>
      rw [h2] at h
      simp only at h
      have ihc := ih c h2
      split at h
      · cases h
        rename_i hcond
        simp only [Bool.and_eq_true] at hcond
        exact ⟨List.mem_cons_self _ _, hcond.1⟩
      · cases h
        exact ⟨List.mem_cons_of_mem _ ihc.1, ihc.2⟩

theorem IsClean_iff_Read_none (B : TParticlePropertyBuffer T) (K : FFrameAndPhase) :
    B.IsClean K = true ↔ B.Read K = none := by
  simp only [IsClean, Read, Option.map_eq_none', Latest_eq_none_iff, List.all_eq_true,
    Bool.not_eq_true']

theorem Read_isSome_of_not_IsClean (B : TParticlePropertyBuffer T) (K : FFrameAndPhase)
    (h : B.IsClean K = false) : ∃ v, B.Read K = some v := by
  cases hr : B.Read K with
  | none =>
    rw [(IsClean_iff_Read_none B K).mpr hr] at h
    cases h
  | some v => exact ⟨v, rfl⟩

theorem Read_Write_self (B : TParticlePropertyBuffer T) (K : FFrameAndPhase) (v : T) :
    (B.Write K v).Read K = some v := by
  simp only [Read, Write, Latest]
  cases h : Latest K (B.Buffer.filter (fun e => decide (e.1 ≠ K))) with
  | none => simp [key_le_refl]
  | some b =>
    have hb := (Latest_some_le K _ b h).2
    simp [key_le_refl, hb]

theorem Latest_filter (K : FFrameAndPhase) (p : FFrameAndPhase × T → Bool)
    (es : List (FFrameAndPhase × T)) (hp : ∀ e ∈ es, p e = false → e.1.le K = false) :
    Latest K (es.filter p) = Latest K es := by
  induction es with
  | nil => simp [Latest]
  | cons e es ih =>
    have ih1 := ih (fun x hx => hp x (List.mem_cons_of_mem _ hx))
    by_cases hpe : p e = true
    · simp only [List.filter_cons, hpe, if_true, Latest, ih1]
    · have hpe1 : p e = false := by simpa using hpe
      have hle := hp e (List.mem_cons_self _ _) hpe1
      rw [Latest_cons_of_not_le K e es hle, ← ih1]
      simp [List.filter_cons, hpe1]

theorem Read_Write_of_not_le (B : TParticlePropertyBuffer T) (K K1 : FFrameAndPhase) (v : T)
    (h : K.le K1 = false) : (B.Write K v).Read K1 = B.Read K1 := by
  have hf : Latest K1 (B.Buffer.filter (fun e => decide (e.1 ≠ K))) = Latest K1 B.Buffer := by
    apply Latest_filter
    intro e _ he
    have : e.1 = K := by simpa using he
    rw [this]
    exact h
  simp only [Read, Write]
  rw [Latest_cons_of_not_le K1 _ _ h, hf]

theorem IsClean_Write_of_not_IsClean (B : TParticlePropertyBuffer T) (K K1 : FFrameAndPhase) (v : T)
    (h : B.IsClean K1 = false) : (B.Write K v).IsClean K1 = false := by
  by_cases hk : K.le K1 = true
  · simp only [IsClean, Write, List.all_cons, hk]
    simp
  · have hk1 : K.le K1 = false := by simpa using hk
    cases hc : (B.Write K v).IsClean K1 with
    | false => rfl
    | true =>
      have h1 := (IsClean_iff_Read_none _ _).mp hc
      rw [Read_Write_of_not_le B K K1 v hk1] at h1
      rw [(IsClean_iff_Read_none _ _).mpr h1] at h
      cases h

theorem ClearEntryAndFuture_ClearedFrom (B : TParticlePropertyBuffer T) (K : FFrameAndPhase) :
    (B.ClearEntryAndFuture K).ClearedFrom K := by
  intro e he
  simp only [ClearEntryAndFuture, List.mem_filter] at he
  exact he.2

end TParticlePropertyBuffer


/-! ## The per-channel rewind helper -/

namespace FRewindData

theorem Cast_AsGeometryParticle (P Q : FGeometryParticleHandle)
    (h : FGeometryParticleHandle.AsGeometryParticle P = some Q) : Q = P := by
  simp only [FGeometryParticleHandle.AsGeometryParticle, Option.some.injEq] at h
  exact h.symm

theorem Cast_Kinematic (P Q : FGeometryParticleHandle)
    (h : FGeometryParticleHandle.CastToKinematicParticle P = some Q) : Q = P := by
  unfold FGeometryParticleHandle.CastToKinematicParticle at h
  split at h
  · cases h
  · simp only [Option.some.injEq] at h
    exact h.symm

theorem Cast_Rigid (P Q : FGeometryParticleHandle)
    (h : FGeometryParticleHandle.CastToRigidParticle P = some Q) : Q = P := by
  unfold FGeometryParticleHandle.CastToRigidParticle at h
  split at h
  · simp only [Option.some.injEq] at h
    exact h.symm
  · cases h

theorem Cast_Kinematic_of_type (P : FGeometryParticleHandle) (h : P.ParticleType ≠ EParticleType.Static) :
    FGeometryParticleHandle.CastToKinematicParticle P = some P := by
  unfold FGeometryParticleHandle.CastToKinematicParticle
  split
  · rename_i hs
    exact absurd hs h
  · rfl

theorem Cast_Rigid_of_type (P : FGeometryParticleHandle) (h : P.ParticleType = EParticleType.Rigid) :
    FGeometryParticleHandle.CastToRigidParticle P = some P := by
  unfold FGeometryParticleHandle.CastToRigidParticle
  split
  · rfl
  · rename_i hs
    exact absurd h (hs)

section Helper

variable {T : Type} (K C : FFrameAndPhase) (P : FGeometryParticleHandle)
  (Cast : FGeometryParticleHandle → Option FGeometryParticleHandle) (bFollower : Bool)
  (B : TParticlePropertyBuffer T) (Copy : FGeometryParticleHandle → T)
  (Func : FGeometryParticleHandle → T → FGeometryParticleHandle)

/-- What a successful `RewindHelper` call did, by cases on the follower flag and on the
cleanliness of the channel at the rewind key. -/
theorem RewindHelper_inv (hCast : ∀ Q, Cast P = some Q → Q = P)
    (c : Bool) (B1 : TParticlePropertyBuffer T) (P1 : FGeometryParticleHandle)
    (h : RewindHelper K C P Cast bFollower B Copy Func = some (c, B1, P1)) :
    (bFollower = true ∧ c = false ∧ B1 = B ∧
      ((B.Read K = none ∧ P1 = P) ∨ (∃ v, B.Read K = some v ∧ Cast P = some P ∧ P1 = Func P v))) ∨
    (bFollower = false ∧ B.IsClean K = true ∧ c = false ∧ B1 = B ∧ P1 = P) ∨
    (bFollower = false ∧ B.IsClean K = false ∧ c = true ∧ Cast P = some P ∧
      B1 = B.WriteAccessMonotonic C (Copy P) ∧ ∃ v, B1.Read K = some v ∧ P1 = Func P v) := by
  unfold RewindHelper at h
  cases bFollower with
  | true =>
    left
    simp only [if_true] at h
    cases hr : B.Read K with
    | none =>
      rw [hr] at h
      simp only [Option.some.injEq, Prod.mk.injEq] at h
      exact ⟨rfl, h.1.symm, h.2.1.symm, Or.inl ⟨rfl, h.2.2.symm⟩⟩
    | some v =>
      rw [hr] at h
      cases hc : Cast P with
      | none => rw [hc] at h; simp at h
      | some Q =>
        have hQ := hCast Q hc
        subst hQ
        rw [hc] at h
        simp only [Option.some.injEq, Prod.mk.injEq] at h
        exact ⟨rfl, h.1.symm, h.2.1.symm, Or.inr ⟨v, rfl, rfl, h.2.2.symm⟩⟩
  | false =>
    right
    simp only [Bool.false_eq_true, if_false] at h
    cases hcl : B.IsClean K with
    | true =>
      left
      rw [hcl] at h
      simp only [Bool.not_true, Bool.false_eq_true, if_false, Option.some.injEq, Prod.mk.injEq] at h
      exact ⟨rfl, rfl, h.1.symm, h.2.1.symm, h.2.2.symm⟩
    | false =>
      right
      rw [hcl] at h
      simp only [Bool.not_false, if_true] at h
      cases hc : Cast P with
      | none => rw [hc] at h; simp at h
      | some Q =>
        have hQ := hCast Q hc
        subst hQ
        rw [hc] at h
        simp only at h
        cases hr : (B.WriteAccessMonotonic C (Copy Q)).Read K with
        | none => rw [hr] at h; simp at h
        | some v =>
          rw [hr] at h
          simp only [Option.some.injEq, Prod.mk.injEq] at h
          refine ⟨rfl, rfl, h.1.symm, rfl, h.2.1.symm, v, ?_, h.2.2.symm⟩
          rw [← h.2.1]
          exact hr

/-- A property that `RewindFunc` does not touch is the same after a `RewindHelper` call. -/
theorem RewindHelper_preserves {A : Type} (proj : FGeometryParticleHandle → A)
    (c : Bool) (B1 : TParticlePropertyBuffer T) (P1 : FGeometryParticleHandle)
    (h : RewindHelper K C P Cast bFollower B Copy Func = some (c, B1, P1))
    (hCast : ∀ Q, Cast P = some Q → Q = P) (hFunc : ∀ Q v, proj (Func Q v) = proj Q) :
    proj P1 = proj P := by
  rcases RewindHelper_inv K C P Cast bFollower B Copy Func hCast c B1 P1 h with
    ⟨_, _, _, ⟨_, h1⟩ | ⟨v, _, _, h1⟩⟩ | ⟨_, _, _, _, h1⟩ | ⟨_, _, _, _, _, v, _, h1⟩
  · rw [h1]
  · rw [h1, hFunc]
  · rw [h1]
  · rw [h1, hFunc]

/-- A `RewindHelper` call succeeds when the cast succeeds or the channel is empty. -/
theorem RewindHelper_isSome (hok : Cast P = some P ∨ B.Buffer = []) :
    ∃ c B1 P1, RewindHelper K C P Cast bFollower B Copy Func = some (c, B1, P1) := by
  unfold RewindHelper
  rcases hok with hc | he
  · cases bFollower with
    | true =>
      simp only [if_true, hc]
      cases B.Read K <;> simp
    | false =>
      simp only [Bool.false_eq_true, if_false, hc]
      cases hcl : B.IsClean K with
      | true => simp
      | false =>
        simp only [Bool.not_false, if_true]
        obtain ⟨v, hv⟩ := TParticlePropertyBuffer.Read_isSome_of_not_IsClean _ K
          (TParticlePropertyBuffer.IsClean_Write_of_not_IsClean B C K (Copy P) hcl)
        simp only [TParticlePropertyBuffer.WriteAccessMonotonic, hv]
        simp
  · have hr : B.Read K = none := by
      simp [TParticlePropertyBuffer.Read, he, TParticlePropertyBuffer.Latest]
    have hcl : B.IsClean K = true := (TParticlePropertyBuffer.IsClean_iff_Read_none B K).mpr hr
    cases bFollower with
    | true => simp [hr]
    | false => simp [hcl]

end Helper

end FRewindData

/-! ## The channel restores of one particle -/

namespace FRewindData

/-- The seven helper calls behind a successful `RewindChannels`. -/
theorem RewindChannels_inv (K C : FFrameAndPhase) (bFollower : Bool) (H : FGeometryParticleStateBase)
    (P : FGeometryParticleHandle) (c : Bool) (H1 : FGeometryParticleStateBase)
    (Q : FGeometryParticleHandle) (h : RewindChannels K C bFollower H P = some (c, H1, Q)) :
    ∃ c1 b1 P1 c2 b2 P2 c3 b3 P3 c4 b4 P4 c5 b5 P5 c6 b6 P6 c7 b7,
      RewindHelper K C P FGeometryParticleHandle.AsGeometryParticle bFollower
        H.ParticlePositionRotation (fun O => O.XR) FGeometryParticleHandle.SetXR = some (c1, b1, P1) ∧
      RewindHelper K C P1 FGeometryParticleHandle.CastToKinematicParticle bFollower
        H.Velocities (fun O => O.Velocities) FGeometryParticleHandle.SetVelocities = some (c2, b2, P2) ∧
      RewindHelper K C P2 FGeometryParticleHandle.AsGeometryParticle bFollower
        H.NonFrequentData (fun O => O.NonFrequentData) FGeometryParticleHandle.SetNonFrequentData
          = some (c3, b3, P3) ∧
      RewindHelper K C P3 FGeometryParticleHandle.CastToKinematicParticle bFollower
        H.KinematicTarget (fun O => O.KinematicTarget) FGeometryParticleHandle.SetKinematicTarget
          = some (c4, b4, P4) ∧
      RewindHelper K C P4 FGeometryParticleHandle.CastToRigidParticle bFollower
        H.Dynamics (fun O => O.Dynamics) FGeometryParticleHandle.SetDynamics = some (c5, b5, P5) ∧
      RewindHelper K C P5 FGeometryParticleHandle.CastToRigidParticle bFollower
        H.DynamicsMisc (fun O => O.DynamicsMisc) FPBDRigidsSolver.SetParticleDynamicMisc
          = some (c6, b6, P6) ∧
      RewindHelper K C P6 FGeometryParticleHandle.CastToRigidParticle bFollower
        H.MassProps (fun O => O.MassProps) FGeometryParticleHandle.SetMassProps = some (c7, b7, Q) ∧
      c = (c1 || c2 || c3 || c4 || c5 || c6 || c7) ∧
      H1 = { H with
        ParticlePositionRotation := b1
        Velocities := b2
        NonFrequentData := b3
        KinematicTarget := b4
        Dynamics := b5
        DynamicsMisc := b6
        MassProps := b7 } := by
  unfold RewindChannels at h
  simp only [Option.bind_eq_bind, Option.bind_eq_some, Option.pure_def, Option.some.injEq,
    Prod.exists, Prod.mk.injEq] at h
  obtain ⟨c1, b1, P1, h1, c2, b2, P2, h2, c3, b3, P3, h3, c4, b4, P4, h4, c5, b5, P5, h5,
    c6, b6, P6, h6, c7, b7, P7, h7, hc, hH, hQ⟩ := h
  subst hQ
  exact ⟨c1, b1, P1, c2, b2, P2, c3, b3, P3, c4, b4, P4, c5, b5, P5, c6, b6, P6, c7, b7,
    h1, h2, h3, h4, h5, h6, h7, hc.symm, hH.symm⟩

/-- No channel restore touches the type, sync state, resim type, flags or proxy of the live
particle. -/
theorem RewindChannels_Rest (K C : FFrameAndPhase) (bFollower : Bool) (H : FGeometryParticleStateBase)
    (P : FGeometryParticleHandle) (c : Bool) (H1 : FGeometryParticleStateBase)
    (Q : FGeometryParticleHandle) (h : RewindChannels K C bFollower H P = some (c, H1, Q)) :
    Q.Rest = P.Rest := by
  obtain ⟨c1, b1, P1, c2, b2, P2, c3, b3, P3, c4, b4, P4, c5, b5, P5, c6, b6, P6, c7, b7,
    h1, h2, h3, h4, h5, h6, h7, _, _⟩ := RewindChannels_inv K C bFollower H P c H1 Q h
  have e1 := RewindHelper_preserves K C P _ bFollower _ _ _ FGeometryParticleHandle.Rest
      c1 b1 P1 h1 (Cast_AsGeometryParticle P) (fun _ _ => rfl)
  have e2 := RewindHelper_preserves K C P1 _ bFollower _ _ _ FGeometryParticleHandle.Rest
      c2 b2 P2 h2 (Cast_Kinematic P1) (fun _ _ => rfl)
  have e3 := RewindHelper_preserves K C P2 _ bFollower _ _ _ FGeometryParticleHandle.Rest
      c3 b3 P3 h3 (Cast_AsGeometryParticle P2) (fun _ _ => rfl)
  have e4 := RewindHelper_preserves K C P3 _ bFollower _ _ _ FGeometryParticleHandle.Rest
      c4 b4 P4 h4 (Cast_Kinematic P3) (fun _ _ => rfl)
  have e5 := RewindHelper_preserves K C P4 _ bFollower _ _ _ FGeometryParticleHandle.Rest
      c5 b5 P5 h5 (Cast_Rigid P4) (fun _ _ => rfl)
  have e6 := RewindHelper_preserves K C P5 _ bFollower _ _ _ FGeometryParticleHandle.Rest
      c6 b6 P6 h6 (Cast_Rigid P5) (fun _ _ => rfl)
  have e7 := RewindHelper_preserves K C P6 _ bFollower _ _ _ FGeometryParticleHandle.Rest
      c7 b7 Q h7 (Cast_Rigid P6) (fun _ _ => rfl)
  rw [e7, e6, e5, e4, e3, e2, e1]

/-- The channel restores leave the target channels and the cached pre-correction transform of
the snapshot alone. -/
theorem RewindChannels_targets (K C : FFrameAndPhase) (bFollower : Bool) (H : FGeometryParticleStateBase)
    (P : FGeometryParticleHandle) (c : Bool) (H1 : FGeometryParticleStateBase)
    (Q : FGeometryParticleHandle) (h : RewindChannels K C bFollower H P = some (c, H1, Q)) :
    H1.TargetPositions = H.TargetPositions ∧ H1.TargetVelocities = H.TargetVelocities ∧
    H1.TargetStates = H.TargetStates ∧ H1.PreCorrectionXR = H.PreCorrectionXR := by
  obtain ⟨c1, b1, P1, c2, b2, P2, c3, b3, P3, c4, b4, P4, c5, b5, P5, c6, b6, P6, c7, b7,
    _, _, _, _, _, _, _, _, rfl⟩ := RewindChannels_inv K C bFollower H P c H1 Q h
  exact ⟨rfl, rfl, rfl, rfl⟩

/-- The channel restores succeed on a particle whose channels fit its type. -/
theorem RewindChannels_isSome (K C : FFrameAndPhase) (bFollower : Bool) (H : FGeometryParticleStateBase)
    (P : FGeometryParticleHandle) (hm : ChannelsMatchType H P) :
    ∃ c H1 Q, RewindChannels K C bFollower H P = some (c, H1, Q) := by
  have type_of : ∀ (A B : FGeometryParticleHandle), A.Rest = B.Rest → A.ParticleType = B.ParticleType :=
    fun A B hAB => congrArg Prod.fst hAB
  have kin : ∀ Q : FGeometryParticleHandle, Q.ParticleType = P.ParticleType →
      ∀ {T : Type} (B : TParticlePropertyBuffer T), (P.ParticleType = EParticleType.Static → B.Buffer = []) →
      FGeometryParticleHandle.CastToKinematicParticle Q = some Q ∨ B.Buffer = [] := by
    intro Q hQ T B hB
    by_cases hs : P.ParticleType = EParticleType.Static
    · exact Or.inr (hB hs)
    · exact Or.inl (Cast_Kinematic_of_type Q (by rw [hQ]; exact hs))
  have rig : ∀ Q : FGeometryParticleHandle, Q.ParticleType = P.ParticleType →
      ∀ {T : Type} (B : TParticlePropertyBuffer T), (P.ParticleType ≠ EParticleType.Rigid → B.Buffer = []) →
      FGeometryParticleHandle.CastToRigidParticle Q = some Q ∨ B.Buffer = [] := by
    intro Q hQ T B hB
    by_cases hs : P.ParticleType = EParticleType.Rigid
    · exact Or.inl (Cast_Rigid_of_type Q (by rw [hQ]; exact hs))
    · exact Or.inr (hB hs)
  obtain ⟨c1, b1, P1, h1⟩ := RewindHelper_isSome K C P FGeometryParticleHandle.AsGeometryParticle
    bFollower H.ParticlePositionRotation (fun O => O.XR) FGeometryParticleHandle.SetXR (Or.inl rfl)
  have t1 : P1.ParticleType = P.ParticleType := type_of _ _
    (RewindHelper_preserves K C P _ bFollower _ _ _ FGeometryParticleHandle.Rest
      c1 b1 P1 h1 (Cast_AsGeometryParticle P) (fun _ _ => rfl))
  obtain ⟨c2, b2, P2, h2⟩ := RewindHelper_isSome K C P1 FGeometryParticleHandle.CastToKinematicParticle
    bFollower H.Velocities (fun O => O.Velocities) FGeometryParticleHandle.SetVelocities
    (kin P1 t1 _ (fun hs => (hm.1 hs).1))
  have t2 : P2.ParticleType = P.ParticleType := (type_of _ _
    (RewindHelper_preserves K C P1 _ bFollower _ _ _ FGeometryParticleHandle.Rest
      c2 b2 P2 h2 (Cast_Kinematic P1) (fun _ _ => rfl))).trans t1
  obtain ⟨c3, b3, P3, h3⟩ := RewindHelper_isSome K C P2 FGeometryParticleHandle.AsGeometryParticle
    bFollower H.NonFrequentData (fun O => O.NonFrequentData) FGeometryParticleHandle.SetNonFrequentData
    (Or.inl rfl)
  have t3 : P3.ParticleType = P.ParticleType := (type_of _ _
    (RewindHelper_preserves K C P2 _ bFollower _ _ _ FGeometryParticleHandle.Rest
      c3 b3 P3 h3 (Cast_AsGeometryParticle P2) (fun _ _ => rfl))).trans t2
  obtain ⟨c4, b4, P4, h4⟩ := RewindHelper_isSome K C P3 FGeometryParticleHandle.CastToKinematicParticle
    bFollower H.KinematicTarget (fun O => O.KinematicTarget) FGeometryParticleHandle.SetKinematicTarget
    (kin P3 t3 _ (fun hs => (hm.1 hs).2))
  have t4 : P4.ParticleType = P.ParticleType := (type_of _ _
    (RewindHelper_preserves K C P3 _ bFollower _ _ _ FGeometryParticleHandle.Rest
      c4 b4 P4 h4 (Cast_Kinematic P3) (fun _ _ => rfl))).trans t3
  obtain ⟨c5, b5, P5, h5⟩ := RewindHelper_isSome K C P4 FGeometryParticleHandle.CastToRigidParticle
    bFollower H.Dynamics (fun O => O.Dynamics) FGeometryParticleHandle.SetDynamics
    (rig P4 t4 _ (fun hs => (hm.2 hs).1))
  have t5 : P5.ParticleType = P.ParticleType := (type_of _ _
    (RewindHelper_preserves K C P4 _ bFollower _ _ _ FGeometryParticleHandle.Rest
      c5 b5 P5 h5 (Cast_Rigid P4) (fun _ _ => rfl))).trans t4
  obtain ⟨c6, b6, P6, h6⟩ := RewindHelper_isSome K C P5 FGeometryParticleHandle.CastToRigidParticle
    bFollower H.DynamicsMisc (fun O => O.DynamicsMisc) FPBDRigidsSolver.SetParticleDynamicMisc
    (rig P5 t5 _ (fun hs => (hm.2 hs).2.1))
  have t6 : P6.ParticleType = P.ParticleType := (type_of _ _
    (RewindHelper_preserves K C P5 _ bFollower _ _ _ FGeometryParticleHandle.Rest
      c6 b6 P6 h6 (Cast_Rigid P5) (fun _ _ => rfl))).trans t5
  obtain ⟨c7, b7, P7, h7⟩ := RewindHelper_isSome K C P6 FGeometryParticleHandle.CastToRigidParticle
    bFollower H.MassProps (fun O => O.MassProps) FGeometryParticleHandle.SetMassProps
    (rig P6 t6 _ (fun hs => (hm.2 hs).2.2))
  unfold RewindChannels
  simp only [Option.bind_eq_bind, h1, h2, h3, h4, h5, h6, h7, Option.some_bind, Option.pure_def]
  exact ⟨_, _, _, rfl⟩

end FRewindData

/-! ## One iteration of the particle loop of RewindToFrame -/

namespace FRewindData

/-- A successful iteration of the particle loop, in terms of the channel restores. -/
theorem RewindParticle_inv (Frame CurFrame : Int) (Sv : FPBDRigidsSolver) (Info : FDirtyParticleInfo)
    (Sv1 : FPBDRigidsSolver) (Info1 : FDirtyParticleInfo)
    (h : RewindParticle Frame CurFrame Sv Info = some (Sv1, Info1)) :
    ∃ c H1 P1,
      RewindChannels ⟨Frame, .PostPushData⟩ ⟨CurFrame, .PrePushData⟩ Info.bResimAsFollower
        (Info.History.CachePreCorrectionState (Sv.Particles Info.Object)) (Sv.Particles Info.Object)
        = some (c, H1, P1) ∧
      Info1 = RewindInfoResult Info c H1 ∧
      Sv1.Particles = (fun q => if q = Info.Object then RewindLiveResult Frame Info c P1 else Sv.Particles q) ∧
      Sv1.Joints = Sv.Joints ∧
      Sv1.bNetworkPhysicsPredictionEnabled = Sv.bNetworkPhysicsPredictionEnabled ∧
      Sv1.Evolution = Sv.Evolution.map (RewindEvolutionResult Frame Info c) ∧
      (Info.bResimAsFollower = false → (c = true ∨ Info.InitializedOnStep > Frame) →
        Sv.Evolution.isSome = true) := by
  unfold RewindParticle at h
  simp only at h
  cases hr : RewindChannels ⟨Frame, .PostPushData⟩ ⟨CurFrame, .PrePushData⟩ Info.bResimAsFollower
      (Info.History.CachePreCorrectionState (Sv.Particles Info.Object)) (Sv.Particles Info.Object) with
  | none => rw [hr] at h; simp at h
  | some r =>
    obtain ⟨c, H1, P1⟩ := r
    rw [hr] at h
    refine ⟨c, H1, P1, rfl, ?_⟩
    simp only at h
    cases hf : Info.bResimAsFollower with
    | true =>
      simp only [hf, Bool.not_true, Bool.false_eq_true, if_false, Option.some.injEq, Prod.mk.injEq] at h
      obtain ⟨rfl, rfl⟩ := h
      refine ⟨?_, ?_, rfl, rfl, ?_, ?_⟩
      · simp [RewindInfoResult, hf]
      · simp [FPBDRigidsSolver.SetParticle, RewindLiveResult, hf]
      · simp only [FPBDRigidsSolver.SetParticle]
        cases Sv.Evolution <;> simp [RewindEvolutionResult, hf]
      · intro hff
        cases hff
    | false =>
      simp only [hf, Bool.not_false, if_true] at h
      cases hc : c with
      | true =>
        simp only [hc, if_true] at h
        cases he : Sv.Evolution with
        | none => rw [he] at h; simp at h
        | some E =>
          rw [he] at h
          simp only at h
          by_cases hi : Info.InitializedOnStep > Frame
          · simp only [hi, if_true, Option.some.injEq, Prod.mk.injEq] at h
            obtain ⟨rfl, rfl⟩ := h
            refine ⟨?_, ?_, rfl, rfl, ?_, fun _ _ => rfl⟩
            · simp [RewindInfoResult, hf]
            · simp [FPBDRigidsSolver.SetParticle, RewindLiveResult, hf, hi]
            · simp [FPBDRigidsSolver.SetParticle, RewindEvolutionResult, hf, hi]
          · simp only [hi, if_false, Option.some.injEq, Prod.mk.injEq] at h
            obtain ⟨rfl, rfl⟩ := h
            refine ⟨?_, ?_, rfl, rfl, ?_, fun _ _ => rfl⟩
            · simp [RewindInfoResult, hf]
            · simp [FPBDRigidsSolver.SetParticle, RewindLiveResult, hf, hi]
            · simp [FPBDRigidsSolver.SetParticle, RewindEvolutionResult, hf, hi]
      | false =>
        simp only [hc, Bool.false_eq_true, if_false] at h
        by_cases hi : Info.InitializedOnStep > Frame
        · simp only [hi, if_true] at h
          cases he : Sv.Evolution with
          | none => rw [he] at h; simp at h
          | some E =>
            rw [he] at h
            simp only [Option.some.injEq, Prod.mk.injEq] at h
            obtain ⟨rfl, rfl⟩ := h
            refine ⟨?_, ?_, rfl, rfl, ?_, fun _ _ => rfl⟩
            · simp [RewindInfoResult, hf]
            · simp [FPBDRigidsSolver.SetParticle, RewindLiveResult, hf, hi]
            · simp [FPBDRigidsSolver.SetParticle, RewindEvolutionResult, hf, hi]
        · simp only [hi, if_false, Option.some.injEq, Prod.mk.injEq] at h
          obtain ⟨rfl, rfl⟩ := h
          refine ⟨?_, ?_, rfl, rfl, ?_, ?_⟩
          · simp [RewindInfoResult, hf]
          · simp [FPBDRigidsSolver.SetParticle, RewindLiveResult, hf, hi]
          · simp only [FPBDRigidsSolver.SetParticle]
            cases Sv.Evolution <;> simp [RewindEvolutionResult, hf, hi]
          · intro _ hor
            rcases hor with h1 | h1
            · cases h1
            · exact absurd h1 hi

end FRewindData

/-! ## The particle loop of RewindToFrame runs through on well-formed registries -/

namespace FRewindData

theorem RewindLiveResult_Rest_type (Frame : Int) (Info : FDirtyParticleInfo) (c : Bool)
    (P1 : FGeometryParticleHandle) :
    (RewindLiveResult Frame Info c P1).ParticleType = P1.ParticleType := by
  unfold RewindLiveResult
  split
  · rfl
  · simp only
    split <;> split <;> rfl

theorem RewindParticle_type (Frame CurFrame : Int) (Sv : FPBDRigidsSolver) (Info : FDirtyParticleInfo)
    (Sv1 : FPBDRigidsSolver) (Info1 : FDirtyParticleInfo)
    (h : RewindParticle Frame CurFrame Sv Info = some (Sv1, Info1)) (q : Nat) :
    (Sv1.Particles q).ParticleType = (Sv.Particles q).ParticleType := by
  obtain ⟨c, H1, P1, hr, _, hp, _, _, _, _⟩ := RewindParticle_inv Frame CurFrame Sv Info Sv1 Info1 h
  rw [hp]
  by_cases hq : q = Info.Object
  · subst hq
    simp only [if_true]
    rw [RewindLiveResult_Rest_type]
    exact congrArg Prod.fst (RewindChannels_Rest _ _ _ _ _ _ _ _ hr)
  · simp only [hq, if_false]

theorem RewindParticle_isSome (Frame CurFrame : Int) (Sv : FPBDRigidsSolver) (Info : FDirtyParticleInfo)
    (he : Sv.Evolution.isSome = true)
    (hm : ChannelsMatchType Info.History (Sv.Particles Info.Object)) :
    ∃ Sv1 Info1, RewindParticle Frame CurFrame Sv Info = some (Sv1, Info1) := by
  obtain ⟨c, H1, P1, hr⟩ := RewindChannels_isSome ⟨Frame, .PostPushData⟩ ⟨CurFrame, .PrePushData⟩
    Info.bResimAsFollower (Info.History.CachePreCorrectionState (Sv.Particles Info.Object))
    (Sv.Particles Info.Object) hm
  obtain ⟨E, hE⟩ := Option.isSome_iff_exists.mp he
  unfold RewindParticle
  simp only [hr, hE]
  cases Info.bResimAsFollower <;> cases c <;> by_cases hi : Info.InitializedOnStep > Frame <;>
    simp [hi]

theorem RewindParticles_isSome (Frame CurFrame : Int) (L : List FDirtyParticleInfo) :
    ∀ Sv : FPBDRigidsSolver, Sv.Evolution.isSome = true →
      (∀ Info ∈ L, ChannelsMatchType Info.History (Sv.Particles Info.Object)) →
      ∃ Sv1 L1, RewindParticles Frame CurFrame Sv L = some (Sv1, L1) := by
  induction L with
  | nil => intro Sv _ _; exact ⟨Sv, [], rfl⟩
  | cons Info Rest ih =>
    intro Sv he hm
    obtain ⟨Sv1, Info1, h1⟩ := RewindParticle_isSome Frame CurFrame Sv Info he
      (hm Info (List.mem_cons_self _ _))
    obtain ⟨_, _, _, _, _, _, _, _, hev, _⟩ := RewindParticle_inv Frame CurFrame Sv Info Sv1 Info1 h1
    have he1 : Sv1.Evolution.isSome = true := by
      rw [hev]
      simpa using he
    have hm1 : ∀ I ∈ Rest, ChannelsMatchType I.History (Sv1.Particles I.Object) := by
      intro I hI
      have := hm I (List.mem_cons_of_mem _ hI)
      unfold ChannelsMatchType at this ⊢
      rw [RewindParticle_type Frame CurFrame Sv Info Sv1 Info1 h1]
      exact this
    obtain ⟨Sv2, L2, h2⟩ := ih Sv1 he1 hm1
    exact ⟨Sv2, Info1 :: L2, by simp [RewindParticles, h1, h2]⟩

end FRewindData

/-! ## What a rewind records and restores -/

namespace FRewindData

/-- A non-follower `RewindHelper` call on a channel that is not clean at the rewind key
records the live value at the current key and restores the value read at the rewind key. -/
theorem RewindHelper_rewound {T : Type} (K C : FFrameAndPhase) (P : FGeometryParticleHandle)
    (Cast : FGeometryParticleHandle → Option FGeometryParticleHandle)
    (B : TParticlePropertyBuffer T) (Copy : FGeometryParticleHandle → T)
    (Func : FGeometryParticleHandle → T → FGeometryParticleHandle)
    (c : Bool) (B1 : TParticlePropertyBuffer T) (P1 : FGeometryParticleHandle)
    (h : RewindHelper K C P Cast false B Copy Func = some (c, B1, P1))
    (hCast : ∀ Q, Cast P = some Q → Q = P) (hSet : ∀ Q v, Copy (Func Q v) = v) :
    Rewound K C B B1 (Copy P) (Copy P1) := by
  intro hcl
  rcases RewindHelper_inv K C P Cast false B Copy Func hCast c B1 P1 h with
    ⟨hf, _⟩ | ⟨_, hc, _⟩ | ⟨_, _, _, _, hB, v, hv, hP⟩
  · cases hf
  · rw [hc] at hcl
    cases hcl
  · have hP1 : Copy P1 = v := by rw [hP, hSet]
    refine ⟨?_, ?_, ?_⟩
    · rw [hB]
      exact TParticlePropertyBuffer.Read_Write_self B C (Copy P)
    · rw [hP1]
      exact hv
    · intro hle
      rw [hP1, ← hv, hB]
      exact (TParticlePropertyBuffer.Read_Write_of_not_le B C K (Copy P) hle).symm

/-- Each channel's helper call behind a successful `RewindChannels`, with the live property
it starts from and ends with expressed on the particle before and after all seven calls: no
helper call touches the property of another channel. -/
theorem RewindChannels_steps (K C : FFrameAndPhase) (bFollower : Bool) (H : FGeometryParticleStateBase)
    (P : FGeometryParticleHandle) (c : Bool) (H1 : FGeometryParticleStateBase)
    (Q : FGeometryParticleHandle) (h : RewindChannels K C bFollower H P = some (c, H1, Q)) :
    (∃ c1 A B, RewindHelper K C A FGeometryParticleHandle.AsGeometryParticle bFollower H.ParticlePositionRotation
        (fun O => O.XR) FGeometryParticleHandle.SetXR = some (c1, H1.ParticlePositionRotation, B) ∧
      A.XR = P.XR ∧ B.XR = Q.XR) ∧
    (∃ c1 A B, RewindHelper K C A FGeometryParticleHandle.CastToKinematicParticle bFollower H.Velocities
        (fun O => O.Velocities) FGeometryParticleHandle.SetVelocities = some (c1, H1.Velocities, B) ∧
      A.Velocities = P.Velocities ∧ B.Velocities = Q.Velocities) ∧
    (∃ c1 A B, RewindHelper K C A FGeometryParticleHandle.AsGeometryParticle bFollower H.NonFrequentData
        (fun O => O.NonFrequentData) FGeometryParticleHandle.SetNonFrequentData = some (c1, H1.NonFrequentData, B) ∧
      A.NonFrequentData = P.NonFrequentData ∧ B.NonFrequentData = Q.NonFrequentData) ∧
    (∃ c1 A B, RewindHelper K C A FGeometryParticleHandle.CastToKinematicParticle bFollower H.KinematicTarget
        (fun O => O.KinematicTarget) FGeometryParticleHandle.SetKinematicTarget = some (c1, H1.KinematicTarget, B) ∧
      A.KinematicTarget = P.KinematicTarget ∧ B.KinematicTarget = Q.KinematicTarget) ∧
    (∃ c1 A B, RewindHelper K C A FGeometryParticleHandle.CastToRigidParticle bFollower H.Dynamics
        (fun O => O.Dynamics) FGeometryParticleHandle.SetDynamics = some (c1, H1.Dynamics, B) ∧
      A.Dynamics = P.Dynamics ∧ B.Dynamics = Q.Dynamics) ∧
    (∃ c1 A B, RewindHelper K C A FGeometryParticleHandle.CastToRigidParticle bFollower H.DynamicsMisc
        (fun O => O.DynamicsMisc) FPBDRigidsSolver.SetParticleDynamicMisc = some (c1, H1.DynamicsMisc, B) ∧
      A.DynamicsMisc = P.DynamicsMisc ∧ B.DynamicsMisc = Q.DynamicsMisc) ∧
    (∃ c1 A B, RewindHelper K C A FGeometryParticleHandle.CastToRigidParticle bFollower H.MassProps
        (fun O => O.MassProps) FGeometryParticleHandle.SetMassProps = some (c1, H1.MassProps, B) ∧
      A.MassProps = P.MassProps ∧ B.MassProps = Q.MassProps) := by
  obtain ⟨c1, b1, P1, c2, b2, P2, c3, b3, P3, c4, b4, P4, c5, b5, P5, c6, b6, P6, c7, b7,
    h1, h2, h3, h4, h5, h6, h7, _, rfl⟩ := RewindChannels_inv K C bFollower H P c H1 Q h
  have e1 := RewindHelper_preserves K C P _ bFollower _ _ _
    (fun O : FGeometryParticleHandle => (O.Velocities, O.NonFrequentData, O.KinematicTarget, O.Dynamics, O.DynamicsMisc, O.MassProps))
    c1 b1 P1 h1 (Cast_AsGeometryParticle P) (fun _ _ => rfl)
  simp only [Prod.mk.injEq] at e1
  have e2 := RewindHelper_preserves K C P1 _ bFollower _ _ _
    (fun O : FGeometryParticleHandle => (O.XR, O.NonFrequentData, O.KinematicTarget, O.Dynamics, O.DynamicsMisc, O.MassProps))
    c2 b2 P2 h2 (Cast_Kinematic P1) (fun _ _ => rfl)
  simp only [Prod.mk.injEq] at e2
  have e3 := RewindHelper_preserves K C P2 _ bFollower _ _ _
    (fun O : FGeometryParticleHandle => (O.XR, O.Velocities, O.KinematicTarget, O.Dynamics, O.DynamicsMisc, O.MassProps))
    c3 b3 P3 h3 (Cast_AsGeometryParticle P2) (fun _ _ => rfl)
  simp only [Prod.mk.injEq] at e3
  have e4 := RewindHelper_preserves K C P3 _ bFollower _ _ _
    (fun O : FGeometryParticleHandle => (O.XR, O.Velocities, O.NonFrequentData, O.Dynamics, O.DynamicsMisc, O.MassProps))
    c4 b4 P4 h4 (Cast_Kinematic P3) (fun _ _ => rfl)
  simp only [Prod.mk.injEq] at e4
  have e5 := RewindHelper_preserves K C P4 _ bFollower _ _ _
    (fun O : FGeometryParticleHandle => (O.XR, O.Velocities, O.NonFrequentData, O.KinematicTarget, O.DynamicsMisc, O.MassProps))
    c5 b5 P5 h5 (Cast_Rigid P4) (fun _ _ => rfl)
  simp only [Prod.mk.injEq] at e5
  have e6 := RewindHelper_preserves K C P5 _ bFollower _ _ _
    (fun O : FGeometryParticleHandle => (O.XR, O.Velocities, O.NonFrequentData, O.KinematicTarget, O.Dynamics, O.MassProps))
    c6 b6 P6 h6 (Cast_Rigid P5) (fun _ _ => rfl)
  simp only [Prod.mk.injEq] at e6
  have e7 := RewindHelper_preserves K C P6 _ bFollower _ _ _
    (fun O : FGeometryParticleHandle => (O.XR, O.Velocities, O.NonFrequentData, O.KinematicTarget, O.Dynamics, O.DynamicsMisc))
    c7 b7 Q h7 (Cast_Rigid P6) (fun _ _ => rfl)
  simp only [Prod.mk.injEq] at e7
  exact ⟨⟨c1, P, P1, h1, by simp only [e1, e2, e3, e4, e5, e6, e7], by simp only [e1, e2, e3, e4, e5, e6, e7]⟩,
    ⟨c2, P1, P2, h2, by simp only [e1, e2, e3, e4, e5, e6, e7], by simp only [e1, e2, e3, e4, e5, e6, e7]⟩,
    ⟨c3, P2, P3, h3, by simp only [e1, e2, e3, e4, e5, e6, e7], by simp only [e1, e2, e3, e4, e5, e6, e7]⟩,
    ⟨c4, P3, P4, h4, by simp only [e1, e2, e3, e4, e5, e6, e7], by simp only [e1, e2, e3, e4, e5, e6, e7]⟩,
    ⟨c5, P4, P5, h5, by simp only [e1, e2, e3, e4, e5, e6, e7], by simp only [e1, e2, e3, e4, e5, e6, e7]⟩,
    ⟨c6, P5, P6, h6, by simp only [e1, e2, e3, e4, e5, e6, e7], by simp only [e1, e2, e3, e4, e5, e6, e7]⟩,
    ⟨c7, P6, Q, h7, by simp only [e1, e2, e3, e4, e5, e6, e7], by simp only [e1, e2, e3, e4, e5, e6, e7]⟩⟩

/-- After any `RewindHelper` call the live property is untouched or is what the channel reads
at the rewind key. -/
theorem RewindHelper_restored {T : Type} (K C : FFrameAndPhase) (P : FGeometryParticleHandle)
    (Cast : FGeometryParticleHandle → Option FGeometryParticleHandle) (bFollower : Bool)
    (B : TParticlePropertyBuffer T) (Copy : FGeometryParticleHandle → T)
    (Func : FGeometryParticleHandle → T → FGeometryParticleHandle)
    (c : Bool) (B1 : TParticlePropertyBuffer T) (P1 : FGeometryParticleHandle)
    (h : RewindHelper K C P Cast bFollower B Copy Func = some (c, B1, P1))
    (hCast : ∀ Q, Cast P = some Q → Q = P) (hSet : ∀ Q v, Copy (Func Q v) = v) :
    Copy P1 = Copy P ∨ B1.Read K = some (Copy P1) := by
  rcases RewindHelper_inv K C P Cast bFollower B Copy Func hCast c B1 P1 h with
    ⟨_, _, hB, ⟨_, hP⟩ | ⟨v, hv, _, hP⟩⟩ | ⟨_, _, _, _, hP⟩ | ⟨_, _, _, _, _, v, hv, hP⟩
  · exact Or.inl (by rw [hP])
  · exact Or.inr (by rw [hP, hSet, hB]; exact hv)
  · exact Or.inl (by rw [hP])
  · exact Or.inr (by rw [hP, hSet]; exact hv)

end FRewindData

/-! ## The particle loop of RewindToFrame, object by object -/

namespace FRewindData

theorem RewindLiveResult_props (Frame : Int) (Info : FDirtyParticleInfo) (c : Bool)
    (P1 : FGeometryParticleHandle) :
    (RewindLiveResult Frame Info c P1).XR = P1.XR ∧
    (RewindLiveResult Frame Info c P1).Velocities = P1.Velocities ∧
    (RewindLiveResult Frame Info c P1).NonFrequentData = P1.NonFrequentData ∧
    (RewindLiveResult Frame Info c P1).KinematicTarget = P1.KinematicTarget ∧
    (RewindLiveResult Frame Info c P1).Dynamics = P1.Dynamics ∧
    (RewindLiveResult Frame Info c P1).MassProps = P1.MassProps ∧
    ((Info.bResimAsFollower = true ∨ Info.InitializedOnStep ≤ Frame) →
      (RewindLiveResult Frame Info c P1).DynamicsMisc = P1.DynamicsMisc) ∧
    (Info.bResimAsFollower = false → Info.InitializedOnStep > Frame →
      (RewindLiveResult Frame Info c P1).DynamicsMisc = { P1.DynamicsMisc with Disabled := true }) := by
  unfold RewindLiveResult
  cases hf : Info.bResimAsFollower <;> cases c <;> by_cases hi : Info.InitializedOnStep > Frame <;>
    simp [hi, FPBDRigidsEvolution.DisableParticle, FGeometryParticleHandle.SetDisabled,
      FGeometryParticleHandle.SetEnabledDuringResim]

theorem RewindInfoResult_props (Info : FDirtyParticleInfo) (c : Bool) (H1 : FGeometryParticleStateBase) :
    (RewindInfoResult Info c H1).History = H1 ∧ (RewindInfoResult Info c H1).Object = Info.Object ∧
    (RewindInfoResult Info c H1).bResimAsFollower = Info.bResimAsFollower ∧
    (RewindInfoResult Info c H1).InitializedOnStep = Info.InitializedOnStep ∧
    (RewindInfoResult Info c H1).LastDirtyFrame = Info.LastDirtyFrame := by
  unfold RewindInfoResult
  split <;> exact ⟨rfl, rfl, rfl, rfl, rfl⟩

/-- One iteration of the particle loop on a non-follower entry rewinds the particle. -/
theorem RewindParticle_rewound (Frame CurFrame : Int) (Sv : FPBDRigidsSolver) (Info : FDirtyParticleInfo)
    (Sv1 : FPBDRigidsSolver) (Info1 : FDirtyParticleInfo)
    (h : RewindParticle Frame CurFrame Sv Info = some (Sv1, Info1))
    (hf : Info.bResimAsFollower = false) :
    RewoundParticle Frame CurFrame Info (Sv.Particles Info.Object) Info1 (Sv1.Particles Info.Object) := by
  obtain ⟨c, H1, P1, hr, hI, hp, _, _, _, _⟩ := RewindParticle_inv Frame CurFrame Sv Info Sv1 Info1 h
  rw [hf] at hr
  obtain ⟨⟨c1, A1, B1, s1, a1, b1⟩, ⟨c2, A2, B2, s2, a2, b2⟩, ⟨c3, A3, B3, s3, a3, b3⟩,
    ⟨c4, A4, B4, s4, a4, b4⟩, ⟨c5, A5, B5, s5, a5, b5⟩, ⟨c6, A6, B6, s6, a6, b6⟩,
    ⟨c7, A7, B7, s7, a7, b7⟩⟩ := RewindChannels_steps _ _ _ _ _ _ _ _ hr
  have r1 := RewindHelper_rewound _ _ _ _ _ _ _ _ _ _ s1 (Cast_AsGeometryParticle A1) (fun _ _ => rfl)
  have r2 := RewindHelper_rewound _ _ _ _ _ _ _ _ _ _ s2 (Cast_Kinematic A2) (fun _ _ => rfl)
  have r3 := RewindHelper_rewound _ _ _ _ _ _ _ _ _ _ s3 (Cast_AsGeometryParticle A3) (fun _ _ => rfl)
  have r4 := RewindHelper_rewound _ _ _ _ _ _ _ _ _ _ s4 (Cast_Kinematic A4) (fun _ _ => rfl)
  have r5 := RewindHelper_rewound _ _ _ _ _ _ _ _ _ _ s5 (Cast_Rigid A5) (fun _ _ => rfl)
  have r6 := RewindHelper_rewound _ _ _ _ _ _ _ _ _ _ s6 (Cast_Rigid A6) (fun _ _ => rfl)
  have r7 := RewindHelper_rewound _ _ _ _ _ _ _ _ _ _ s7 (Cast_Rigid A7) (fun _ _ => rfl)
  simp only [a1, b1] at r1
  simp only [a2, b2] at r2
  simp only [a3, b3] at r3
  simp only [a4, b4] at r4
  simp only [a5, b5] at r5
  simp only [a6, b6] at r6
  simp only [a7, b7] at r7
  obtain ⟨l1, l2, l3, l4, l5, l7, l6a, l6b⟩ := RewindLiveResult_props Frame Info c P1
  have hH := (RewindInfoResult_props Info c H1).1
  have hlive : Sv1.Particles Info.Object = RewindLiveResult Frame Info c P1 := by
    rw [hp]
    simp
  unfold RewoundParticle
  rw [hlive, hI, hH, l1, l2, l3, l4, l5, l7]
  refine ⟨r1, r2, r3, r4, r5, r7, ?_, ?_⟩
  · intro hle
    rw [l6a (Or.inr hle)]
    exact r6
  · intro hgt
    rw [l6b hf hgt]
    intro hcl
    obtain ⟨x1, x2, x3⟩ := r6 hcl
    exact ⟨x1, P1.DynamicsMisc, x2, rfl, x3⟩

theorem RewindParticle_Object (Frame CurFrame : Int) (Sv : FPBDRigidsSolver) (Info : FDirtyParticleInfo)
    (Sv1 : FPBDRigidsSolver) (Info1 : FDirtyParticleInfo)
    (h : RewindParticle Frame CurFrame Sv Info = some (Sv1, Info1)) :
    Info1.Object = Info.Object ∧ ∀ q, q ≠ Info.Object → Sv1.Particles q = Sv.Particles q := by
  obtain ⟨c, H1, P1, _, hI, hp, _, _, _, _⟩ := RewindParticle_inv Frame CurFrame Sv Info Sv1 Info1 h
  refine ⟨by rw [hI]; exact (RewindInfoResult_props Info c H1).2.1, ?_⟩
  intro q hq
  rw [hp]
  simp [hq]

theorem RewindParticles_cons_inv (Frame CurFrame : Int) (Sv : FPBDRigidsSolver)
    (Info : FDirtyParticleInfo) (Rest : List FDirtyParticleInfo) (Sv2 : FPBDRigidsSolver)
    (L2 : List FDirtyParticleInfo)
    (h : RewindParticles Frame CurFrame Sv (Info :: Rest) = some (Sv2, L2)) :
    ∃ Sv1 Info1 Rest1, RewindParticle Frame CurFrame Sv Info = some (Sv1, Info1) ∧
      RewindParticles Frame CurFrame Sv1 Rest = some (Sv2, Rest1) ∧ L2 = Info1 :: Rest1 := by
  simp only [RewindParticles] at h
  cases h1 : RewindParticle Frame CurFrame Sv Info with
  | none => rw [h1] at h; simp at h
  | some r1 =>
    obtain ⟨Sv1, Info1⟩ := r1
    rw [h1] at h
    simp only at h
    cases h2 : RewindParticles Frame CurFrame Sv1 Rest with
    | none => rw [h2] at h; simp at h
    | some r2 =>
      obtain ⟨Sv2a, Rest1⟩ := r2
      rw [h2] at h
      simp only [Option.some.injEq, Prod.mk.injEq] at h
      obtain ⟨rfl, rfl⟩ := h
      exact ⟨Sv1, Info1, Rest1, rfl, h2, rfl⟩

/-- The particle loop leaves alone every live particle that no registry entry points to. -/
theorem RewindParticles_frame (Frame CurFrame : Int) (L : List FDirtyParticleInfo) :
    ∀ (Sv Sv2 : FPBDRigidsSolver) (L2 : List FDirtyParticleInfo),
      RewindParticles Frame CurFrame Sv L = some (Sv2, L2) →
      ∀ q, q ∉ L.map (fun Info => Info.Object) → Sv2.Particles q = Sv.Particles q := by
  induction L with
  | nil =>
    intro Sv Sv2 L2 h q _
    simp only [RewindParticles, Option.some.injEq, Prod.mk.injEq] at h
    rw [← h.1]
  | cons Info Rest ih =>
    intro Sv Sv2 L2 h q hq
    obtain ⟨Sv1, Info1, Rest1, h1, h2, _⟩ := RewindParticles_cons_inv _ _ _ _ _ _ _ h
    simp only [List.map_cons, List.mem_cons, not_or] at hq
    rw [ih Sv1 Sv2 Rest1 h2 q hq.2]
    exact (RewindParticle_Object _ _ _ _ _ _ h1).2 q hq.1

/-- A relation established by every iteration of the particle loop, between the entry and
live particle before the iteration and after it, holds between the registry and live
particles before and after the whole loop when the registry points to distinct particles. -/
theorem RewindParticles_forall₂ (Frame CurFrame : Int)
    (R : FDirtyParticleInfo → FGeometryParticleHandle → FDirtyParticleInfo →
      FGeometryParticleHandle → Prop)
    (hR : ∀ Sv Info Sv1 Info1, RewindParticle Frame CurFrame Sv Info = some (Sv1, Info1) →
      R Info (Sv.Particles Info.Object) Info1 (Sv1.Particles Info.Object))
    (Start : Nat → FGeometryParticleHandle) (L : List FDirtyParticleInfo) :
    ∀ (Sv Sv2 : FPBDRigidsSolver) (L2 : List FDirtyParticleInfo),
      (∀ Info ∈ L, Sv.Particles Info.Object = Start Info.Object) →
      (L.map (fun Info => Info.Object)).Nodup →
      RewindParticles Frame CurFrame Sv L = some (Sv2, L2) →
      List.Forall₂ (fun Info Info1 => R Info (Start Info.Object) Info1 (Sv2.Particles Info.Object))
        L L2 := by
  induction L with
  | nil =>
    intro Sv Sv2 L2 _ _ h
    simp only [RewindParticles, Option.some.injEq, Prod.mk.injEq] at h
    rw [← h.2]
    exact List.Forall₂.nil
  | cons Info Rest ih =>
    intro Sv Sv2 L2 hs hnd h
    obtain ⟨Sv1, Info1, Rest1, h1, h2, rfl⟩ := RewindParticles_cons_inv _ _ _ _ _ _ _ h
    simp only [List.map_cons, List.nodup_cons] at hnd
    have hhead := hR Sv Info Sv1 Info1 h1
    rw [hs Info (List.mem_cons_self _ _)] at hhead
    rw [← RewindParticles_frame Frame CurFrame Rest Sv1 Sv2 Rest1 h2 Info.Object hnd.1] at hhead
    refine List.Forall₂.cons hhead (ih Sv1 Sv2 Rest1 ?_ hnd.2 h2)
    intro I hI
    have hne : I.Object ≠ Info.Object := by
      intro heq
      exact hnd.1 (by rw [← heq]; exact List.mem_map_of_mem _ hI)
    rw [(RewindParticle_Object _ _ _ _ _ _ h1).2 I.Object hne]
    exact hs I (List.mem_cons_of_mem _ hI)

end FRewindData

/-! ## The island manager during the particle loop of RewindToFrame -/

namespace FRewindData

theorem Forall₂_and_mem {A B : Type} (R : A → B → Prop) (Q : A → Prop) (L : List A) (L1 : List B)
    (h : List.Forall₂ R L L1) (hQ : ∀ a ∈ L, Q a) : List.Forall₂ (fun a b => R a b ∧ Q a) L L1 := by
  induction h with
  | nil => exact List.Forall₂.nil
  | cons hab _ ih =>
    exact List.Forall₂.cons ⟨hab, hQ _ (List.mem_cons_self _ _)⟩
      (ih (fun a ha => hQ a (List.mem_cons_of_mem _ ha)))

theorem RewindEvolutionResult_island (Frame : Int) (Info : FDirtyParticleInfo) (c : Bool)
    (E : FPBDRigidsEvolution) (q : Nat) :
    q ∈ (RewindEvolutionResult Frame Info c E).IslandParticles ↔
      (q ∈ E.IslandParticles ∧
        (Info.Object = q → ¬ (Info.bResimAsFollower = false ∧ Info.InitializedOnStep > Frame))) := by
  unfold RewindEvolutionResult
  cases hf : Info.bResimAsFollower <;> cases c <;> by_cases hi : Info.InitializedOnStep > Frame <;>
    simp [hi, FPBDRigidsEvolution.RemoveParticle, FPBDRigidsEvolution.MarkTransientDirtyParticle]
  all_goals
    intro _
    constructor
    · intro hne heq
      exact hne heq.symm
    · intro hne heq
      exact hne heq.symm

/-- The island manager after the particle loop holds the particles it held before, less the
tracked non-follower particles not yet spawned on the rewind frame. -/
theorem RewindParticles_island (Frame CurFrame : Int) (L : List FDirtyParticleInfo) :
    ∀ (Sv Sv2 : FPBDRigidsSolver) (L2 : List FDirtyParticleInfo),
      RewindParticles Frame CurFrame Sv L = some (Sv2, L2) →
      (∀ E, Sv.Evolution = some E → ∃ E2, Sv2.Evolution = some E2 ∧
        ∀ q, q ∈ E2.IslandParticles ↔ (q ∈ E.IslandParticles ∧ ∀ I ∈ L, I.Object = q →
          ¬ (I.bResimAsFollower = false ∧ I.InitializedOnStep > Frame))) ∧
      (Sv.Evolution = none →
        ∀ I ∈ L, ¬ (I.bResimAsFollower = false ∧ I.InitializedOnStep > Frame)) := by
  induction L with
  | nil =>
    intro Sv Sv2 L2 h
    simp only [RewindParticles, Option.some.injEq, Prod.mk.injEq] at h
    rw [← h.1]
    exact ⟨fun E hE => ⟨E, hE, fun q => by simp⟩, fun _ I hI => by cases hI⟩
  | cons Info Rest ih =>
    intro Sv Sv2 L2 h
    obtain ⟨Sv1, Info1, Rest1, h1, h2, _⟩ := RewindParticles_cons_inv _ _ _ _ _ _ _ h
    obtain ⟨c, H1, P1, _, _, _, _, _, hev, hsome⟩ := RewindParticle_inv _ _ _ _ _ _ h1
    obtain ⟨ihS, ihN⟩ := ih Sv1 Sv2 Rest1 h2
    constructor
    · intro E hE
      rw [hE] at hev
      obtain ⟨E2, hE2, hq⟩ := ihS _ hev
      refine ⟨E2, hE2, fun q => ?_⟩
      rw [hq q, RewindEvolutionResult_island]
      simp only [List.mem_cons, forall_eq_or_imp]
      tauto
    · intro hE I hI
      rw [hE] at hev
      rcases List.mem_cons.mp hI with rfl | hI
      · intro hrem
        have := hsome hrem.1 (Or.inr hrem.2)
        rw [hE] at this
        cases this
      · exact ihN hev I hI

end FRewindData

/-! ## RewindToFrame: acceptance and rejection -/

namespace FRewindData

theorem RewindToFrame_true_inv (S : FRewindData) (Frame : Int) (S1 : FRewindData)
    (h : S.RewindToFrame Frame = some (true, S1)) :
    S.GetEarliestFrame_Internal ≤ Frame ∧
    ¬ (Frame = S.GetEarliestFrame_Internal ∧ S.bNeedsSave = true ∧ S.FramesSaved = S.ManagersCapacity) ∧
    ∃ Sv Dirty, RewindParticles Frame S.CurFrame S.Solver S.DirtyParticles = some (Sv, Dirty) ∧
      S1 = { S with Solver := Sv, DirtyParticles := Dirty, CurFrame := Frame, bNeedsSave := false } := by
  unfold RewindToFrame at h
  simp only at h
  split at h
  · simp at h
  · rename_i h1
    split at h
    · simp at h
    · rename_i h2
      refine ⟨by omega, h2, ?_⟩
      cases hr : RewindParticles Frame S.CurFrame S.Solver S.DirtyParticles with
      | none => rw [hr] at h; simp at h
      | some r =>
        obtain ⟨Sv, Dirty⟩ := r
        rw [hr] at h
        simp only [Option.some.injEq, Prod.mk.injEq, true_and] at h
        exact ⟨Sv, Dirty, rfl, h.symm⟩

theorem RewindToFrame_false_inv (S : FRewindData) (Frame : Int) (S1 : FRewindData)
    (h : S.RewindToFrame Frame = some (false, S1)) : S1 = S := by
  unfold RewindToFrame at h
  simp only at h
  split at h
  · simp only [Option.some.injEq, Prod.mk.injEq, true_and] at h
    exact h.symm
  · split at h
    · simp only [Option.some.injEq, Prod.mk.injEq, true_and] at h
      exact h.symm
    · cases hr : RewindParticles Frame S.CurFrame S.Solver S.DirtyParticles with
      | none => rw [hr] at h; simp at h
      | some r => rw [hr] at h; simp at h

/-- C1: a rewind to a frame before the earliest retained frame returns false; and whenever
`RewindToFrame` returns false the coordinator afterwards is the coordinator before the call:
`CurFrame`, `LatestFrame`, `FramesSaved`, `bNeedsSave`, every tracked object's history and
flags and every live particle are unchanged. -/
theorem RewindToFrame_rejected_unchanged (S : FRewindData) (Frame : Int) :
    (Frame < S.GetEarliestFrame_Internal → S.RewindToFrame Frame = some (false, S)) ∧
    (∀ S1, S.RewindToFrame Frame = some (false, S1) → S1 = S) := by
  constructor
  · intro h
    simp [RewindToFrame, h]
  · intro S1 h
    exact RewindToFrame_false_inv S Frame S1 h

/-- Witness of C1 on the example coordinator: frame 5 lies before the earliest retained
frame 10. -/
theorem RewindToFrame_rejected_unchanged_witness :
    (5 : Int) < ExampleState.GetEarliestFrame_Internal ∧
    ExampleState.RewindToFrame 5 = some (false, ExampleState) ∧
    (∀ S1, ExampleState.RewindToFrame 5 = some (false, S1) → S1 = ExampleState) :=
  ⟨by decide, (RewindToFrame_rejected_unchanged ExampleState 5).1 (by decide),
    (RewindToFrame_rejected_unchanged ExampleState 5).2⟩

/-- Counterexample to C2 as stated: with a saturated window (`FramesSaved` equal to the
capacity) but nothing pending to save, a rewind to the earliest retained frame, frame 10,
returns true. -/
theorem RewindToFrame_saturated_edge_accepts :
    ExampleSaturated.FramesSaved = ExampleSaturated.ManagersCapacity ∧
    ExampleSaturated.GetEarliestFrame_Internal = 10 ∧
    (ExampleSaturated.RewindToFrame 10).map Prod.fst = some true := by
  decide

/-- C2 (amended): a rewind to the earliest retained frame returns false when the window is
saturated (`FramesSaved` equals the capacity of the `Managers` buffer) and data is pending to
save (`bNeedsSave`); every other rewind to a frame at or after the earliest retained frame
returns true, on a coordinator whose particle loop dereferences no null pointer. -/
theorem RewindToFrame_edge (S : FRewindData) (Frame : Int) :
    (Frame = S.GetEarliestFrame_Internal → S.bNeedsSave = true →
      S.FramesSaved = S.ManagersCapacity → S.RewindToFrame Frame = some (false, S)) ∧
    (S.GetEarliestFrame_Internal ≤ Frame →
      ¬ (Frame = S.GetEarliestFrame_Internal ∧ S.bNeedsSave = true ∧
          S.FramesSaved = S.ManagersCapacity) →
      RewindSafe S → ∃ S1, S.RewindToFrame Frame = some (true, S1)) := by
  constructor
  · intro h1 h2 h3
    unfold RewindToFrame
    simp only [h1, lt_self_iff_false, if_false, h2, h3, and_self, if_true]
  · intro h1 h2 hs
    obtain ⟨Sv, L, hr⟩ := RewindParticles_isSome Frame S.CurFrame S.DirtyParticles S.Solver hs.1 hs.2
    unfold RewindToFrame
    simp only [not_lt.mpr h1, if_false, h2, hr]
    exact ⟨_, rfl⟩

/-- Witness of C2 (amended): the saturated example coordinator with data pending rejects its
earliest frame, and the example coordinator accepts frame 12. -/
theorem RewindToFrame_edge_witness :
    ExampleSaturatedPending.RewindToFrame 10 = some (false, ExampleSaturatedPending) ∧
    ∃ S1, ExampleState.RewindToFrame 12 = some (true, S1) :=
  ⟨(RewindToFrame_edge ExampleSaturatedPending 10).1 (by decide) (by decide) (by decide),
    (RewindToFrame_edge ExampleState 12).2 (by decide) (by decide)
      ⟨by decide, by
        intro Info hInfo
        have hI : Info = ExampleInfo := by simpa [ExampleState] using hInfo
        subst hI
        exact ⟨by decide, by decide⟩⟩⟩

/-- C3: when `RewindToFrame(Frame)` returns true, afterwards `CurFrame == Frame` and
`bNeedsSave == false`, and `LatestFrame` and `FramesSaved` are unchanged. -/
theorem RewindToFrame_true_frames (S : FRewindData) (Frame : Int) (S1 : FRewindData)
    (h : S.RewindToFrame Frame = some (true, S1)) :
    S1.CurFrame = Frame ∧ S1.bNeedsSave = false ∧ S1.LatestFrame = S.LatestFrame ∧
    S1.FramesSaved = S.FramesSaved := by
  obtain ⟨_, _, Sv, Dirty, _, rfl⟩ := RewindToFrame_true_inv S Frame S1 h
  exact ⟨rfl, rfl, rfl, rfl⟩

/-- Witness of C3: the example coordinator rewound from frame 20 to frame 12. -/
theorem RewindToFrame_true_frames_witness :
    ExampleRewound.CurFrame = 12 ∧ ExampleRewound.bNeedsSave = false ∧
    ExampleRewound.LatestFrame = ExampleState.LatestFrame ∧
    ExampleRewound.FramesSaved = ExampleState.FramesSaved :=
  RewindToFrame_true_frames ExampleState 12 ExampleRewound (by rfl)

/-- Counterexample to C4 as stated: the example coordinator is at head (`CurFrame` and
`LatestFrame` both 20); `RewindToFrame(25)` returns true and leaves `CurFrame` at 25, beyond
`LatestFrame` and ahead of the previous `CurFrame`. -/
theorem RewindToFrame_forward_accepts :
    ∃ S1, ExampleState.RewindToFrame 25 = some (true, S1) ∧
      ¬ (S1.CurFrame < S1.LatestFrame) ∧ ExampleState.CurFrame < S1.CurFrame := by
  refine ⟨((ExampleState.RewindToFrame 25).getD (false, ExampleState)).2, by rfl, by decide, by decide⟩

/-- C4 (amended): after a successful `RewindToFrame(Frame)` with `Frame < LatestFrame` the
coordinator is Resimulating, `CurFrame < LatestFrame`; and when `Frame` does not exceed the
previous `CurFrame`, `CurFrame` has not moved forward. -/
theorem RewindToFrame_true_resim (S : FRewindData) (Frame : Int) (S1 : FRewindData)
    (h : S.RewindToFrame Frame = some (true, S1)) :
    (Frame < S.LatestFrame → S1.IsResim = true ∧ S1.CurFrame < S1.LatestFrame) ∧
    (Frame ≤ S.CurFrame → S1.CurFrame ≤ S.CurFrame) := by
  obtain ⟨_, _, Sv, Dirty, _, rfl⟩ := RewindToFrame_true_inv S Frame S1 h
  refine ⟨fun hlt => ⟨?_, hlt⟩, fun hle => hle⟩
  simp [IsResim, hlt]

/-- Witness of C4 (amended): the example coordinator rewound to frame 12 is Resimulating and
did not move forward. -/
theorem RewindToFrame_true_resim_witness :
    (ExampleRewound.IsResim = true ∧ ExampleRewound.CurFrame < ExampleRewound.LatestFrame) ∧
    ExampleRewound.CurFrame ≤ ExampleState.CurFrame :=
  ⟨(RewindToFrame_true_resim ExampleState 12 ExampleRewound (by rfl)).1 (by decide),
    (RewindToFrame_true_resim ExampleState 12 ExampleRewound (by rfl)).2 (by decide)⟩

/-- Counterexample to C5 as stated: the tracked particle is not resim-as-follower, spawns on
frame 15 and has misc dynamic flags recorded (enabled) before frame 12.  After the successful
`RewindToFrame(12)` its live misc dynamic flags are disabled, not the value the channel reads
at `(12, PostPushData)`. -/
theorem RewindToFrame_unspawned_disabled :
    ExampleUnspawned.RewindToFrame 12 = some (true, ExampleUnspawnedRewound) ∧
    ExampleInfoUnspawned.bResimAsFollower = false ∧
    ExampleInfoUnspawned.History.DynamicsMisc.IsClean ⟨12, .PostPushData⟩ = false ∧
    ExampleInfoUnspawned.History.DynamicsMisc.Read ⟨12, .PostPushData⟩ = some ⟨.Dynamic, false⟩ ∧
    (ExampleUnspawnedRewound.Solver.Particles 0).DynamicsMisc = ⟨.Dynamic, true⟩ :=
  ⟨by rfl, by decide, by decide, by decide, by decide⟩

/-- C5 (amended): on a successful `RewindToFrame(Frame)` from current frame `C`, for every
tracked particle with `bResimAsFollower == false` and every organic channel that is not clean
at `(Frame, PostPushData)`, the channel afterwards holds at `(C, PrePushData)` the live value
the particle had before the call and the live value afterwards is the value the channel reads
at `(Frame, PostPushData)`; except that the live misc dynamic flags of a particle with
`InitializedOnStep > Frame` are that value with the disabled flag set.  The registry is a map
keyed by object identity: its entries point to distinct particles. -/
theorem RewindToFrame_rewound (S : FRewindData) (Frame : Int) (S1 : FRewindData)
    (h : S.RewindToFrame Frame = some (true, S1))
    (hnd : (S.DirtyParticles.map (fun Info => Info.Object)).Nodup) :
    List.Forall₂ (fun Info Info1 => Info.bResimAsFollower = false →
        RewoundParticle Frame S.CurFrame Info (S.Solver.Particles Info.Object)
          Info1 (S1.Solver.Particles Info.Object))
      S.DirtyParticles S1.DirtyParticles := by
  obtain ⟨_, _, Sv, Dirty, hr, rfl⟩ := RewindToFrame_true_inv S Frame S1 h
  exact RewindParticles_forall₂ Frame S.CurFrame
    (fun Info P Info1 P1 => Info.bResimAsFollower = false →
      RewoundParticle Frame S.CurFrame Info P Info1 P1)
    (fun Sv0 Info Sv1 Info1 h1 hf => RewindParticle_rewound Frame S.CurFrame Sv0 Info Sv1 Info1 h1 hf)
    S.Solver.Particles S.DirtyParticles S.Solver Sv Dirty (fun _ _ => rfl) hnd hr

/-- Witness of C5 (amended): the example coordinator rewound from frame 20 to frame 12.  The
position channel, written on frames 11 and 15, is not clean at `(12, PostPushData)`; after the
rewind it holds the head position `(7, 0, 0)` at `(20, PrePushData)` and the live position is
the one recorded on frame 11. -/
theorem RewindToFrame_rewound_witness :
    List.Forall₂ (fun Info Info1 => Info.bResimAsFollower = false →
        RewoundParticle 12 ExampleState.CurFrame Info (ExampleState.Solver.Particles Info.Object)
          Info1 (ExampleRewound.Solver.Particles Info.Object))
      ExampleState.DirtyParticles ExampleRewound.DirtyParticles ∧
    ExampleInfo.History.ParticlePositionRotation.IsClean ⟨12, .PostPushData⟩ = false ∧
    ExampleRewound.DirtyParticles.map
        (fun Info => Info.History.ParticlePositionRotation.Read ⟨20, .PrePushData⟩)
      = [some (ExampleXR 7)] ∧
    (ExampleRewound.Solver.Particles 0).XR = ExampleXR 3 :=
  ⟨RewindToFrame_rewound ExampleState 12 ExampleRewound (by rfl) (by decide),
    by decide, by decide, by decide⟩

/-- One iteration of the particle loop: a not yet spawned non-follower particle ends disabled,
any other particle has its misc dynamic flags untouched or restored. -/
theorem RewindParticle_spawn (Frame CurFrame : Int) (Sv : FPBDRigidsSolver) (Info : FDirtyParticleInfo)
    (Sv1 : FPBDRigidsSolver) (Info1 : FDirtyParticleInfo)
    (h : RewindParticle Frame CurFrame Sv Info = some (Sv1, Info1)) :
    (Info.bResimAsFollower = false → Info.InitializedOnStep > Frame →
      (Sv1.Particles Info.Object).Disabled = true) ∧
    (Info.InitializedOnStep ≤ Frame →
      ((Sv1.Particles Info.Object).DynamicsMisc = (Sv.Particles Info.Object).DynamicsMisc ∨
        Info1.History.DynamicsMisc.Read ⟨Frame, .PostPushData⟩
          = some (Sv1.Particles Info.Object).DynamicsMisc)) := by
  obtain ⟨c, H1, P1, hr, hI, hp, _, _, _, _⟩ := RewindParticle_inv Frame CurFrame Sv Info Sv1 Info1 h
  obtain ⟨_, _, _, _, _, _, l6a, l6b⟩ := RewindLiveResult_props Frame Info c P1
  have hlive : Sv1.Particles Info.Object = RewindLiveResult Frame Info c P1 := by
    rw [hp]
    simp
  rw [hlive]
  constructor
  · intro hf hgt
    simp only [FGeometryParticleHandle.Disabled, l6b hf hgt]
  · intro hle
    obtain ⟨_, _, _, _, _, ⟨c6, A6, B6, s6, a6, b6⟩, _⟩ := RewindChannels_steps _ _ _ _ _ _ _ _ hr
    have r6 := RewindHelper_restored _ _ _ _ _ _ _ _ _ _ _ s6 (Cast_Rigid A6) (fun _ _ => rfl)
    simp only [a6, b6] at r6
    rw [l6a (Or.inr hle), hI, (RewindInfoResult_props Info c H1).1]
    exact r6

/-- C6: on a successful `RewindToFrame(Frame)`, every tracked particle that is not
resim-as-follower and whose `InitializedOnStep > Frame` ends removed from the island manager
and disabled, whatever its restored properties say; and no tracked particle with
`InitializedOnStep <= Frame` is disabled or removed by this rule: it keeps its place in the
island manager and its misc dynamic flags are untouched or the restored ones.  The registry
is a map keyed by object identity: its entries point to distinct particles. -/
theorem RewindToFrame_spawn_rule (S : FRewindData) (Frame : Int) (S1 : FRewindData)
    (h : S.RewindToFrame Frame = some (true, S1))
    (hnd : (S.DirtyParticles.map (fun Info => Info.Object)).Nodup) :
    List.Forall₂ (fun Info Info1 =>
        SpawnRule Frame Info (S.Solver.Particles Info.Object) S.Solver.Island
          Info1 (S1.Solver.Particles Info.Object) S1.Solver.Island)
      S.DirtyParticles S1.DirtyParticles := by
  obtain ⟨_, _, Sv, Dirty, hr, rfl⟩ := RewindToFrame_true_inv S Frame S1 h
  have hlive := RewindParticles_forall₂ Frame S.CurFrame
    (fun Info P _Info1 P1 =>
      (Info.bResimAsFollower = false → Info.InitializedOnStep > Frame → P1.Disabled = true) ∧
      (Info.InitializedOnStep ≤ Frame →
        (P1.DynamicsMisc = P.DynamicsMisc ∨
          _Info1.History.DynamicsMisc.Read ⟨Frame, .PostPushData⟩ = some P1.DynamicsMisc)))
    (fun Sv0 Info Sv1 Info1 h1 => RewindParticle_spawn Frame S.CurFrame Sv0 Info Sv1 Info1 h1)
    S.Solver.Particles S.DirtyParticles S.Solver Sv Dirty (fun _ _ => rfl) hnd hr
  obtain ⟨hS, hN⟩ := RewindParticles_island Frame S.CurFrame S.DirtyParticles S.Solver Sv Dirty hr
  have hisl : ∀ Info ∈ S.DirtyParticles,
      (Info.bResimAsFollower = false → Info.InitializedOnStep > Frame →
        ∃ Members, Sv.Island = some Members ∧ Info.Object ∉ Members) ∧
      (Info.InitializedOnStep ≤ Frame →
        ∀ Members Members1, S.Solver.Island = some Members → Sv.Island = some Members1 →
          (Info.Object ∈ Members1 ↔ Info.Object ∈ Members)) := by
    intro Info hInfo
    constructor
    · intro hf hgt
      cases hE : S.Solver.Evolution with
      | none => exact absurd ⟨hf, hgt⟩ (hN hE Info hInfo)
      | some E =>
        obtain ⟨E2, hE2, hq⟩ := hS E hE
        refine ⟨E2.IslandParticles, by simp [FPBDRigidsSolver.Island, hE2], ?_⟩
        intro hmem
        exact ((hq Info.Object).mp hmem).2 Info hInfo rfl ⟨hf, hgt⟩
    · intro hle Members Members1 hM hM1
      cases hE : S.Solver.Evolution with
      | none => simp [FPBDRigidsSolver.Island, hE] at hM
      | some E =>
        obtain ⟨E2, hE2, hq⟩ := hS E hE
        simp only [FPBDRigidsSolver.Island, hE, Option.map_some', Option.some.injEq] at hM
        simp only [FPBDRigidsSolver.Island, hE2, Option.map_some', Option.some.injEq] at hM1
        subst hM hM1
        rw [hq Info.Object]
        constructor
        · exact fun hx => hx.1
        · intro hx
          refine ⟨hx, fun I hI hobj hrem => ?_⟩
          have hI' : I = Info := List.inj_on_of_nodup_map hnd hI hInfo hobj
          subst hI'
          omega
  refine List.Forall₂.imp ?_ (Forall₂_and_mem _ _ _ _ hlive hisl)
  intro Info Info1 hh
  obtain ⟨⟨hd, hm⟩, hi1, hi2⟩ := hh
  exact ⟨fun hf hgt => ⟨hd hf hgt, hi1 hf hgt⟩, fun hle => ⟨hm hle, hi2 hle⟩⟩

/-- Witness of C6: the particle that only spawns on frame 15 is disabled and out of the island
manager after the rewind to frame 12. -/
theorem RewindToFrame_spawn_rule_witness :
    List.Forall₂ (fun Info Info1 =>
        SpawnRule 12 Info (ExampleUnspawned.Solver.Particles Info.Object) ExampleUnspawned.Solver.Island
          Info1 (ExampleUnspawnedRewound.Solver.Particles Info.Object)
          ExampleUnspawnedRewound.Solver.Island)
      ExampleUnspawned.DirtyParticles ExampleUnspawnedRewound.DirtyParticles ∧
    (ExampleUnspawnedRewound.Solver.Particles 0).Disabled = true ∧
    ExampleUnspawnedRewound.Solver.Island = some [] ∧
    (ExampleRewound.Solver.Particles 0).Disabled = false ∧
    ExampleRewound.Solver.Island = some [0] :=
  ⟨RewindToFrame_spawn_rule ExampleUnspawned 12 ExampleUnspawnedRewound (by rfl) (by decide),
    by decide, by decide, by decide, by decide⟩

/-! ## RewindToFrame and ApplyTargets use disjoint channel families -/

/-- The channel restores of `RewindToFrame` neither read nor write the target channels. -/
theorem RewindChannels_EraseTargets (K C : FFrameAndPhase) (bFollower : Bool)
    (H : FGeometryParticleStateBase) (P : FGeometryParticleHandle) :
    RewindChannels K C bFollower H.EraseTargets P =
      (RewindChannels K C bFollower H P).map (fun r => (r.1, r.2.1.EraseTargets, r.2.2)) := by
  unfold RewindChannels
  simp only [Option.bind_eq_bind, FGeometryParticleStateBase.EraseTargets]
  cases RewindHelper K C P FGeometryParticleHandle.AsGeometryParticle bFollower H.ParticlePositionRotation
      (fun O => O.XR) FGeometryParticleHandle.SetXR with
  | none => rfl
  | some r1 =>
    obtain ⟨c1, b1, P1⟩ := r1
    simp only [Option.some_bind]
    cases RewindHelper K C P1 FGeometryParticleHandle.CastToKinematicParticle bFollower H.Velocities
        (fun O => O.Velocities) FGeometryParticleHandle.SetVelocities with
    | none => rfl
    | some r2 =>
      obtain ⟨c2, b2, P2⟩ := r2
      simp only [Option.some_bind]
      cases RewindHelper K C P2 FGeometryParticleHandle.AsGeometryParticle bFollower H.NonFrequentData
          (fun O => O.NonFrequentData) FGeometryParticleHandle.SetNonFrequentData with
      | none => rfl
      | some r3 =>
        obtain ⟨c3, b3, P3⟩ := r3
        simp only [Option.some_bind]
        cases RewindHelper K C P3 FGeometryParticleHandle.CastToKinematicParticle bFollower H.KinematicTarget
            (fun O => O.KinematicTarget) FGeometryParticleHandle.SetKinematicTarget with
        | none => rfl
        | some r4 =>
          obtain ⟨c4, b4, P4⟩ := r4
          simp only [Option.some_bind]
          cases RewindHelper K C P4 FGeometryParticleHandle.CastToRigidParticle bFollower H.Dynamics
              (fun O => O.Dynamics) FGeometryParticleHandle.SetDynamics with
          | none => rfl
          | some r5 =>
            obtain ⟨c5, b5, P5⟩ := r5
            simp only [Option.some_bind]
            cases RewindHelper K C P5 FGeometryParticleHandle.CastToRigidParticle bFollower H.DynamicsMisc
                (fun O => O.DynamicsMisc) FPBDRigidsSolver.SetParticleDynamicMisc with
            | none => rfl
            | some r6 =>
              obtain ⟨c6, b6, P6⟩ := r6
              simp only [Option.some_bind]
              cases RewindHelper K C P6 FGeometryParticleHandle.CastToRigidParticle bFollower H.MassProps
                  (fun O => O.MassProps) FGeometryParticleHandle.SetMassProps with
              | none => rfl
              | some r7 =>
                obtain ⟨c7, b7, P7⟩ := r7
                simp only [Option.some_bind]
                rfl

theorem RewindParticle_EraseTargets (Frame CurFrame : Int) (Sv : FPBDRigidsSolver)
    (Info : FDirtyParticleInfo) :
    RewindParticle Frame CurFrame Sv Info.EraseTargets =
      (RewindParticle Frame CurFrame Sv Info).map (fun r => (r.1, r.2.EraseTargets)) := by
  unfold RewindParticle
  have hc := RewindChannels_EraseTargets ⟨Frame, .PostPushData⟩ ⟨CurFrame, .PrePushData⟩
    Info.bResimAsFollower (Info.History.CachePreCorrectionState (Sv.Particles Info.Object))
    (Sv.Particles Info.Object)
  have hobj : Info.EraseTargets.Object = Info.Object := rfl
  have hfol : Info.EraseTargets.bResimAsFollower = Info.bResimAsFollower := rfl
  have hini : Info.EraseTargets.InitializedOnStep = Info.InitializedOnStep := rfl
  have hhis : Info.EraseTargets.History.CachePreCorrectionState (Sv.Particles Info.Object) =
      (Info.History.CachePreCorrectionState (Sv.Particles Info.Object)).EraseTargets := rfl
  simp only [hobj, hfol, hini, hhis, hc]
  cases RewindChannels ⟨Frame, .PostPushData⟩ ⟨CurFrame, .PrePushData⟩ Info.bResimAsFollower
      (Info.History.CachePreCorrectionState (Sv.Particles Info.Object)) (Sv.Particles Info.Object) with
  | none => rfl
  | some r =>
    obtain ⟨c, H1, P1⟩ := r
    simp only [Option.map_some']
    cases Info.bResimAsFollower <;> cases c <;> cases Sv.Evolution <;>
      by_cases hi : Info.InitializedOnStep > Frame <;> simp [hi] <;> rfl

theorem RewindParticles_EraseTargets (Frame CurFrame : Int) (L : List FDirtyParticleInfo) :
    ∀ Sv : FPBDRigidsSolver,
      RewindParticles Frame CurFrame Sv (L.map FDirtyParticleInfo.EraseTargets) =
        (RewindParticles Frame CurFrame Sv L).map
          (fun r => (r.1, r.2.map FDirtyParticleInfo.EraseTargets)) := by
  induction L with
  | nil => intro Sv; rfl
  | cons Info Rest ih =>
    intro Sv
    simp only [List.map_cons, RewindParticles, RewindParticle_EraseTargets]
    cases RewindParticle Frame CurFrame Sv Info with
    | none => rfl
    | some r1 =>
      obtain ⟨Sv1, Info1⟩ := r1
      simp only [Option.map_some', ih Sv1]
      cases RewindParticles Frame CurFrame Sv1 Rest with
      | none => rfl
      | some r2 => rfl

/-- The operation `RewindToFrame` commutes with forgetting the target channels. -/
theorem RewindToFrame_EraseTargets (S : FRewindData) (Frame : Int) :
    S.EraseTargets.RewindToFrame Frame =
      (S.RewindToFrame Frame).map (fun r => (r.1, r.2.EraseTargets)) := by
  unfold RewindToFrame
  have h1 : S.EraseTargets.GetEarliestFrame_Internal = S.GetEarliestFrame_Internal := rfl
  have h2 : S.EraseTargets.bNeedsSave = S.bNeedsSave := rfl
  have h3 : S.EraseTargets.FramesSaved = S.FramesSaved := rfl
  have h4 : S.EraseTargets.ManagersCapacity = S.ManagersCapacity := rfl
  have h5 : S.EraseTargets.CurFrame = S.CurFrame := rfl
  have h6 : S.EraseTargets.Solver = S.Solver := rfl
  have h7 : S.EraseTargets.DirtyParticles = S.DirtyParticles.map FDirtyParticleInfo.EraseTargets := rfl
  simp only [h1, h2, h3, h4, h5, h6, h7, RewindParticles_EraseTargets]
  split
  · rfl
  · split
    · rfl
    · cases RewindParticles Frame S.CurFrame S.Solver S.DirtyParticles with
      | none => rfl
      | some r => rfl

theorem RewindParticles_Targets (Frame CurFrame : Int) (L : List FDirtyParticleInfo) :
    ∀ (Sv Sv2 : FPBDRigidsSolver) (L2 : List FDirtyParticleInfo),
      RewindParticles Frame CurFrame Sv L = some (Sv2, L2) →
      L2.map (fun Info => Info.History.Targets) = L.map (fun Info => Info.History.Targets) := by
  induction L with
  | nil =>
    intro Sv Sv2 L2 h
    simp only [RewindParticles, Option.some.injEq, Prod.mk.injEq] at h
    rw [← h.2]
  | cons Info Rest ih =>
    intro Sv Sv2 L2 h
    obtain ⟨Sv1, Info1, Rest1, h1, h2, rfl⟩ := RewindParticles_cons_inv _ _ _ _ _ _ _ h
    obtain ⟨c, H1, P1, hr, hI, _⟩ := RewindParticle_inv _ _ _ _ _ _ h1
    obtain ⟨t1, t2, t3, _⟩ := RewindChannels_targets _ _ _ _ _ _ _ _ hr
    simp only [List.map_cons, ih Sv1 Sv2 Rest1 h2, List.cons.injEq, and_true]
    rw [hI, FGeometryParticleStateBase.Targets, (RewindInfoResult_props Info c H1).1, t1, t2, t3]
    rfl

theorem ApplyTargetsParticles_EraseOrganic (Frame : Int) (L : List FDirtyParticleInfo) :
    ∀ Sv : FPBDRigidsSolver,
      ApplyTargetsParticles Frame Sv (L.map FDirtyParticleInfo.EraseOrganic) =
        ApplyTargetsParticles Frame Sv L := by
  induction L with
  | nil => intro Sv; rfl
  | cons Info Rest ih =>
    intro Sv
    have h1 : ApplyTargetsParticle Frame Sv Info.EraseOrganic = ApplyTargetsParticle Frame Sv Info := rfl
    simp only [List.map_cons, ApplyTargetsParticles, h1]
    cases ApplyTargetsParticle Frame Sv Info with
    | none => rfl
    | some Sv1 => exact ih Sv1

/-- The operation `ApplyTargets` commutes with forgetting the organic channels. -/
theorem ApplyTargets_EraseOrganic (S : FRewindData) (Frame : Int) (bResetSimulation : Bool) :
    S.EraseOrganic.ApplyTargets Frame bResetSimulation =
      (S.ApplyTargets Frame bResetSimulation).map FRewindData.EraseOrganic := by
  unfold ApplyTargets
  have h1 : (S.EraseOrganic.RewindStates Frame bResetSimulation).Solver
      = (S.RewindStates Frame bResetSimulation).Solver := rfl
  have h2 : (S.EraseOrganic.RewindStates Frame bResetSimulation).DirtyParticles
      = (S.RewindStates Frame bResetSimulation).DirtyParticles.map FDirtyParticleInfo.EraseOrganic := rfl
  simp only [h1, h2, ApplyTargetsParticles_EraseOrganic]
  cases ApplyTargetsParticles Frame (S.RewindStates Frame bResetSimulation).Solver
      (S.RewindStates Frame bResetSimulation).DirtyParticles with
  | none => rfl
  | some Sv => rfl

/-- C7: the organic and target channel families are separated between the two restore
operations.  Two coordinators that differ only in target channels give `RewindToFrame` the
same return value, live particle state and organic channels, and `RewindToFrame` leaves the
target channels unchanged.  Two coordinators that differ only in organic channels give
`ApplyTargets` the same live particle state, and `ApplyTargets` leaves the registry (hence
every organic channel), `CurFrame`, `LatestFrame` and `FramesSaved` unchanged. -/
theorem RewindToFrame_ApplyTargets_separated (S T : FRewindData) (Frame : Int)
    (bResetSimulation : Bool) :
    (S.EraseTargets = T.EraseTargets →
      (S.RewindToFrame Frame).map (fun r => (r.1, r.2.EraseTargets)) =
        (T.RewindToFrame Frame).map (fun r => (r.1, r.2.EraseTargets))) ∧
    (∀ b S1, S.RewindToFrame Frame = some (b, S1) →
      S1.DirtyParticles.map (fun Info => Info.History.Targets) =
        S.DirtyParticles.map (fun Info => Info.History.Targets)) ∧
    (S.EraseOrganic = T.EraseOrganic →
      (S.ApplyTargets Frame bResetSimulation).map (fun R => R.Solver) =
        (T.ApplyTargets Frame bResetSimulation).map (fun R => R.Solver)) ∧
    (∀ S1, S.ApplyTargets Frame bResetSimulation = some S1 →
      S1.DirtyParticles = S.DirtyParticles ∧ S1.CurFrame = S.CurFrame ∧
      S1.LatestFrame = S.LatestFrame ∧ S1.FramesSaved = S.FramesSaved) := by
  refine ⟨?_, ?_, ?_, ?_⟩
  · intro h
    rw [← RewindToFrame_EraseTargets, ← RewindToFrame_EraseTargets, h]
  · intro b S1 h
    cases b with
    | false =>
      rw [RewindToFrame_false_inv S Frame S1 h]
    | true =>
      obtain ⟨_, _, Sv, Dirty, hr, rfl⟩ := RewindToFrame_true_inv S Frame S1 h
      exact RewindParticles_Targets Frame S.CurFrame S.DirtyParticles S.Solver Sv Dirty hr
  · intro h
    have hS := congrArg (Option.map (fun R : FRewindData => R.Solver))
      (ApplyTargets_EraseOrganic S Frame bResetSimulation)
    have hT := congrArg (Option.map (fun R : FRewindData => R.Solver))
      (ApplyTargets_EraseOrganic T Frame bResetSimulation)
    simp only [Option.map_map] at hS hT
    have hcomp : ((fun R : FRewindData => R.Solver) ∘ FRewindData.EraseOrganic)
        = (fun R : FRewindData => R.Solver) := rfl
    rw [hcomp] at hS hT
    rw [← hS, ← hT, h]
  · intro S1 h
    unfold ApplyTargets at h
    simp only at h
    cases hp : ApplyTargetsParticles Frame (S.RewindStates Frame bResetSimulation).Solver
        (S.RewindStates Frame bResetSimulation).DirtyParticles with
    | none => rw [hp] at h; simp at h
    | some Sv =>
      rw [hp] at h
      simp only [Option.some.injEq] at h
      rw [← h]
      exact ⟨rfl, rfl, rfl, rfl⟩

/-- Witness of C7: the example coordinator with and without recorded targets rewinds to frame
12 alike, and with and without organic history it applies the targets of frame 12 alike,
moving the particle to the target position. -/
theorem RewindToFrame_ApplyTargets_separated_witness :
    (ExampleState.RewindToFrame 12).map (fun r => (r.1, r.2.EraseTargets)) =
      (ExampleStateTargets.RewindToFrame 12).map (fun r => (r.1, r.2.EraseTargets)) ∧
    (ExampleStateTargets.ApplyTargets 12 false).map (fun R => R.Solver) =
      (ExampleStateTargetsOnly.ApplyTargets 12 false).map (fun R => R.Solver) ∧
    (ExampleStateTargets.ApplyTargets 12 false).map (fun R => (R.Solver.Particles 0).XR)
      = some (ExampleXR 9) :=
  ⟨(RewindToFrame_ApplyTargets_separated ExampleState ExampleStateTargets 12 false).1 (by rfl),
    (RewindToFrame_ApplyTargets_separated ExampleStateTargets ExampleStateTargetsOnly 12 false).2.2.1
      (by rfl),
    by decide⟩

/-! ## FinishFrame and AdvanceFrameImp: the frame counters -/

theorem FinishResim_frames (M : FQuatMath) (S : FRewindData) :
    (FinishResim M S).CurFrame = S.CurFrame ∧ (FinishResim M S).LatestFrame = S.LatestFrame ∧
    (FinishResim M S).FramesSaved = S.FramesSaved := by
  unfold FinishResim
  simp only
  exact ⟨trivial, trivial, trivial⟩

/-- An exact result within the range of `int32` is held as it is. -/
theorem WrapInt32_of_range (x : Int) (hlo : INT32_MIN ≤ x) (hhi : x ≤ INT32_MAX) :
    WrapInt32 x = x := by
  unfold INT32_MIN at hlo
  unfold INT32_MAX at hhi
  unfold WrapInt32
  omega

/-- The two frame counters after `FinishFrame`, in terms of the `int32` increment. -/
theorem FinishFrame_counters (M : FQuatMath) (S : FRewindData) :
    (FinishFrame M S).CurFrame = WrapInt32 (S.CurFrame + 1) ∧
    (FinishFrame M S).LatestFrame = max S.LatestFrame (WrapInt32 (S.CurFrame + 1)) := by
  unfold FinishFrame
  simp only
  split
  · rw [(FinishResim_frames M S).1, (FinishResim_frames M S).2.1]
    exact ⟨rfl, rfl⟩
  · exact ⟨rfl, rfl⟩

/-- Counterexample to C8 as stated: the example coordinator accepts `RewindToFrame(2147483647)`,
which leaves `CurFrame` at the greatest `int32` and `LatestFrame` at 20.  The `++CurFrame` of
the next `FinishFrame` then overflows: `CurFrame` becomes -2147483648, not its previous value
plus one, and `LatestFrame` stays 20, not the maximum of 20 and the previous `CurFrame + 1`. -/
theorem FinishFrame_wraps_example :
    (ExampleState.RewindToFrame 2147483647).map (fun r =>
      (r.1, r.2.CurFrame, r.2.LatestFrame, (FinishFrame ExampleQuatMath r.2).CurFrame,
        (FinishFrame ExampleQuatMath r.2).LatestFrame)) =
      some (true, 2147483647, 20, -2147483648, 20) ∧
    (-2147483648 : Int) ≠ 2147483647 + 1 ∧ (20 : Int) ≠ max 20 (2147483647 + 1) := by
  refine ⟨by decide, by decide, by decide⟩

/-- C8 (amended): in every coordinator state, Recording or Resimulating, whose `CurFrame` is
below the greatest `int32`, `FinishFrame` increases `CurFrame` by exactly 1 and sets
`LatestFrame` to the maximum of the old `LatestFrame` and the old `CurFrame + 1`.  At
`CurFrame == 2147483647` the `int32` increment overflows: `CurFrame` becomes -2147483648 and
`LatestFrame` is the maximum of its old value and that.  In every state `LatestFrame` does not
decrease and `CurFrame <= LatestFrame` holds after `FinishFrame`. -/
theorem FinishFrame_frames (M : FQuatMath) (S : FRewindData) :
    (INT32_MIN ≤ S.CurFrame → S.CurFrame < INT32_MAX →
      (FinishFrame M S).CurFrame = S.CurFrame + 1 ∧
      (FinishFrame M S).LatestFrame = max S.LatestFrame (S.CurFrame + 1)) ∧
    (S.CurFrame = INT32_MAX →
      (FinishFrame M S).CurFrame = INT32_MIN ∧
      (FinishFrame M S).LatestFrame = max S.LatestFrame INT32_MIN) ∧
    S.LatestFrame ≤ (FinishFrame M S).LatestFrame ∧
    (FinishFrame M S).CurFrame ≤ (FinishFrame M S).LatestFrame := by
  obtain ⟨hc, hl⟩ := FinishFrame_counters M S
  refine ⟨?_, ?_, ?_, ?_⟩
  · intro hlo hhi
    have hw : WrapInt32 (S.CurFrame + 1) = S.CurFrame + 1 :=
      WrapInt32_of_range _ (by omega) (by omega)
    rw [hc, hl, hw]
    exact ⟨rfl, rfl⟩
  · intro he
    have hw : WrapInt32 (S.CurFrame + 1) = INT32_MIN := by
      rw [he]
      decide
    rw [hc, hl, hw]
    exact ⟨rfl, rfl⟩
  · rw [hl]
    exact le_max_left _ _
  · rw [hl, hc]
    exact le_max_right _ _

/-- The frame counters of the example coordinator at head on frame 20 after `FinishFrame`:
both are 21. -/
theorem FinishFrame_frames_witness :
    (INT32_MIN ≤ ExampleState.CurFrame ∧ ExampleState.CurFrame < INT32_MAX) ∧
    ((FinishFrame ExampleQuatMath ExampleState).CurFrame = ExampleState.CurFrame + 1 ∧
      (FinishFrame ExampleQuatMath ExampleState).LatestFrame
        = max ExampleState.LatestFrame (ExampleState.CurFrame + 1)) ∧
    ((FinishFrame ExampleQuatMath ExampleState).CurFrame,
      (FinishFrame ExampleQuatMath ExampleState).LatestFrame) = (21, 21) :=
  ⟨⟨by decide, by decide⟩,
    (FinishFrame_frames ExampleQuatMath ExampleState).1 (by decide) (by decide), by decide⟩

theorem AdvanceFrameImp_frames (S : FRewindData) (ResimCache : Option IResimCacheBase) :
    (S.AdvanceFrameImp ResimCache).1.CurFrame = S.CurFrame ∧
    (S.AdvanceFrameImp ResimCache).1.LatestFrame = S.LatestFrame ∧
    (S.AdvanceFrameImp ResimCache).1.FramesSaved = min (S.FramesSaved + 1) (S.ManagersCapacity - 1) := by
  unfold AdvanceFrameImp
  simp only
  exact ⟨trivial, trivial, trivial⟩

/-- Counterexample to C10 as stated: `AdvanceFrameImp` on the example coordinator leaves
`CurFrame` at 20, not at 21. -/
theorem AdvanceFrameImp_keeps_CurFrame_example :
    (ExampleState.AdvanceFrameImp none).1.CurFrame = ExampleState.CurFrame ∧
    (ExampleState.AdvanceFrameImp none).1.CurFrame ≠ ExampleState.CurFrame + 1 := by
  decide

/-- C10 (amended): `AdvanceFrameImp` leaves `CurFrame` (and `LatestFrame`) unchanged in every
coordinator state; the frame counter is incremented by `FinishFrame`, so that after the
advance step followed by `FinishFrame`, `CurFrame` equals its previous value plus one whenever
the previous value is below the greatest `int32`. -/
theorem AdvanceFrameImp_keeps_CurFrame (M : FQuatMath) (S : FRewindData)
    (ResimCache : Option IResimCacheBase) :
    (S.AdvanceFrameImp ResimCache).1.CurFrame = S.CurFrame ∧
    (S.AdvanceFrameImp ResimCache).1.LatestFrame = S.LatestFrame ∧
    (INT32_MIN ≤ S.CurFrame → S.CurFrame < INT32_MAX →
      (FinishFrame M (S.AdvanceFrameImp ResimCache).1).CurFrame = S.CurFrame + 1) := by
  obtain ⟨h1, h2, _⟩ := AdvanceFrameImp_frames S ResimCache
  refine ⟨h1, h2, ?_⟩
  intro hlo hhi
  rw [(FinishFrame_counters M _).1, h1]
  exact WrapInt32_of_range _ (by omega) (by omega)

/-- The advance step and `FinishFrame` on the example coordinator at head on frame 20: the
advance step leaves `CurFrame` at 20 and `FinishFrame` takes it to 21. -/
theorem AdvanceFrameImp_keeps_CurFrame_witness :
    (INT32_MIN ≤ ExampleState.CurFrame ∧ ExampleState.CurFrame < INT32_MAX) ∧
    (ExampleState.AdvanceFrameImp none).1.CurFrame = 20 ∧
    (FinishFrame ExampleQuatMath (ExampleState.AdvanceFrameImp none).1).CurFrame = 20 + 1 :=
  ⟨⟨by decide, by decide⟩,
    (AdvanceFrameImp_keeps_CurFrame ExampleQuatMath ExampleState none).1,
    (AdvanceFrameImp_keeps_CurFrame ExampleQuatMath ExampleState none).2.2 (by decide) (by decide)⟩

/-! ## FinishFrame on the final resim pass -/

theorem FinishParticles_cons (M : FQuatMath) (S : FRewindData) (K : FFrameAndPhase)
    (Done : List FDirtyParticleInfo) (Info : FDirtyParticleInfo) (Rest : List FDirtyParticleInfo)
    (Sv : FPBDRigidsSolver) (Er : List FDirtyParticleErrorInfo) :
    FinishParticles M S K Done (Info :: Rest) Sv Er =
      FinishParticles M S K (Done ++ [(FinishParticle M S K (Done ++ Info :: Rest) Sv Er Info).1]) Rest
        (FinishParticle M S K (Done ++ Info :: Rest) Sv Er Info).2.1
        (FinishParticle M S K (Done ++ Info :: Rest) Sv Er Info).2.2 := rfl

theorem FinishParticle_frame (M : FQuatMath) (S : FRewindData) (K : FFrameAndPhase)
    (Reg : List FDirtyParticleInfo) (Sv : FPBDRigidsSolver) (Er : List FDirtyParticleErrorInfo)
    (Info : FDirtyParticleInfo) :
    (∀ q, q ≠ Info.Object →
      (FinishParticle M S K Reg Sv Er Info).2.1.Particles q = Sv.Particles q) ∧
    (FinishParticle M S K Reg Sv Er Info).2.1.Joints = Sv.Joints := by
  unfold FinishParticle
  split
  · exact ⟨fun _ _ => rfl, rfl⟩
  · simp only
    split
    · split
      · refine ⟨fun q hq => ?_, rfl⟩
        simp [FPBDRigidsSolver.SetParticle, hq]
      · refine ⟨fun q hq => ?_, rfl⟩
        simp [FPBDRigidsSolver.SetParticle, hq]
    · exact ⟨fun _ _ => rfl, rfl⟩

/-- On the final resim pass the body of the finish loop brings a non-follower full-resim
particle back in sync and clears its history from the future frame on; it leaves a follower
alone. -/
theorem FinishParticle_final (M : FQuatMath) (S : FRewindData) (hf : S.IsFinalResim = true)
    (Reg : List FDirtyParticleInfo) (Sv : FPBDRigidsSolver) (Er : List FDirtyParticleErrorInfo)
    (Info : FDirtyParticleInfo) :
    FinalResimParticle (S.CurFrame + 1) Info (Sv.Particles Info.Object)
      (FinishParticle M S ⟨S.CurFrame + 1, .PrePushData⟩ Reg Sv Er Info).1
      ((FinishParticle M S ⟨S.CurFrame + 1, .PrePushData⟩ Reg Sv Er Info).2.1.Particles Info.Object) := by
  unfold FinalResimParticle FinishParticle
  constructor
  · intro hfol hfull
    simp only [hfol, Bool.false_eq_true, if_false, hfull, if_true, hf]
    refine ⟨by simp [FPBDRigidsSolver.SetParticle, FGeometryParticleHandle.SetSyncState,
      FGeometryParticleHandle.SetEnabledDuringResim], by simp [FPBDRigidsSolver.SetParticle,
      FGeometryParticleHandle.SetSyncState, FGeometryParticleHandle.SetEnabledDuringResim], ?_⟩
    simp only [ClearPhaseAndFutureParticle, FGeometryParticleStateBase.ClearedFrom,
      FGeometryParticleStateBase.ClearEntryAndFuture]
    exact ⟨TParticlePropertyBuffer.ClearEntryAndFuture_ClearedFrom _ _,
      TParticlePropertyBuffer.ClearEntryAndFuture_ClearedFrom _ _,
      TParticlePropertyBuffer.ClearEntryAndFuture_ClearedFrom _ _,
      TParticlePropertyBuffer.ClearEntryAndFuture_ClearedFrom _ _,
      TParticlePropertyBuffer.ClearEntryAndFuture_ClearedFrom _ _,
      TParticlePropertyBuffer.ClearEntryAndFuture_ClearedFrom _ _,
      TParticlePropertyBuffer.ClearEntryAndFuture_ClearedFrom _ _,
      TParticlePropertyBuffer.ClearEntryAndFuture_ClearedFrom _ _,
      TParticlePropertyBuffer.ClearEntryAndFuture_ClearedFrom _ _,
      TParticlePropertyBuffer.ClearEntryAndFuture_ClearedFrom _ _⟩
  · intro hfol
    simp [hfol]

theorem FinishParticle_Object (M : FQuatMath) (S : FRewindData) (K : FFrameAndPhase)
    (Reg : List FDirtyParticleInfo) (Sv : FPBDRigidsSolver) (Er : List FDirtyParticleErrorInfo)
    (Info : FDirtyParticleInfo) :
    (FinishParticle M S K Reg Sv Er Info).1.Object = Info.Object := by
  unfold FinishParticle
  split
  · rfl
  · simp only
    split
    · split
      · rfl
      · simp only [DesyncParticleIfNecessary]
        split
        · split <;> rfl
        · rfl
    · rfl

/-- A relation established by every run of the body of the finish loop holds between the
registry and live particles before and after the whole loop, when the registry points to
distinct particles. -/
theorem FinishParticles_forall₂ (M : FQuatMath) (S : FRewindData) (K : FFrameAndPhase)
    (R : FDirtyParticleInfo → FGeometryParticleHandle → FDirtyParticleInfo →
      FGeometryParticleHandle → Prop)
    (hR : ∀ Reg Sv Er Info, R Info (Sv.Particles Info.Object)
      (FinishParticle M S K Reg Sv Er Info).1
      ((FinishParticle M S K Reg Sv Er Info).2.1.Particles Info.Object))
    (Start : Nat → FGeometryParticleHandle) (Todo : List FDirtyParticleInfo) :
    ∀ (Done : List FDirtyParticleInfo) (Sv : FPBDRigidsSolver) (Er : List FDirtyParticleErrorInfo),
      (∀ Info ∈ Todo, Sv.Particles Info.Object = Start Info.Object) →
      (Todo.map (fun Info => Info.Object)).Nodup →
      (∃ L1, (FinishParticles M S K Done Todo Sv Er).1 = Done ++ L1 ∧
        List.Forall₂ (fun Info Info1 => R Info (Start Info.Object) Info1
          ((FinishParticles M S K Done Todo Sv Er).2.1.Particles Info.Object)) Todo L1) ∧
      (∀ q, q ∉ Todo.map (fun Info => Info.Object) →
        (FinishParticles M S K Done Todo Sv Er).2.1.Particles q = Sv.Particles q) ∧
      (FinishParticles M S K Done Todo Sv Er).2.1.Joints = Sv.Joints := by
  induction Todo with
  | nil =>
    intro Done Sv Er _ _
    exact ⟨⟨[], by simp [FinishParticles], List.Forall₂.nil⟩, fun _ _ => rfl, rfl⟩
  | cons Info Rest ih =>
    intro Done Sv Er hs hnd
    simp only [List.map_cons, List.nodup_cons] at hnd
    rw [FinishParticles_cons]
    obtain ⟨hfr, hj⟩ := FinishParticle_frame M S K (Done ++ Info :: Rest) Sv Er Info
    have hs1 : ∀ I ∈ Rest,
        (FinishParticle M S K (Done ++ Info :: Rest) Sv Er Info).2.1.Particles I.Object
          = Start I.Object := by
      intro I hI
      have hne : I.Object ≠ Info.Object := by
        intro heq
        exact hnd.1 (by rw [← heq]; exact List.mem_map_of_mem _ hI)
      rw [hfr I.Object hne]
      exact hs I (List.mem_cons_of_mem _ hI)
    obtain ⟨⟨L1, hL1, hF⟩, hfr2, hj2⟩ := ih (Done ++ [(FinishParticle M S K (Done ++ Info :: Rest) Sv Er Info).1])
      (FinishParticle M S K (Done ++ Info :: Rest) Sv Er Info).2.1
      (FinishParticle M S K (Done ++ Info :: Rest) Sv Er Info).2.2 hs1 hnd.2
    refine ⟨⟨(FinishParticle M S K (Done ++ Info :: Rest) Sv Er Info).1 :: L1, ?_, ?_⟩, ?_, ?_⟩
    · rw [hL1]
      simp
    · refine List.Forall₂.cons ?_ hF
      rw [hfr2 Info.Object hnd.1, ← hs Info (List.mem_cons_self _ _)]
      exact hR _ _ _ _
    · intro q hq
      simp only [List.map_cons, List.mem_cons, not_or] at hq
      rw [hfr2 q hq.2, hfr q hq.1]
    · rw [hj2, hj]

theorem FinishJoints_cons (S : FRewindData) (K : FFrameAndPhase) (Info : FDirtyJointInfo)
    (Rest : List FDirtyJointInfo) (Sv : FPBDRigidsSolver) :
    FinishJoints S K (Info :: Rest) Sv =
      ((FinishJoint S K Sv Info).1 :: (FinishJoints S K Rest (FinishJoint S K Sv Info).2).1,
        (FinishJoints S K Rest (FinishJoint S K Sv Info).2).2) := rfl

theorem FinishJoint_frame (S : FRewindData) (K : FFrameAndPhase) (Sv : FPBDRigidsSolver)
    (Info : FDirtyJointInfo) :
    (∀ q, q ≠ Info.Object → (FinishJoint S K Sv Info).2.Joints q = Sv.Joints q) ∧
    (FinishJoint S K Sv Info).2.Particles = Sv.Particles := by
  unfold FinishJoint
  split
  · exact ⟨fun _ _ => rfl, rfl⟩
  · simp only
    split
    · split
      · refine ⟨fun q hq => ?_, rfl⟩
        simp [FPBDRigidsSolver.SetJoint, hq]
      · refine ⟨fun q hq => ?_, rfl⟩
        simp [FPBDRigidsSolver.SetJoint, hq]
    · exact ⟨fun _ _ => rfl, rfl⟩

/-- On the final resim pass the body of the finish loop brings a non-follower full-resim joint
back in sync and clears its history from the future frame on; it leaves a follower alone. -/
theorem FinishJoint_final (S : FRewindData) (hf : S.IsFinalResim = true) (Sv : FPBDRigidsSolver)
    (Info : FDirtyJointInfo) :
    FinalResimJoint (S.CurFrame + 1) Info (Sv.Joints Info.Object)
      (FinishJoint S ⟨S.CurFrame + 1, .PrePushData⟩ Sv Info).1
      ((FinishJoint S ⟨S.CurFrame + 1, .PrePushData⟩ Sv Info).2.Joints Info.Object) := by
  unfold FinalResimJoint FinishJoint
  constructor
  · intro hfol hfull
    simp only [hfol, Bool.false_eq_true, if_false, hfull, if_true, hf]
    refine ⟨by simp [FPBDRigidsSolver.SetJoint, FPBDJointConstraintHandle.SetSyncState,
      FPBDJointConstraintHandle.SetEnabledDuringResim], by simp [FPBDRigidsSolver.SetJoint,
      FPBDJointConstraintHandle.SetSyncState, FPBDJointConstraintHandle.SetEnabledDuringResim], ?_⟩
    simp only [ClearPhaseAndFutureJoint, FJointStateBase.ClearedFrom,
      FJointStateBase.ClearEntryAndFuture]
    exact TParticlePropertyBuffer.ClearEntryAndFuture_ClearedFrom _ _
  · intro hfol
    simp [hfol]

/-- The joint counterpart of `FinishParticles_forall₂`. -/
theorem FinishJoints_forall₂ (S : FRewindData) (K : FFrameAndPhase)
    (R : FDirtyJointInfo → FPBDJointConstraintHandle → FDirtyJointInfo →
      FPBDJointConstraintHandle → Prop)
    (hR : ∀ Sv Info, R Info (Sv.Joints Info.Object) (FinishJoint S K Sv Info).1
      ((FinishJoint S K Sv Info).2.Joints Info.Object))
    (Start : Nat → FPBDJointConstraintHandle) (L : List FDirtyJointInfo) :
    ∀ Sv : FPBDRigidsSolver,
      (∀ Info ∈ L, Sv.Joints Info.Object = Start Info.Object) →
      (L.map (fun Info => Info.Object)).Nodup →
      List.Forall₂ (fun Info Info1 => R Info (Start Info.Object) Info1
          ((FinishJoints S K L Sv).2.Joints Info.Object)) L (FinishJoints S K L Sv).1 ∧
      (∀ q, q ∉ L.map (fun Info => Info.Object) →
        (FinishJoints S K L Sv).2.Joints q = Sv.Joints q) ∧
      (FinishJoints S K L Sv).2.Particles = Sv.Particles := by
  induction L with
  | nil =>
    intro Sv _ _
    exact ⟨List.Forall₂.nil, fun _ _ => rfl, rfl⟩
  | cons Info Rest ih =>
    intro Sv hs hnd
    simp only [List.map_cons, List.nodup_cons] at hnd
    rw [FinishJoints_cons]
    obtain ⟨hfr, hp⟩ := FinishJoint_frame S K Sv Info
    have hs1 : ∀ I ∈ Rest, (FinishJoint S K Sv Info).2.Joints I.Object = Start I.Object := by
      intro I hI
      have hne : I.Object ≠ Info.Object := by
        intro heq
        exact hnd.1 (by rw [← heq]; exact List.mem_map_of_mem _ hI)
      rw [hfr I.Object hne]
      exact hs I (List.mem_cons_of_mem _ hI)
    obtain ⟨hF, hfr2, hp2⟩ := ih (FinishJoint S K Sv Info).2 hs1 hnd.2
    refine ⟨?_, ?_, ?_⟩
    · refine List.Forall₂.cons ?_ hF
      simp only
      rw [hfr2 Info.Object hnd.1, ← hs Info (List.mem_cons_self _ _)]
      exact hR _ _
    · intro q hq
      simp only [List.map_cons, List.mem_cons, not_or] at hq
      simp only
      rw [hfr2 q hq.2, hfr q hq.1]
    · simp only
      rw [hp2, hp]

theorem FinishFrame_resim_parts (M : FQuatMath) (S : FRewindData) (hr : S.IsResim = true) :
    (FinishFrame M S).DirtyParticles =
      (FinishParticles M S ⟨S.CurFrame + 1, .PrePushData⟩ [] S.DirtyParticles S.Solver
        S.DirtyParticleErrors).1 ∧
    (FinishFrame M S).DirtyJoints =
      (FinishJoints S ⟨S.CurFrame + 1, .PrePushData⟩ S.DirtyJoints
        (FinishParticles M S ⟨S.CurFrame + 1, .PrePushData⟩ [] S.DirtyParticles S.Solver
          S.DirtyParticleErrors).2.1).1 ∧
    (FinishFrame M S).Solver =
      (FinishJoints S ⟨S.CurFrame + 1, .PrePushData⟩ S.DirtyJoints
        (FinishParticles M S ⟨S.CurFrame + 1, .PrePushData⟩ [] S.DirtyParticles S.Solver
          S.DirtyParticleErrors).2.1).2 := by
  unfold FinishFrame FinishResim
  simp only [hr, if_true]
  exact ⟨trivial, trivial, trivial⟩

/-- C9: when `FinishFrame` runs on the final resim pass (`IsResim()` and `IsFinalResim()`),
every tracked particle and joint that is not resim-as-follower and whose live resim type is
`FullResim` ends with `SyncState == InSync` and `EnabledDuringResim == false`, and its history
is cleared from key `(old CurFrame + 1, PrePushData)` onward; tracked objects flagged
resim-as-follower keep their registry entry (with its history) and their live state (with
sync state and resim flag) unchanged.  The registries are maps keyed by object identity: their
entries point to distinct objects. -/
theorem FinishFrame_final_resim (M : FQuatMath) (S : FRewindData)
    (hr : S.IsResim = true) (hf : S.IsFinalResim = true)
    (hndP : (S.DirtyParticles.map (fun Info => Info.Object)).Nodup)
    (hndJ : (S.DirtyJoints.map (fun Info => Info.Object)).Nodup) :
    List.Forall₂ (fun Info Info1 =>
        FinalResimParticle (S.CurFrame + 1) Info (S.Solver.Particles Info.Object)
          Info1 ((FinishFrame M S).Solver.Particles Info.Object))
      S.DirtyParticles (FinishFrame M S).DirtyParticles ∧
    List.Forall₂ (fun Info Info1 =>
        FinalResimJoint (S.CurFrame + 1) Info (S.Solver.Joints Info.Object)
          Info1 ((FinishFrame M S).Solver.Joints Info.Object))
      S.DirtyJoints (FinishFrame M S).DirtyJoints := by
  obtain ⟨hP, hJ, hSv⟩ := FinishFrame_resim_parts M S hr
  obtain ⟨⟨L1, hL1, hF⟩, _, hjoints⟩ := FinishParticles_forall₂ M S ⟨S.CurFrame + 1, .PrePushData⟩
    (FinalResimParticle (S.CurFrame + 1))
    (fun Reg Sv Er Info => FinishParticle_final M S hf Reg Sv Er Info)
    S.Solver.Particles S.DirtyParticles [] S.Solver S.DirtyParticleErrors (fun _ _ => rfl) hndP
  obtain ⟨hFJ, _, hparts⟩ := FinishJoints_forall₂ S ⟨S.CurFrame + 1, .PrePushData⟩
    (FinalResimJoint (S.CurFrame + 1))
    (fun Sv Info => FinishJoint_final S hf Sv Info)
    S.Solver.Joints S.DirtyJoints
    (FinishParticles M S ⟨S.CurFrame + 1, .PrePushData⟩ [] S.DirtyParticles S.Solver
      S.DirtyParticleErrors).2.1
    (fun _ _ => by rw [hjoints]) hndJ
  rw [hP, hJ, hSv]
  constructor
  · rw [hparts, hL1]
    simpa using hF
  · exact hFJ

/-- Witness of C9: on the final resim pass of the example (frame 19 of 20) the desynced
particle and the joint come back in sync and lose the head values saved on frame 20. -/
theorem FinishFrame_final_resim_witness :
    (List.Forall₂ (fun Info Info1 =>
        FinalResimParticle (ExampleFinalResim.CurFrame + 1) Info
          (ExampleFinalResim.Solver.Particles Info.Object)
          Info1 ((FinishFrame ExampleQuatMath ExampleFinalResim).Solver.Particles Info.Object))
      ExampleFinalResim.DirtyParticles (FinishFrame ExampleQuatMath ExampleFinalResim).DirtyParticles ∧
    List.Forall₂ (fun Info Info1 =>
        FinalResimJoint (ExampleFinalResim.CurFrame + 1) Info
          (ExampleFinalResim.Solver.Joints Info.Object)
          Info1 ((FinishFrame ExampleQuatMath ExampleFinalResim).Solver.Joints Info.Object))
      ExampleFinalResim.DirtyJoints (FinishFrame ExampleQuatMath ExampleFinalResim).DirtyJoints) ∧
    ((FinishFrame ExampleQuatMath ExampleFinalResim).Solver.Particles 0).SyncState = ESyncState.InSync ∧
    (FinishFrame ExampleQuatMath ExampleFinalResim).DirtyParticles.map
        (fun Info => Info.History.ParticlePositionRotation.Buffer.map (fun e => e.1))
      = [[⟨11, .PostPushData⟩]] :=
  ⟨FinishFrame_final_resim ExampleQuatMath ExampleFinalResim (by decide) (by decide) (by decide)
    (by decide), by decide, by decide⟩

end FRewindData

/-! ## Desync detection of one particle -/

namespace FRewindData

/-- C13: in organic mode (network physics prediction disabled, or any of the three target
channels empty) `FGeometryParticleStateBase::IsInSync<false>` returns true if and only if
every applicable channel is in sync with the live particle at the frame-phase: position and
rotation and non-frequent data for every particle, velocities and kinematic target as well
when the kinematic cast succeeds, dynamics, misc dynamic flags and mass properties as well
when the rigid cast succeeds.  A mismatch in one applicable channel makes it false. -/
theorem ParticleIsInSync_organic (Sv : FPBDRigidsSolver) (H : FGeometryParticleStateBase) (p : Nat)
    (P : FGeometryParticleHandle) (K : FFrameAndPhase)
    (hmode : Sv.bNetworkPhysicsPredictionEnabled = false ∨ H.TargetPositions.IsEmpty = true ∨
      H.TargetVelocities.IsEmpty = true ∨ H.TargetStates.IsEmpty = true) :
    ParticleIsInSync false Sv H p P K = true ↔
      (H.ParticlePositionRotation.IsInSync P.XR K = true ∧
       H.NonFrequentData.IsInSync P.NonFrequentData K = true ∧
       (P.ParticleType ≠ EParticleType.Static →
         H.Velocities.IsInSync P.Velocities K = true ∧
         H.KinematicTarget.IsInSync P.KinematicTarget K = true) ∧
       (P.ParticleType = EParticleType.Rigid →
         H.Dynamics.IsInSync P.Dynamics K = true ∧
         H.DynamicsMisc.IsInSync P.DynamicsMisc K = true ∧
         H.MassProps.IsInSync P.MassProps K = true)) := by
  have hcond : (Sv.bNetworkPhysicsPredictionEnabled && !H.TargetPositions.IsEmpty &&
      !H.TargetVelocities.IsEmpty && !H.TargetStates.IsEmpty) = false := by
    rcases hmode with h | h | h | h <;> simp [h]
  unfold ParticleIsInSync
  simp only [hcond, Bool.false_eq_true, if_false]
  cases hx : H.ParticlePositionRotation.IsInSync P.XR K <;>
  cases hn : H.NonFrequentData.IsInSync P.NonFrequentData K <;>
  cases hv : H.Velocities.IsInSync P.Velocities K <;>
  cases hk : H.KinematicTarget.IsInSync P.KinematicTarget K <;>
  cases hd : H.Dynamics.IsInSync P.Dynamics K <;>
  cases hm : H.DynamicsMisc.IsInSync P.DynamicsMisc K <;>
  cases hs : H.MassProps.IsInSync P.MassProps K <;>
  cases ht : P.ParticleType <;>
  simp [FGeometryParticleHandle.CastToKinematicParticle,
    FGeometryParticleHandle.CastToRigidParticle, ht, hv, hk, hd, hm, hs]

end FRewindData

namespace FRewindData

/-- Witness of C13: on frame 12 the example history reads the position recorded on frame 11,
which is not the live position, so the particle is not in sync. -/
theorem ParticleIsInSync_organic_witness :
    (ParticleIsInSync false ExampleSolver ExampleHistory 0 ExampleParticle ⟨12, .PostCallbacks⟩ = true ↔
      (ExampleHistory.ParticlePositionRotation.IsInSync ExampleParticle.XR ⟨12, .PostCallbacks⟩ = true ∧
       ExampleHistory.NonFrequentData.IsInSync ExampleParticle.NonFrequentData ⟨12, .PostCallbacks⟩ = true ∧
       (ExampleParticle.ParticleType ≠ EParticleType.Static →
         ExampleHistory.Velocities.IsInSync ExampleParticle.Velocities ⟨12, .PostCallbacks⟩ = true ∧
         ExampleHistory.KinematicTarget.IsInSync ExampleParticle.KinematicTarget ⟨12, .PostCallbacks⟩ = true) ∧
       (ExampleParticle.ParticleType = EParticleType.Rigid →
         ExampleHistory.Dynamics.IsInSync ExampleParticle.Dynamics ⟨12, .PostCallbacks⟩ = true ∧
         ExampleHistory.DynamicsMisc.IsInSync ExampleParticle.DynamicsMisc ⟨12, .PostCallbacks⟩ = true ∧
         ExampleHistory.MassProps.IsInSync ExampleParticle.MassProps ⟨12, .PostCallbacks⟩ = true))) ∧
    ParticleIsInSync false ExampleSolver ExampleHistory 0 ExampleParticle ⟨12, .PostCallbacks⟩ = false ∧
    ParticleIsInSync false ExampleSolver ExampleHistory 0 ExampleParticle ⟨10, .PostCallbacks⟩ = true :=
  ⟨ParticleIsInSync_organic ExampleSolver ExampleHistory 0 ExampleParticle ⟨12, .PostCallbacks⟩
    (Or.inl (by decide)), by decide, by decide⟩

/-- C14: in target mode (network physics prediction enabled and the three target channels
all non-empty) `FGeometryParticleStateBase::IsInSync` ignores every organic channel and
returns exactly `IsResimFrameValid(Handle, FrameAndPhase)`, which is false if and only if the
particle's solver has an evolution that is resimming and the island manager reports a resim
frame other than `INDEX_NONE` for the particle. -/
theorem ParticleIsInSync_target (bSkipDynamics : Bool) (Sv : FPBDRigidsSolver)
    (H : FGeometryParticleStateBase) (p : Nat) (P : FGeometryParticleHandle) (K : FFrameAndPhase)
    (hnet : Sv.bNetworkPhysicsPredictionEnabled = true)
    (hpos : H.TargetPositions.IsEmpty = false) (hvel : H.TargetVelocities.IsEmpty = false)
    (hst : H.TargetStates.IsEmpty = false) :
    ParticleIsInSync bSkipDynamics Sv H p P K = IsResimFrameValid Sv p P ∧
    (IsResimFrameValid Sv p P = false ↔
      (P.Proxy.bHasSolver = true ∧
        ∃ E, Sv.Evolution = some E ∧ E.bIsResimming = true ∧ E.ParticleResimFrame p ≠ INDEX_NONE)) := by
  constructor
  · unfold ParticleIsInSync
    simp only [hnet, hpos, hvel, hst, Bool.not_false, Bool.and_self, if_true]
    cases IsResimFrameValid Sv p P <;> rfl
  · unfold IsResimFrameValid
    cases hs : P.Proxy.bHasSolver with
    | false => simp
    | true =>
      cases he : Sv.Evolution with
      | none => simp
      | some E =>
        cases hr : E.bIsResimming with
        | false => simp [hr]
        | true =>
          by_cases hf : E.ParticleResimFrame p = INDEX_NONE <;> simp [hr, hf]

/-- Witness of C14: with targets recorded and a resimming evolution that reports resim frame
12, the example particle is out of sync whatever its organic channels hold. -/
theorem ParticleIsInSync_target_witness :
    ParticleIsInSync false ExampleSolverResimming ExampleHistoryTargets 0 ExampleParticle
        ⟨12, .PostCallbacks⟩ = IsResimFrameValid ExampleSolverResimming 0 ExampleParticle ∧
    IsResimFrameValid ExampleSolverResimming 0 ExampleParticle = false ∧
    ParticleIsInSync true ExampleSolverResimming ExampleHistoryTargets 0 ExampleParticle
        ⟨10, .PostCallbacks⟩ = false :=
  ⟨(ParticleIsInSync_target false ExampleSolverResimming ExampleHistoryTargets 0 ExampleParticle
      ⟨12, .PostCallbacks⟩ (by decide) (by decide) (by decide) (by decide)).1,
    by decide, by decide⟩

end FRewindData

/-! ## The error accumulation threshold -/

namespace FRewindData

theorem IsNearlyZero_eq_false_iff (a : FVec3) (Tolerance : FReal) :
    a.IsNearlyZero Tolerance = false ↔ a.Exceeds Tolerance := by
  unfold FVec3.IsNearlyZero FVec3.Exceeds
  simp only [Bool.and_eq_false_iff, decide_eq_false_iff_not, not_le]
  tauto

theorem AccumulateInto_Objects (M : FQuatMath) (Obj : Nat) (X : FVec3) (R : FQuat)
    (Errors : List FDirtyParticleErrorInfo) :
    (AccumulateInto M Obj X R Errors).map (fun Er => Er.Object) = Errors.map (fun Er => Er.Object) := by
  induction Errors with
  | nil => rfl
  | cons Er Rest ih =>
    unfold AccumulateInto
    split
    · rfl
    · simp only [List.map_cons, ih]

theorem AccumulateInto_ne (M : FQuatMath) (Obj : Nat) (X : FVec3) (R : FQuat)
    (hX : X.Exceeds (1 / 10)) (Errors : List FDirtyParticleErrorInfo)
    (hany : Errors.any (fun Er => decide (Er.Object = Obj)) = true) :
    AccumulateInto M Obj X R Errors ≠ Errors := by
  induction Errors with
  | nil => simp at hany
  | cons Er Rest ih =>
    unfold AccumulateInto
    by_cases ho : Er.Object = Obj
    · simp only [ho, if_true]
      intro heq
      have h1 : Er.AccumulateError M X R = Er := (List.cons.inj heq).1
      have h2 : (Er.AccumulateError M X R).ErrorX = Er.ErrorX := by rw [h1]
      simp only [FDirtyParticleErrorInfo.AccumulateError, FVec3.add] at h2
      have hx : Er.ErrorX.X + X.X = Er.ErrorX.X := congrArg FVec3.X h2
      have hy : Er.ErrorX.Y + X.Y = Er.ErrorX.Y := congrArg FVec3.Y h2
      have hz : Er.ErrorX.Z + X.Z = Er.ErrorX.Z := congrArg FVec3.Z h2
      have hx0 : X.X = 0 := by linarith
      have hy0 : X.Y = 0 := by linarith
      have hz0 : X.Z = 0 := by linarith
      unfold FVec3.Exceeds at hX
      rw [hx0, hy0, hz0] at hX
      norm_num at hX
    · simp only [ho, if_false]
      intro heq
      have hany1 : Rest.any (fun Er => decide (Er.Object = Obj)) = true := by
        simpa [ho] using hany
      exact ih hany1 (List.cons.inj heq).2

/-- C19: for a tracked particle with no rotational error, `AccumulateErrorIfNecessary` creates
or updates the particle's Error Accumulator entry if and only if some component of
`PreCorrectionXR.X - live X` exceeds 0.1 in magnitude: otherwise the accumulator is left as it
is.  For an untracked particle it does nothing.  An existing entry is reused, so an
accumulator with at most one entry per particle stays so. -/
theorem AccumulateErrorIfNecessary_threshold (M : FQuatMath) (Registry : List FDirtyParticleInfo)
    (Errors : List FDirtyParticleErrorInfo) (Obj : Nat) (P : FGeometryParticleHandle) :
    (FindDirtyParticle Registry Obj = none →
      AccumulateErrorIfNecessary M Registry Errors Obj P = Errors) ∧
    (∀ DirtyInfo, FindDirtyParticle Registry Obj = some DirtyInfo →
      M.IsIdentity (CorrectionErrorR M DirtyInfo P) (2 / 100) = true →
      (¬ (CorrectionErrorX DirtyInfo P).Exceeds (1 / 10) →
        AccumulateErrorIfNecessary M Registry Errors Obj P = Errors) ∧
      ((CorrectionErrorX DirtyInfo P).Exceeds (1 / 10) →
        AccumulateErrorIfNecessary M Registry Errors Obj P ≠ Errors ∧
        (∃ Er ∈ AccumulateErrorIfNecessary M Registry Errors Obj P, Er.Object = Obj) ∧
        AccumulateErrorIfNecessary M Registry Errors Obj P =
          (if Errors.any (fun Er => decide (Er.Object = Obj)) = true then
            AccumulateInto M Obj (CorrectionErrorX DirtyInfo P) (CorrectionErrorR M DirtyInfo P) Errors
          else Errors ++ [(FDirtyParticleErrorInfo.Create M Obj).AccumulateError M
            (CorrectionErrorX DirtyInfo P) (CorrectionErrorR M DirtyInfo P)]))) ∧
    ((Errors.map (fun Er => Er.Object)).Nodup →
      ((AccumulateErrorIfNecessary M Registry Errors Obj P).map (fun Er => Er.Object)).Nodup) := by
  refine ⟨?_, ?_, ?_⟩
  · intro hnone
    unfold FindDirtyParticle at hnone
    unfold AccumulateErrorIfNecessary
    rw [hnone]
  · intro DirtyInfo hfind hrot
    unfold FindDirtyParticle at hfind
    unfold CorrectionErrorR at hrot
    have hres : AccumulateErrorIfNecessary M Registry Errors Obj P =
        (if (!(CorrectionErrorX DirtyInfo P).IsNearlyZero (1 / 10)) = true then
          (if Errors.any (fun Er => decide (Er.Object = Obj)) = true then
            AccumulateInto M Obj (CorrectionErrorX DirtyInfo P) (CorrectionErrorR M DirtyInfo P) Errors
          else Errors ++ [(FDirtyParticleErrorInfo.Create M Obj).AccumulateError M
            (CorrectionErrorX DirtyInfo P) (CorrectionErrorR M DirtyInfo P)])
        else Errors) := by
      unfold AccumulateErrorIfNecessary
      rw [hfind]
      simp only [hrot, Bool.not_true, Bool.or_false]
      rfl
    constructor
    · intro hsmall
      rw [hres]
      have hz : (CorrectionErrorX DirtyInfo P).IsNearlyZero (1 / 10) = true := by
        cases hc : (CorrectionErrorX DirtyInfo P).IsNearlyZero (1 / 10) with
        | true => rfl
        | false => exact absurd ((IsNearlyZero_eq_false_iff _ _).mp hc) hsmall
      simp only [hz, Bool.not_true, Bool.false_eq_true, if_false]
    · intro hbig
      have hz : (CorrectionErrorX DirtyInfo P).IsNearlyZero (1 / 10) = false :=
        (IsNearlyZero_eq_false_iff _ _).mpr hbig
      rw [hres]
      simp only [hz, Bool.not_false, if_true]
      by_cases hany : Errors.any (fun Er => decide (Er.Object = Obj)) = true
      · simp only [hany, if_true, and_true]
        refine ⟨AccumulateInto_ne M Obj _ _ hbig Errors hany, ?_⟩
        have hmem : Obj ∈ (AccumulateInto M Obj (CorrectionErrorX DirtyInfo P)
            (CorrectionErrorR M DirtyInfo P) Errors).map (fun Er => Er.Object) := by
          rw [AccumulateInto_Objects]
          obtain ⟨Er, hEr, hO⟩ := List.any_eq_true.mp hany
          exact List.mem_map.mpr ⟨Er, hEr, by simpa using hO⟩
        obtain ⟨Er, hEr, hO⟩ := List.mem_map.mp hmem
        exact ⟨Er, hEr, hO⟩
      · simp only [hany, if_false, and_true, Bool.false_eq_true]
        refine ⟨?_, ?_⟩
        · intro heq
          have := congrArg List.length heq
          simp at this
        · exact ⟨_, List.mem_append_right _ (List.mem_singleton_self _), rfl⟩
  · intro hnd
    unfold AccumulateErrorIfNecessary
    split
    · exact hnd
    · simp only
      split
      · split
        · rw [AccumulateInto_Objects]
          exact hnd
        · rename_i hany
          rw [List.map_append, List.nodup_append]
          refine ⟨hnd, List.nodup_singleton _, ?_⟩
          intro a ha hb
          simp only [List.map_cons, List.map_nil, List.mem_singleton] at hb
          subst hb
          apply hany
          obtain ⟨Er, hEr, hO⟩ := List.mem_map.mp ha
          exact List.any_eq_true.mpr ⟨Er, hEr, by simpa using hO⟩
      · exact hnd

end FRewindData

namespace FRewindData

/-- Witness of C19: with the live particle at the origin and no rotational error, a cached
pre-correction position at distance 0.05 creates no accumulator entry and one at distance 0.2
creates an entry. -/
theorem AccumulateErrorIfNecessary_threshold_witness :
    AccumulateErrorIfNecessary ExampleQuatMath [ExampleInfoCorrected (1 / 20)] [] 0
        ExampleParticleOrigin = [] ∧
    AccumulateErrorIfNecessary ExampleQuatMath [ExampleInfoCorrected (1 / 5)] [] 0
        ExampleParticleOrigin ≠ [] ∧
    (∃ Er ∈ AccumulateErrorIfNecessary ExampleQuatMath [ExampleInfoCorrected (1 / 5)] [] 0
        ExampleParticleOrigin, Er.Object = 0) :=
  ⟨((AccumulateErrorIfNecessary_threshold ExampleQuatMath [ExampleInfoCorrected (1 / 20)] [] 0
      ExampleParticleOrigin).2.1 (ExampleInfoCorrected (1 / 20)) (by rfl)
      (by simp [CorrectionErrorR, ExampleQuatMath, ExampleInfoCorrected, ExampleParticleOrigin,
        ExampleXR]; norm_num)).1
      (by simp [FVec3.Exceeds, CorrectionErrorX, FVec3.sub, ExampleInfoCorrected,
        ExampleParticleOrigin, ExampleXR]; norm_num [abs_le]),
    (((AccumulateErrorIfNecessary_threshold ExampleQuatMath [ExampleInfoCorrected (1 / 5)] [] 0
      ExampleParticleOrigin).2.1 (ExampleInfoCorrected (1 / 5)) (by rfl)
      (by simp [CorrectionErrorR, ExampleQuatMath, ExampleInfoCorrected, ExampleParticleOrigin,
        ExampleXR]; norm_num)).2
      (Or.inl (by
        simp only [CorrectionErrorX, FVec3.sub, ExampleInfoCorrected, ExampleParticleOrigin,
          ExampleXR, sub_zero]
        rw [abs_of_pos] <;> norm_num))).1,
    (((AccumulateErrorIfNecessary_threshold ExampleQuatMath [ExampleInfoCorrected (1 / 5)] [] 0
      ExampleParticleOrigin).2.1 (ExampleInfoCorrected (1 / 5)) (by rfl)
      (by simp [CorrectionErrorR, ExampleQuatMath, ExampleInfoCorrected, ExampleParticleOrigin,
        ExampleXR]; norm_num)).2
      (Or.inl (by
        simp only [CorrectionErrorX, FVec3.sub, ExampleInfoCorrected, ExampleParticleOrigin,
          ExampleXR, sub_zero]
        rw [abs_of_pos] <;> norm_num))).2.1⟩

end FRewindData

/-! ## PushGTDirtyData on objects in sync during a resim -/

namespace FRewindData

/-- C15: `PushGTDirtyData` skips recording entirely for an object that is in sync during a
resim.  For a call made while `IsResim()` holds on a particle or joint proxy whose object has
`SyncState == InSync`, the coordinator afterwards is the coordinator before the call with
`bNeedsSave` set: the particle and joint registries, every history channel, every entry's
`DirtyDynamics` and every live object with its `EnabledDuringResim` flag are unchanged. -/
theorem PushGTDirtyData_in_sync (S : FRewindData) (Dirty : FDirtyProxy) (hr : S.IsResim = true) :
    (∀ Proxy p, Dirty.Proxy = IPhysicsProxyBase.SingleParticleProxy Proxy (some p) →
      (S.Solver.Particles p).SyncState = ESyncState.InSync →
      S.PushGTDirtyData Dirty = some { S with bNeedsSave := true }) ∧
    (∀ InitializedStep bInitialized j,
      Dirty.Proxy = IPhysicsProxyBase.JointConstraintType InitializedStep bInitialized (some j) →
      (S.Solver.Joints j).SyncState = ESyncState.InSync →
      S.PushGTDirtyData Dirty = some { S with bNeedsSave := true }) := by
  have hr0 : ({ S with bNeedsSave := true } : FRewindData).IsResim = true := hr
  constructor
  · intro Proxy p hP hs
    unfold PushGTDirtyData
    simp only [hP]
    have hc : CopyHelperParticle { S with bNeedsSave := true } Proxy Dirty.PropertyData p
        = (false, { S with bNeedsSave := true }) := by
      unfold CopyHelperParticle
      simp only [hr0, hs, decide_True, Bool.and_self, if_true]
    rw [hc]
    simp
  · intro InitializedStep bInitialized j hP hs
    unfold PushGTDirtyData
    simp only [hP]
    have hc : CopyHelperJoint { S with bNeedsSave := true } InitializedStep bInitialized
        Dirty.PropertyData j = (false, { S with bNeedsSave := true }) := by
      unfold CopyHelperJoint
      simp only [hr0, hs, decide_True, Bool.and_self, if_true]
    rw [hc]

/-- Witness of C15: the example coordinator rewound to frame 12 is resimulating and its
particle and joint are in sync; pushes for them only set `bNeedsSave`. -/
theorem PushGTDirtyData_in_sync_witness :
    ExampleRewound.PushGTDirtyData ExampleDirtyParticle
      = some { ExampleRewound with bNeedsSave := true } ∧
    ExampleRewound.PushGTDirtyData ExampleDirtyJoint
      = some { ExampleRewound with bNeedsSave := true } :=
  ⟨(PushGTDirtyData_in_sync ExampleRewound ExampleDirtyParticle (by decide)).1 ⟨true, 0, true⟩ 0
      (by rfl) (by decide),
    (PushGTDirtyData_in_sync ExampleRewound ExampleDirtyJoint (by decide)).2 0 true 0
      (by rfl) (by decide)⟩

end FRewindData

/-! ## Writes through the registry -/

namespace FRewindData

theorem FindOrAddDirtyParticle_find (L : List FDirtyParticleInfo) (o : Nat) (c i : Int) :
    FindDirtyParticle (FindOrAddDirtyParticle L o c i).1 o = some (FindOrAddDirtyParticle L o c i).2 ∧
    (FindOrAddDirtyParticle L o c i).2.Object = o := by
  unfold FindOrAddDirtyParticle
  cases h : FindDirtyParticle L o with
  | some Info =>
    refine ⟨h, ?_⟩
    unfold FindDirtyParticle at h
    simpa using List.find?_some h
  | none =>
    refine ⟨?_, rfl⟩
    unfold FindDirtyParticle at h ⊢
    simp only
    rw [List.find?_append, h]
    simp [NewDirtyParticleInfo]

/-- Storing a modified entry changes the first entry of its object and nothing else. -/
theorem StoreDirtyParticle_forall₂ (Info0 Info1 : FDirtyParticleInfo) (L : List FDirtyParticleInfo)
    (hfind : FindDirtyParticle L Info1.Object = some Info0) :
    List.Forall₂ (fun Old New => (Old.Object ≠ Info1.Object → New = Old) ∧
        (New = Old ∨ (Old = Info0 ∧ New = Info1))) L (StoreDirtyParticle L Info1) := by
  induction L with
  | nil => simp [FindDirtyParticle] at hfind
  | cons Old Rest ih =>
    unfold StoreDirtyParticle
    unfold FindDirtyParticle at hfind
    by_cases ho : Old.Object = Info1.Object
    · simp only [ho, if_true]
      simp only [List.find?_cons, ho, decide_True, Option.some.injEq] at hfind
      refine List.Forall₂.cons ⟨fun hne => absurd ho hne, Or.inr ⟨hfind, rfl⟩⟩ ?_
      exact List.forall₂_same.mpr (fun x _ => ⟨fun _ => rfl, Or.inl rfl⟩)
    · simp only [ho, if_false]
      simp only [List.find?_cons, ho, decide_False] at hfind
      exact List.Forall₂.cons ⟨fun _ => rfl, Or.inl rfl⟩ (ih hfind)

/-- A modification of the entry that `FindOrAddDirtyObj` returns, written back: the registry
with the object possibly added, against the registry afterwards. -/
theorem Store_FindOrAdd_forall₂ (L : List FDirtyParticleInfo) (o : Nat) (c i : Int)
    (f : FDirtyParticleInfo → FDirtyParticleInfo) (hf : ∀ Info, (f Info).Object = Info.Object) :
    List.Forall₂ (fun Old New => (Old.Object ≠ o → New = Old) ∧ (New = Old ∨ New = f Old))
      (FindOrAddDirtyParticle L o c i).1
      (StoreDirtyParticle (FindOrAddDirtyParticle L o c i).1 (f (FindOrAddDirtyParticle L o c i).2)) := by
  obtain ⟨hfind, hobj⟩ := FindOrAddDirtyParticle_find L o c i
  have hfo : (f (FindOrAddDirtyParticle L o c i).2).Object = o := by rw [hf, hobj]
  have h := StoreDirtyParticle_forall₂ (FindOrAddDirtyParticle L o c i).2
    (f (FindOrAddDirtyParticle L o c i).2) (FindOrAddDirtyParticle L o c i).1 (by rw [hfo]; exact hfind)
  refine List.Forall₂.imp ?_ h
  intro Old New hh
  rw [hfo] at hh
  refine ⟨hh.1, ?_⟩
  rcases hh.2 with h1 | ⟨h1, h2⟩
  · exact Or.inl h1
  · exact Or.inr (by rw [h2, h1])

theorem AgreeOff_refl {T : Type} (K : FFrameAndPhase) (B : TParticlePropertyBuffer T) :
    B.AgreeOff K B := rfl

theorem AgreeOff_InsertTarget {T : Type} (b : Bool) (K : FFrameAndPhase)
    (B : TParticlePropertyBuffer T) (v : T) : B.AgreeOff K (InsertTarget b K B v) := by
  unfold InsertTarget TParticlePropertyBuffer.AgreeOff
  split
  · simp [TParticlePropertyBuffer.Insert, TParticlePropertyBuffer.Write, List.filter_cons]
  · rfl

/-- C17: `PushStateAtFrame` and `SetTargetStateAtFrame` have identical effects for all
arguments, and each writes into the target channels only.  The coordinator afterwards differs
from the one before in its particle registry only (so the live particles, `CurFrame`,
`LatestFrame` and `FramesSaved` are unchanged); and the registry afterwards is the registry
with the particle added if it was untracked, in which the entries of other objects are
unchanged and the particle's entry differs at most in what its `TargetPositions`,
`TargetVelocities` and `TargetStates` channels hold at the given `(Frame, Phase)`. -/
theorem PushStateAtFrame_targets_only (S : FRewindData) (Handle : Nat) (Frame : Int)
    (Phase : EParticleHistoryPhase) (Position : FVec3) (Quaternion : FQuat)
    (LinVelocity AngVelocity : FVec3) (bShouldSleep : Bool) :
    S.SetTargetStateAtFrame Handle Frame Phase Position Quaternion LinVelocity AngVelocity bShouldSleep
      = S.PushStateAtFrame Handle Frame Phase Position Quaternion LinVelocity AngVelocity bShouldSleep ∧
    S.PushStateAtFrame Handle Frame Phase Position Quaternion LinVelocity AngVelocity bShouldSleep
      = { S with DirtyParticles :=
          (S.PushStateAtFrame Handle Frame Phase Position Quaternion LinVelocity AngVelocity
            bShouldSleep).DirtyParticles } ∧
    List.Forall₂ (fun Info Info1 =>
        (Info.Object ≠ Handle → Info1 = Info) ∧ SameButTargetsAt ⟨Frame, Phase⟩ Info Info1)
      (FindOrAddDirtyParticle S.DirtyParticles Handle S.CurFrame INDEX_NONE).1
      (S.PushStateAtFrame Handle Frame Phase Position Quaternion LinVelocity AngVelocity
        bShouldSleep).DirtyParticles := by
  refine ⟨rfl, rfl, ?_⟩
  have h := Store_FindOrAdd_forall₂ S.DirtyParticles Handle S.CurFrame INDEX_NONE
    (fun Info => { Info with History := { Info.History with
      TargetPositions := InsertTarget (!S.IsResimAndInSync (S.Solver.Particles Handle).SyncState)
        ⟨Frame, Phase⟩ Info.History.TargetPositions ⟨Position, Quaternion⟩
      TargetVelocities := InsertTarget (!S.IsResimAndInSync (S.Solver.Particles Handle).SyncState)
        ⟨Frame, Phase⟩ Info.History.TargetVelocities ⟨LinVelocity, AngVelocity⟩
      TargetStates := InsertTarget (!S.IsResimAndInSync (S.Solver.Particles Handle).SyncState)
        ⟨Frame, Phase⟩ Info.History.TargetStates
        ⟨if bShouldSleep then EObjectStateType.Sleeping else EObjectStateType.Dynamic, false⟩ } })
    (fun _ => rfl)
  refine List.Forall₂.imp ?_ h
  intro Old New hh
  refine ⟨hh.1, ?_⟩
  rcases hh.2 with h1 | h1
  · rw [h1]
    exact ⟨rfl, rfl, rfl, rfl, rfl, rfl, rfl, AgreeOff_refl _ _, AgreeOff_refl _ _, AgreeOff_refl _ _⟩
  · rw [h1]
    exact ⟨rfl, rfl, rfl, rfl, rfl, rfl, rfl, AgreeOff_InsertTarget _ _ _ _,
      AgreeOff_InsertTarget _ _ _ _, AgreeOff_InsertTarget _ _ _ _⟩

end FRewindData

/-! ## MarkDirtyFromPT on a particle in sync during a resim -/

namespace FRewindData

theorem RecordNonDecreasing_in_sync {T : Type} (K : FFrameAndPhase) (B : TParticlePropertyBuffer T)
    (Live : T) : RecordedIfClean K B (RecordNonDecreasing false K B Live) Live := by
  unfold RecordedIfClean RecordNonDecreasing
  cases hc : B.IsClean K with
  | false => simp
  | true =>
    simp only [Bool.false_or, if_true, Bool.true_eq_false, false_implies, true_and]
    unfold TParticlePropertyBuffer.WriteAccessNonDecreasing
    by_cases hall : (B.Buffer.all fun e => e.1.le K) = true
    · simp [hall]
    · simp [hall]

theorem RecordedIfClean_refl {T : Type} (K : FFrameAndPhase) (B : TParticlePropertyBuffer T)
    (Live : T) : RecordedIfClean K B B Live :=
  ⟨fun _ => rfl, Or.inl rfl⟩

/-- Counterexample to C16 as stated: the example coordinator is resimulating frame 12 and its
particle is in sync, with nothing recorded yet; `MarkDirtyFromPT` records the live position at
`(12, PostPushData)` into the position channel, which was empty before. -/
theorem MarkDirtyFromPT_in_sync_records :
    ExampleResimFresh.IsResim = true ∧
    (ExampleResimFresh.Solver.Particles 0).SyncState = ESyncState.InSync ∧
    ExampleResimFresh.DirtyParticles.map (fun Info => Info.History.ParticlePositionRotation.Buffer)
      = [[]] ∧
    (ExampleResimFresh.MarkDirtyFromPT 0).DirtyParticles.map
        (fun Info => Info.History.ParticlePositionRotation.Buffer)
      = [[(⟨12, .PostPushData⟩, ExampleXR 7)]] := by
  decide

/-- C16 (amended): for a call of `MarkDirtyFromPT` made while `IsResim()` holds on a particle
with `SyncState == InSync`, each of the particle's position/rotation, velocities and
dynamics-misc channels that is not clean at `(CurFrame, PostPushData)` is left unchanged; a
channel that is clean at that key is left unchanged or receives the live value at that key.
The entries of other objects are unchanged. -/
theorem MarkDirtyFromPT_in_sync (S : FRewindData) (Handle : Nat) (hr : S.IsResim = true)
    (hs : (S.Solver.Particles Handle).SyncState = ESyncState.InSync) :
    List.Forall₂ (fun Info Info1 =>
        (Info.Object ≠ Handle → Info1 = Info) ∧
        RecordedIfClean ⟨S.CurFrame, .PostPushData⟩ Info.History.ParticlePositionRotation
          Info1.History.ParticlePositionRotation (S.Solver.Particles Handle).XR ∧
        RecordedIfClean ⟨S.CurFrame, .PostPushData⟩ Info.History.Velocities
          Info1.History.Velocities (S.Solver.Particles Handle).Velocities ∧
        RecordedIfClean ⟨S.CurFrame, .PostPushData⟩ Info.History.DynamicsMisc
          Info1.History.DynamicsMisc (S.Solver.Particles Handle).DynamicsMisc)
      (FindOrAddDirtyParticle S.DirtyParticles Handle S.CurFrame INDEX_NONE).1
      (S.MarkDirtyFromPT Handle).DirtyParticles := by
  have hrec : (!S.IsResimAndInSync (S.Solver.Particles Handle).SyncState) = false := by
    simp [IsResimAndInSync, hr, hs]
  have h := Store_FindOrAdd_forall₂ S.DirtyParticles Handle S.CurFrame INDEX_NONE
    (fun Info =>
      let Latest := AddFrameParticle { Info with DirtyDynamics := S.CurFrame } S.CurFrame
      let H1 := { Latest.History with
        ParticlePositionRotation :=
          RecordNonDecreasing (!S.IsResimAndInSync (S.Solver.Particles Handle).SyncState)
            ⟨S.CurFrame, .PostPushData⟩
            Latest.History.ParticlePositionRotation (S.Solver.Particles Handle).XR }
      let H3 :=
        match (S.Solver.Particles Handle).CastToKinematicParticle with
        | some Kinematic =>
          let H2 := { H1 with
            Velocities :=
              RecordNonDecreasing (!S.IsResimAndInSync (S.Solver.Particles Handle).SyncState)
                ⟨S.CurFrame, .PostPushData⟩ H1.Velocities Kinematic.Velocities }
          match Kinematic.CastToRigidParticle with
          | some Rigid =>
            { H2 with
              DynamicsMisc :=
                RecordNonDecreasing (!S.IsResimAndInSync (S.Solver.Particles Handle).SyncState)
                  ⟨S.CurFrame, .PostPushData⟩ H2.DynamicsMisc Rigid.DynamicsMisc }
          | none => H2
        | none => H1
      { Latest with History := H3 })
    (fun _ => rfl)
  refine List.Forall₂.imp ?_ h
  intro Old New hh
  refine ⟨hh.1, ?_⟩
  rcases hh.2 with h1 | h1
  · rw [h1]
    exact ⟨RecordedIfClean_refl _ _ _, RecordedIfClean_refl _ _ _, RecordedIfClean_refl _ _ _⟩
  · rw [h1]
    simp only [AddFrameParticle, hrec]
    cases hk : (S.Solver.Particles Handle).CastToKinematicParticle with
    | none =>
      exact ⟨RecordNonDecreasing_in_sync _ _ _, RecordedIfClean_refl _ _ _,
        RecordedIfClean_refl _ _ _⟩
    | some Kinematic =>
      have hK := Cast_Kinematic _ _ hk
      subst hK
      simp only
      cases hg : (S.Solver.Particles Handle).CastToRigidParticle with
      | none =>
        exact ⟨RecordNonDecreasing_in_sync _ _ _, RecordNonDecreasing_in_sync _ _ _,
          RecordedIfClean_refl _ _ _⟩
      | some Rigid =>
        have hR := Cast_Rigid _ _ hg
        subst hR
        exact ⟨RecordNonDecreasing_in_sync _ _ _, RecordNonDecreasing_in_sync _ _ _,
          RecordNonDecreasing_in_sync _ _ _⟩

/-- Witness of C16 (amended): on the rewound example coordinator, whose position channel is not
clean at `(12, PostPushData)`, `MarkDirtyFromPT` leaves the position channel as it was. -/
theorem MarkDirtyFromPT_in_sync_witness :
    List.Forall₂ (fun Info Info1 =>
        (Info.Object ≠ 0 → Info1 = Info) ∧
        RecordedIfClean ⟨ExampleRewound.CurFrame, .PostPushData⟩ Info.History.ParticlePositionRotation
          Info1.History.ParticlePositionRotation (ExampleRewound.Solver.Particles 0).XR ∧
        RecordedIfClean ⟨ExampleRewound.CurFrame, .PostPushData⟩ Info.History.Velocities
          Info1.History.Velocities (ExampleRewound.Solver.Particles 0).Velocities ∧
        RecordedIfClean ⟨ExampleRewound.CurFrame, .PostPushData⟩ Info.History.DynamicsMisc
          Info1.History.DynamicsMisc (ExampleRewound.Solver.Particles 0).DynamicsMisc)
      (FindOrAddDirtyParticle ExampleRewound.DirtyParticles 0 ExampleRewound.CurFrame INDEX_NONE).1
      (ExampleRewound.MarkDirtyFromPT 0).DirtyParticles ∧
    (ExampleRewound.MarkDirtyFromPT 0).DirtyParticles.map
        (fun Info => Info.History.ParticlePositionRotation)
      = ExampleRewound.DirtyParticles.map (fun Info => Info.History.ParticlePositionRotation) :=
  ⟨MarkDirtyFromPT_in_sync ExampleRewound 0 (by decide) (by decide), by decide⟩

end FRewindData

/-! ## The loops of AdvanceFrameImp -/

namespace FRewindData

theorem DesyncParticleIfNecessary_skip (b : Bool) (k : Int) (Sv : FPBDRigidsSolver)
    (Info : FDirtyParticleInfo) (P : FGeometryParticleHandle) (K : FFrameAndPhase) (hk : k ≠ 0) :
    DesyncParticleIfNecessary b k Sv Info P K = (Info, P) := by
  unfold DesyncParticleIfNecessary
  split_ifs <;> rfl

theorem DesyncJointIfNecessary_skip (b : Bool) (k : Int)
    (Info : FDirtyJointInfo) (J : FPBDJointConstraintHandle) (K : FFrameAndPhase) (hk : k ≠ 0) :
    DesyncJointIfNecessary b k Info J K = (Info, J) := by
  unfold DesyncJointIfNecessary
  split_ifs <;> rfl

theorem DesyncParticleIfNecessary_Object (b : Bool) (k : Int) (Sv : FPBDRigidsSolver)
    (Info : FDirtyParticleInfo) (P : FGeometryParticleHandle) (K : FFrameAndPhase) :
    (DesyncParticleIfNecessary b k Sv Info P K).1.Object = Info.Object := by
  unfold DesyncParticleIfNecessary DesyncParticle
  split_ifs <;> rfl

theorem DesyncJointIfNecessary_Object (b : Bool) (k : Int)
    (Info : FDirtyJointInfo) (J : FPBDJointConstraintHandle) (K : FFrameAndPhase) :
    (DesyncJointIfNecessary b k Info J K).1.Object = Info.Object := by
  unfold DesyncJointIfNecessary DesyncJoint
  split_ifs <;> rfl

theorem AdvanceParticle_stale (S : FRewindData) (E : Int) (K : FFrameAndPhase) (Sv : FPBDRigidsSolver)
    (D : List Nat) (Info : FDirtyParticleInfo) (h : Info.LastDirtyFrame < E) :
    AdvanceParticle S E K Sv D Info = (none, Sv, D) := by
  simp [AdvanceParticle, h]

/-- The shape of the result of the advance loop body on an entry that stays tracked. -/
theorem AdvanceParticle_fresh (S : FRewindData) (E : Int) (K : FFrameAndPhase) (Sv : FPBDRigidsSolver)
    (D : List Nat) (Info : FDirtyParticleInfo) (h : ¬ Info.LastDirtyFrame < E) :
    ∃ I4 H3 D3, AdvanceParticle S E K Sv D Info = (some I4, Sv.SetParticle Info.Object H3, D3) ∧
      I4.Object = Info.Object ∧ (D3 = D ∨ D3 = D ++ [Info.Object]) ∧
      (S.IsResim = false ∨ S.SkipDesyncTest ≠ 0 → H3 = Sv.Particles Info.Object ∧ D3 = D) := by
  unfold AdvanceParticle
  simp only [h, if_false]
  refine ⟨_, _, _, rfl, ?_, ?_, ?_⟩
  · split_ifs <;> first
      | rfl
      | (split <;> first
          | rfl
          | simp only [AddFrameParticle, DesyncParticleIfNecessary_Object])
      | simp only [DesyncParticleIfNecessary_Object]
  · split_ifs <;> first | exact Or.inr rfl | exact Or.inl rfl
  · intro hc
    rcases hc with hc | hc
    · simp [hc]
    · simp [hc, DesyncParticleIfNecessary_skip _ _ _ _ _ _ hc]

theorem AdvanceJoint_stale (S : FRewindData) (E : Int) (K : FFrameAndPhase) (Sv : FPBDRigidsSolver)
    (Info : FDirtyJointInfo) (h : Info.LastDirtyFrame < E) :
    AdvanceJoint S E K Sv Info = (none, Sv) := by
  simp [AdvanceJoint, h]

/-- The shape of the result of the joint advance loop body on an entry that stays tracked. -/
theorem AdvanceJoint_fresh (S : FRewindData) (E : Int) (K : FFrameAndPhase) (Sv : FPBDRigidsSolver)
    (Info : FDirtyJointInfo) (h : ¬ Info.LastDirtyFrame < E) :
    ∃ I2 H3, AdvanceJoint S E K Sv Info = (some I2, Sv.SetJoint Info.Object H3) ∧
      I2.Object = Info.Object ∧
      (S.IsResim = false ∨ S.SkipDesyncTest ≠ 0 → H3 = Sv.Joints Info.Object) := by
  unfold AdvanceJoint
  simp only [h, if_false]
  refine ⟨_, _, rfl, ?_, ?_⟩
  · split_ifs <;> first | rfl | simp only [DesyncJointIfNecessary_Object]
  · intro hc
    rcases hc with hc | hc
    · simp [hc]
    · simp [hc, DesyncJointIfNecessary_skip _ _ _ _ _ hc]

theorem AdvanceParticles_cons (S : FRewindData) (E : Int) (K : FFrameAndPhase)
    (Info : FDirtyParticleInfo) (Rest : List FDirtyParticleInfo) (Sv : FPBDRigidsSolver) (D : List Nat) :
    AdvanceParticles S E K (Info :: Rest) Sv D =
      match AdvanceParticle S E K (AdvanceParticles S E K Rest Sv D).2.1
          (AdvanceParticles S E K Rest Sv D).2.2 Info with
      | (none, Sv2, D2) => ((AdvanceParticles S E K Rest Sv D).1, Sv2, D2)
      | (some Info1, Sv2, D2) => (Info1 :: (AdvanceParticles S E K Rest Sv D).1, Sv2, D2) := rfl

theorem AdvanceJoints_cons (S : FRewindData) (E : Int) (K : FFrameAndPhase)
    (Info : FDirtyJointInfo) (Rest : List FDirtyJointInfo) (Sv : FPBDRigidsSolver) :
    AdvanceJoints S E K (Info :: Rest) Sv =
      match AdvanceJoint S E K (AdvanceJoints S E K Rest Sv).2 Info with
      | (none, Sv2) => ((AdvanceJoints S E K Rest Sv).1, Sv2)
      | (some Info1, Sv2) => (Info1 :: (AdvanceJoints S E K Rest Sv).1, Sv2) := rfl

/-- The registry entries that the advance loop keeps tracking. -/
theorem filter_fresh_cons_stale {A : Type} (f : A → Int) (E : Int) (a : A) (L : List A)
    (h : f a < E) :
    (a :: L).filter (fun I => !decide (f I < E)) = L.filter (fun I => !decide (f I < E)) := by
  simp [List.filter_cons, h]

theorem filter_fresh_cons_fresh {A : Type} (f : A → Int) (E : Int) (a : A) (L : List A)
    (h : ¬ f a < E) :
    (a :: L).filter (fun I => !decide (f I < E)) = a :: L.filter (fun I => !decide (f I < E)) := by
  simp [List.filter_cons, h]

/-- What the particle advance loop does to the registry and to the solver as a whole. -/
theorem AdvanceParticles_frame (S : FRewindData) (E : Int) (K : FFrameAndPhase)
    (L : List FDirtyParticleInfo) (Sv : FPBDRigidsSolver) (D : List Nat) :
    (AdvanceParticles S E K L Sv D).1.map (fun I => I.Object) =
        (L.filter (fun I => !decide (I.LastDirtyFrame < E))).map (fun I => I.Object) ∧
      (AdvanceParticles S E K L Sv D).2.1.Evolution = Sv.Evolution ∧
      (AdvanceParticles S E K L Sv D).2.1.bNetworkPhysicsPredictionEnabled =
        Sv.bNetworkPhysicsPredictionEnabled ∧
      (AdvanceParticles S E K L Sv D).2.1.Joints = Sv.Joints ∧
      (∀ q, q ∉ L.map (fun I => I.Object) →
        (AdvanceParticles S E K L Sv D).2.1.Particles q = Sv.Particles q) ∧
      (S.IsResim = false ∨ S.SkipDesyncTest ≠ 0 →
        (AdvanceParticles S E K L Sv D).2.1.Particles = Sv.Particles ∧
        (AdvanceParticles S E K L Sv D).2.2 = D) ∧
      (∀ x ∈ D, x ∈ (AdvanceParticles S E K L Sv D).2.2) := by
  induction L with
  | nil => exact ⟨rfl, rfl, rfl, rfl, fun _ _ => rfl, fun _ => ⟨rfl, rfl⟩, fun _ hx => hx⟩
  | cons Info Rest ih =>
    obtain ⟨h1, h2, h3, h4, h5, h6, h7⟩ := ih
    rw [AdvanceParticles_cons]
    by_cases hs : Info.LastDirtyFrame < E
    · rw [AdvanceParticle_stale _ _ _ _ _ _ hs,
        filter_fresh_cons_stale (fun I : FDirtyParticleInfo => I.LastDirtyFrame) E Info Rest hs]
      refine ⟨h1, h2, h3, h4, fun q hq => h5 q ?_, h6, h7⟩
      intro hq1
      exact hq (List.mem_cons_of_mem _ hq1)
    · obtain ⟨I4, H3, D3, he, hO, hD, hc⟩ := AdvanceParticle_fresh S E K
        (AdvanceParticles S E K Rest Sv D).2.1 (AdvanceParticles S E K Rest Sv D).2.2 Info hs
      rw [he, filter_fresh_cons_fresh (fun I : FDirtyParticleInfo => I.LastDirtyFrame) E Info Rest hs]
      refine ⟨?_, h2, h3, h4, ?_, ?_, ?_⟩
      · simp only [List.map_cons, hO, h1]
      · intro q hq
        simp only [List.map_cons, List.mem_cons, not_or] at hq
        simp only [FPBDRigidsSolver.SetParticle, hq.1, if_false]
        exact h5 q hq.2
      · intro hcase
        obtain ⟨hH, hD3⟩ := hc hcase
        obtain ⟨hP, hDD⟩ := h6 hcase
        refine ⟨?_, by rw [hD3, hDD]⟩
        funext q
        simp only [FPBDRigidsSolver.SetParticle]
        split
        · rename_i hq
          rw [hH, hq]
          exact congrFun hP _
        · exact congrFun hP q
      · intro x hx
        rcases hD with hD | hD
        · rw [hD]; exact h7 x hx
        · rw [hD]; exact List.mem_append_left _ (h7 x hx)

/-- What the joint advance loop does to the registry and to the solver as a whole. -/
theorem AdvanceJoints_frame (S : FRewindData) (E : Int) (K : FFrameAndPhase)
    (L : List FDirtyJointInfo) (Sv : FPBDRigidsSolver) :
    (AdvanceJoints S E K L Sv).1.map (fun I => I.Object) =
        (L.filter (fun I => !decide (I.LastDirtyFrame < E))).map (fun I => I.Object) ∧
      (AdvanceJoints S E K L Sv).2.Particles = Sv.Particles ∧
      (S.IsResim = false ∨ S.SkipDesyncTest ≠ 0 →
        (AdvanceJoints S E K L Sv).2.Joints = Sv.Joints) := by
  induction L with
  | nil => exact ⟨rfl, rfl, fun _ => rfl⟩
  | cons Info Rest ih =>
    obtain ⟨h1, h2, h3⟩ := ih
    rw [AdvanceJoints_cons]
    by_cases hs : Info.LastDirtyFrame < E
    · rw [AdvanceJoint_stale _ _ _ _ _ hs,
        filter_fresh_cons_stale (fun I : FDirtyJointInfo => I.LastDirtyFrame) E Info Rest hs]
      exact ⟨h1, h2, h3⟩
    · obtain ⟨I2, H3, he, hO, hc⟩ := AdvanceJoint_fresh S E K (AdvanceJoints S E K Rest Sv).2 Info hs
      rw [he, filter_fresh_cons_fresh (fun I : FDirtyJointInfo => I.LastDirtyFrame) E Info Rest hs]
      refine ⟨?_, h2, ?_⟩
      · simp only [List.map_cons, hO, h1]
      · intro hcase
        have hH := hc hcase
        have hJ := h3 hcase
        funext q
        simp only [FPBDRigidsSolver.SetJoint]
        split
        · rename_i hq
          rw [hH, hq]
          exact congrFun hJ _
        · exact congrFun hJ q

end FRewindData

/-! ## AdvanceFrameImp: retirement, desync detection and the desync test switch -/

namespace FRewindData

theorem AdvanceFrameImp_parts (S : FRewindData) (Cache : Option IResimCacheBase) :
    (AdvanceFrameImp S Cache).1.FramesSaved = min (S.FramesSaved + 1) (S.ManagersCapacity - 1) ∧
    (AdvanceFrameImp S Cache).1.DirtyParticles =
      (AdvanceParticles S.Advancing (S.CurFrame - 1 - min (S.FramesSaved + 1) (S.ManagersCapacity - 1))
        ⟨S.CurFrame, .PostCallbacks⟩ S.DirtyParticles S.Solver []).1 ∧
    (AdvanceFrameImp S Cache).1.DirtyJoints =
      (AdvanceJoints S.Advancing (S.CurFrame - 1 - min (S.FramesSaved + 1) (S.ManagersCapacity - 1))
        ⟨S.CurFrame, .PostCallbacks⟩ S.DirtyJoints
        (AdvanceParticles S.Advancing (S.CurFrame - 1 - min (S.FramesSaved + 1) (S.ManagersCapacity - 1))
          ⟨S.CurFrame, .PostCallbacks⟩ S.DirtyParticles S.Solver []).2.1).1 ∧
    (AdvanceFrameImp S Cache).1.Solver =
      (AdvanceJoints S.Advancing (S.CurFrame - 1 - min (S.FramesSaved + 1) (S.ManagersCapacity - 1))
        ⟨S.CurFrame, .PostCallbacks⟩ S.DirtyJoints
        (AdvanceParticles S.Advancing (S.CurFrame - 1 - min (S.FramesSaved + 1) (S.ManagersCapacity - 1))
          ⟨S.CurFrame, .PostCallbacks⟩ S.DirtyParticles S.Solver []).2.1).2 ∧
    (AdvanceFrameImp S Cache).2 =
      (match Cache with
      | some c =>
        if S.IsResim then
          some (IResimCacheBase.mk
            (AdvanceParticles S.Advancing
              (S.CurFrame - 1 - min (S.FramesSaved + 1) (S.ManagersCapacity - 1))
              ⟨S.CurFrame, .PostCallbacks⟩ S.DirtyParticles S.Solver []).2.2)
        else some c
      | none => none) := by
  refine ⟨rfl, rfl, rfl, rfl, ?_⟩
  cases Cache with
  | none => rfl
  | some c => rfl

theorem Advancing_IsResim (S : FRewindData) : S.Advancing.IsResim = S.IsResim := rfl

theorem Advancing_SkipDesyncTest (S : FRewindData) : S.Advancing.SkipDesyncTest = S.SkipDesyncTest := rfl

end FRewindData

/-! ## The desync test switch -/

namespace FRewindData

theorem FinishParticle_skip_sync (M : FQuatMath) (S : FRewindData) (hk : S.SkipDesyncTest ≠ 0)
    (K : FFrameAndPhase) (Reg : List FDirtyParticleInfo) (Sv : FPBDRigidsSolver)
    (Er : List FDirtyParticleErrorInfo) (Info : FDirtyParticleInfo) (q : Nat)
    (h : (Sv.Particles q).SyncState = ESyncState.InSync) :
    ((FinishParticle M S K Reg Sv Er Info).2.1.Particles q).SyncState = ESyncState.InSync ∧
    (FinishParticle M S K Reg Sv Er Info).2.1.Joints = Sv.Joints := by
  unfold FinishParticle
  simp only [DesyncParticleIfNecessary_skip _ _ _ _ _ _ hk]
  split_ifs
  · exact ⟨h, rfl⟩
  · refine ⟨?_, rfl⟩
    simp only [FPBDRigidsSolver.SetParticle]
    split_ifs
    · rfl
    · exact h
  · refine ⟨?_, rfl⟩
    simp only [FPBDRigidsSolver.SetParticle]
    split_ifs with hq
    · rw [← hq]; exact h
    · exact h
  · exact ⟨h, rfl⟩

theorem FinishParticles_skip_sync (M : FQuatMath) (S : FRewindData) (hk : S.SkipDesyncTest ≠ 0)
    (K : FFrameAndPhase) (Todo : List FDirtyParticleInfo) :
    ∀ (Done : List FDirtyParticleInfo) (Sv : FPBDRigidsSolver) (Er : List FDirtyParticleErrorInfo),
      (∀ q, (Sv.Particles q).SyncState = ESyncState.InSync →
        ((FinishParticles M S K Done Todo Sv Er).2.1.Particles q).SyncState = ESyncState.InSync) ∧
      (FinishParticles M S K Done Todo Sv Er).2.1.Joints = Sv.Joints := by
  induction Todo with
  | nil => intro Done Sv Er; exact ⟨fun _ h => h, rfl⟩
  | cons Info Rest ih =>
    intro Done Sv Er
    rw [FinishParticles_cons]
    obtain ⟨h1, h2⟩ := ih (Done ++ [(FinishParticle M S K (Done ++ Info :: Rest) Sv Er Info).1])
      (FinishParticle M S K (Done ++ Info :: Rest) Sv Er Info).2.1
      (FinishParticle M S K (Done ++ Info :: Rest) Sv Er Info).2.2
    refine ⟨fun q h => h1 q (FinishParticle_skip_sync M S hk K _ Sv Er Info q h).1, ?_⟩
    rw [h2]
    exact (FinishParticle_frame M S K _ Sv Er Info).2

theorem FinishJoint_skip_sync (S : FRewindData) (hk : S.SkipDesyncTest ≠ 0)
    (K : FFrameAndPhase) (Sv : FPBDRigidsSolver) (Info : FDirtyJointInfo) (q : Nat)
    (h : (Sv.Joints q).SyncState = ESyncState.InSync) :
    ((FinishJoint S K Sv Info).2.Joints q).SyncState = ESyncState.InSync := by
  unfold FinishJoint
  simp only [DesyncJointIfNecessary_skip _ _ _ _ _ hk]
  split_ifs
  · exact h
  · simp only [FPBDRigidsSolver.SetJoint]
    split_ifs
    · rfl
    · exact h
  · simp only [FPBDRigidsSolver.SetJoint]
    split_ifs with hq
    · rw [← hq]; exact h
    · exact h
  · exact h

theorem FinishJoints_skip_sync (S : FRewindData) (hk : S.SkipDesyncTest ≠ 0)
    (K : FFrameAndPhase) (L : List FDirtyJointInfo) :
    ∀ Sv : FPBDRigidsSolver,
      (∀ q, (Sv.Joints q).SyncState = ESyncState.InSync →
        ((FinishJoints S K L Sv).2.Joints q).SyncState = ESyncState.InSync) ∧
      (FinishJoints S K L Sv).2.Particles = Sv.Particles := by
  induction L with
  | nil => intro Sv; exact ⟨fun _ h => h, rfl⟩
  | cons Info Rest ih =>
    intro Sv
    rw [FinishJoints_cons]
    obtain ⟨h1, h2⟩ := ih (FinishJoint S K Sv Info).2
    refine ⟨fun q h => h1 q (FinishJoint_skip_sync S hk K Sv Info q h), ?_⟩
    simp only
    rw [h2]
    exact (FinishJoint_frame S K Sv Info).2

/-- C20: when the `SkipDesyncTest` toggle is non-zero, `DesyncIfNecessary` returns the registry
entry (with its history) and the live object (with its sync state) as they were, whatever the
history comparison says; `AdvanceFrameImp` then leaves every live particle and joint as it was
and hands the resim cache an empty list of desynced particles (when resimulating; otherwise the
cache is not touched); and every particle and joint that is InSync before `FinishFrame` is
InSync after it. -/
theorem SkipDesyncTest_skips (M : FQuatMath) (S : FRewindData) (Cache : Option IResimCacheBase)
    (hk : S.SkipDesyncTest ≠ 0) :
    (∀ (b : Bool) (Sv : FPBDRigidsSolver) (Info : FDirtyParticleInfo) (P : FGeometryParticleHandle)
      (K : FFrameAndPhase), DesyncParticleIfNecessary b S.SkipDesyncTest Sv Info P K = (Info, P)) ∧
    (∀ (b : Bool) (Info : FDirtyJointInfo) (J : FPBDJointConstraintHandle) (K : FFrameAndPhase),
      DesyncJointIfNecessary b S.SkipDesyncTest Info J K = (Info, J)) ∧
    (AdvanceFrameImp S Cache).1.Solver.Particles = S.Solver.Particles ∧
    (AdvanceFrameImp S Cache).1.Solver.Joints = S.Solver.Joints ∧
    (AdvanceFrameImp S Cache).2 =
      (if S.IsResim then Cache.map (fun _ => IResimCacheBase.mk []) else Cache) ∧
    (∀ q, (S.Solver.Particles q).SyncState = ESyncState.InSync →
      ((FinishFrame M S).Solver.Particles q).SyncState = ESyncState.InSync) ∧
    (∀ q, (S.Solver.Joints q).SyncState = ESyncState.InSync →
      ((FinishFrame M S).Solver.Joints q).SyncState = ESyncState.InSync) := by
  obtain ⟨_, _, _, hSv, hC⟩ := AdvanceFrameImp_parts S Cache
  obtain ⟨_, _, _, hJ0, _, hskip, _⟩ := AdvanceParticles_frame S.Advancing
    (S.CurFrame - 1 - min (S.FramesSaved + 1) (S.ManagersCapacity - 1))
    ⟨S.CurFrame, .PostCallbacks⟩ S.DirtyParticles S.Solver []
  obtain ⟨hP1, hD1⟩ := hskip (Or.inr hk)
  obtain ⟨_, hP2, hJ2⟩ := AdvanceJoints_frame S.Advancing
    (S.CurFrame - 1 - min (S.FramesSaved + 1) (S.ManagersCapacity - 1))
    ⟨S.CurFrame, .PostCallbacks⟩ S.DirtyJoints
    (AdvanceParticles S.Advancing (S.CurFrame - 1 - min (S.FramesSaved + 1) (S.ManagersCapacity - 1))
      ⟨S.CurFrame, .PostCallbacks⟩ S.DirtyParticles S.Solver []).2.1
  have hFin : (∀ q, (S.Solver.Particles q).SyncState = ESyncState.InSync →
        ((FinishFrame M S).Solver.Particles q).SyncState = ESyncState.InSync) ∧
      (∀ q, (S.Solver.Joints q).SyncState = ESyncState.InSync →
        ((FinishFrame M S).Solver.Joints q).SyncState = ESyncState.InSync) := by
    cases hr : S.IsResim with
    | false =>
      have hS : (FinishFrame M S).Solver = S.Solver := by
        simp [FinishFrame, hr]
      rw [hS]
      exact ⟨fun _ h => h, fun _ h => h⟩
    | true =>
      rw [(FinishFrame_resim_parts M S hr).2.2]
      obtain ⟨a1, a2⟩ := FinishParticles_skip_sync M S hk ⟨S.CurFrame + 1, .PrePushData⟩
        S.DirtyParticles [] S.Solver S.DirtyParticleErrors
      obtain ⟨b1, b2⟩ := FinishJoints_skip_sync S hk ⟨S.CurFrame + 1, .PrePushData⟩ S.DirtyJoints
        (FinishParticles M S ⟨S.CurFrame + 1, .PrePushData⟩ [] S.DirtyParticles S.Solver
          S.DirtyParticleErrors).2.1
      refine ⟨fun q h => ?_, fun q h => b1 q ?_⟩
      · rw [b2]
        exact a1 q h
      · rw [a2]
        exact h
  refine ⟨fun b Sv Info P K => DesyncParticleIfNecessary_skip b _ Sv Info P K hk,
    fun b Info J K => DesyncJointIfNecessary_skip b _ Info J K hk, ?_, ?_, ?_, hFin.1, hFin.2⟩
  · rw [hSv, hP2, hP1]
  · rw [hSv, hJ2 (Or.inr hk), hJ0]
  · rw [hC, hD1]
    cases Cache with
    | none => simp
    | some c => simp

/-- The example coordinator resimulating frame 12 with the desync test switched off: its
particle diverges from its history, yet `AdvanceFrameImp` and `FinishFrame` leave it in sync and
the resim cache is handed no desynced particle. -/
theorem SkipDesyncTest_skips_witness :
    ({ ExampleResimDiverged with SkipDesyncTest := 1 } : FRewindData).SkipDesyncTest ≠ 0 ∧
    ParticleIsInSync false ExampleResimDiverged.Solver
      { EmptyHistory with Velocities := ⟨[(⟨12, .PostCallbacks⟩, ⟨⟨3, 0, 0⟩, ⟨0, 0, 0⟩⟩)]⟩ }
      0 ExampleParticle ⟨12, .PostCallbacks⟩ = false ∧
    (({ ExampleResimDiverged with SkipDesyncTest := 1 } : FRewindData).AdvanceFrameImp
        (some ⟨[5]⟩)).1.Solver.Particles = ExampleSolver.Particles ∧
    (({ ExampleResimDiverged with SkipDesyncTest := 1 } : FRewindData).AdvanceFrameImp
        (some ⟨[5]⟩)).2 = some ⟨[]⟩ ∧
    ((FinishFrame ExampleQuatMath
        ({ ExampleResimDiverged with SkipDesyncTest := 1 } : FRewindData)).Solver.Particles 0).SyncState
      = ESyncState.InSync :=
  have h := SkipDesyncTest_skips ExampleQuatMath
    ({ ExampleResimDiverged with SkipDesyncTest := 1 } : FRewindData) (some ⟨[5]⟩) (by decide)
  ⟨by decide, by decide, h.2.2.1, h.2.2.2.2.1, h.2.2.2.2.2.1 0 rfl⟩

end FRewindData

/-! ## Desync detection in AdvanceFrameImp -/

namespace FRewindData

end FRewindData

/-! ## ApplyTargets -/

namespace FRewindData

theorem TargetToApply_dirty {T : Type} (K : FFrameAndPhase) (B : TParticlePropertyBuffer T)
    (hc : B.IsClean K = false) :
    ∃ v, B.Read K = some v ∧ TargetToApply K false B = some (some v) := by
  obtain ⟨v, hv⟩ := TParticlePropertyBuffer.Read_isSome_of_not_IsClean B K hc
  exact ⟨v, hv, by simp [TargetToApply, hc, hv]⟩

theorem TargetToApply_clean {T : Type} (K : FFrameAndPhase) (B : TParticlePropertyBuffer T)
    (hc : B.IsClean K = true) : TargetToApply K false B = some none := by
  simp [TargetToApply, hc]

theorem TargetToApply_false {T : Type} (K : FFrameAndPhase) (B : TParticlePropertyBuffer T) :
    ∃ r, TargetToApply K false B = some r ∧
      ((B.IsClean K = true ∧ r = none ∧ B.Read K = none) ∨
        (B.IsClean K = false ∧ ∃ v, r = some v ∧ B.Read K = some v)) := by
  cases hc : B.IsClean K with
  | true =>
    exact ⟨none, TargetToApply_clean K B hc,
      Or.inl ⟨rfl, rfl, (TParticlePropertyBuffer.IsClean_iff_Read_none B K).1 hc⟩⟩
  | false =>
    obtain ⟨v, hv, h⟩ := TargetToApply_dirty K B hc
    exact ⟨some v, h, Or.inr ⟨rfl, v, rfl, hv⟩⟩

theorem TargetToApply_follower {T : Type} (K : FFrameAndPhase) (B : TParticlePropertyBuffer T) :
    TargetToApply K true B = some none := by
  simp [TargetToApply]

/-- The lambda passed for `TargetStates` stores the target flags and touches neither the
transform nor the velocities. -/
theorem ApplyTargetState_props (E : FPBDRigidsEvolution) (p : Nat) (P : FGeometryParticleHandle)
    (Data : FParticleDynamicMisc) :
    (ApplyTargetState E p P Data).2.XR = P.XR ∧
    (ApplyTargetState E p P Data).2.Velocities = P.Velocities ∧
    (ApplyTargetState E p P Data).2.DynamicsMisc.Disabled = Data.Disabled ∧
    (ApplyTargetState E p P Data).2.DynamicsMisc.ObjectState = Data.ObjectState := by
  unfold ApplyTargetState
  simp only
  split_ifs <;>
  simp [FGeometryParticleHandle.SetDisabled, FGeometryParticleHandle.SetResimType,
    FGeometryParticleHandle.SetInertiaConditioningDirty, FPBDRigidsEvolution.SetParticleObjectState,
    FPBDRigidsEvolution.DisableParticle, FPBDRigidsEvolution.EnableParticle,
    FGeometryParticleHandle.Disabled, FGeometryParticleHandle.ObjectState]

/-- One iteration of the particle loop of `ApplyTargets` succeeds unless it has target
velocities to apply to a particle that is not kinematic, and then establishes the
post-condition for its particle and leaves the other particles alone. -/
theorem ApplyTargetsParticle_spec (Frame : Int) (Sv : FPBDRigidsSolver) (Info : FDirtyParticleInfo)
    (hcast : Info.bResimAsFollower = false →
      Info.History.TargetVelocities.IsClean ⟨Frame, .PostPushData⟩ = false →
      (Sv.Particles Info.Object).ParticleType ≠ EParticleType.Static) :
    ∃ Sv1, ApplyTargetsParticle Frame Sv Info = some Sv1 ∧
      TargetsApplied ⟨Frame, .PostPushData⟩ Info Sv.Evolution.isSome (Sv.Particles Info.Object)
        (Sv1.Particles Info.Object) ∧
      (∀ q, q ≠ Info.Object → Sv1.Particles q = Sv.Particles q) ∧
      Sv1.Evolution.isSome = Sv.Evolution.isSome := by
  cases hf : Info.bResimAsFollower with
  | true =>
    refine ⟨Sv.SetParticle Info.Object (Sv.Particles Info.Object), ?_, ?_, ?_, rfl⟩
    · simp [ApplyTargetsParticle, hf, TargetToApply_follower]
    · simp [TargetsApplied, hf, FPBDRigidsSolver.SetParticle]
    · intro q hq
      simp [FPBDRigidsSolver.SetParticle, hq]
  | false =>
    have hcast1 := hcast hf
    obtain ⟨rX, hX, hXc⟩ := TargetToApply_false ⟨Frame, .PostPushData⟩ Info.History.TargetPositions
    obtain ⟨rV, hV, hVc⟩ := TargetToApply_false ⟨Frame, .PostPushData⟩ Info.History.TargetVelocities
    obtain ⟨rS, hS, hSc⟩ := TargetToApply_false ⟨Frame, .PostPushData⟩ Info.History.TargetStates
    rcases hXc with ⟨cX, rfl, hx⟩ | ⟨cX, x, rfl, hx⟩ <;>
    rcases hVc with ⟨cV, rfl, hv⟩ | ⟨cV, v, rfl, hv⟩ <;>
    rcases hSc with ⟨cS, rfl, hs⟩ | ⟨cS, s, rfl, hs⟩ <;>
    cases ht : (Sv.Particles Info.Object).ParticleType <;>
    cases he : Sv.Evolution <;>
    first
    | exact absurd ht (hcast1 cV)
    | (simp only [ApplyTargetsParticle, hf, hX, hV, hS, FGeometryParticleHandle.CastToKinematicParticle,
        FGeometryParticleHandle.CastToRigidParticle, FGeometryParticleHandle.SetXR,
        FGeometryParticleHandle.SetVelocities, ht, he]
       refine ⟨_, rfl, ?_, ?_, ?_⟩
       · simp [TargetsApplied, hf, cX, cV, cS, hx, hv, hs, ht, FPBDRigidsSolver.SetParticle,
           FGeometryParticleHandle.Disabled, FGeometryParticleHandle.ObjectState,
           ApplyTargetState_props]
       · intro q hq
         simp [FPBDRigidsSolver.SetParticle, hq]
       · simp [FPBDRigidsSolver.SetParticle, he])

/-- The particle loop of `ApplyTargets` over a registry that points to distinct particles. -/
theorem ApplyTargetsParticles_spec (Frame : Int) (L : List FDirtyParticleInfo) :
    ∀ Sv : FPBDRigidsSolver,
      (L.map (fun I => I.Object)).Nodup →
      (∀ Info ∈ L, Info.bResimAsFollower = false →
        Info.History.TargetVelocities.IsClean ⟨Frame, .PostPushData⟩ = false →
        (Sv.Particles Info.Object).ParticleType ≠ EParticleType.Static) →
      ∃ Sv1, ApplyTargetsParticles Frame Sv L = some Sv1 ∧
        (∀ Info ∈ L, TargetsApplied ⟨Frame, .PostPushData⟩ Info Sv.Evolution.isSome
          (Sv.Particles Info.Object) (Sv1.Particles Info.Object)) ∧
        (∀ q, q ∉ L.map (fun I => I.Object) → Sv1.Particles q = Sv.Particles q) ∧
        Sv1.Evolution.isSome = Sv.Evolution.isSome := by
  induction L with
  | nil =>
    intro Sv _ _
    exact ⟨Sv, rfl, fun _ h => absurd h (List.not_mem_nil _), fun _ _ => rfl, rfl⟩
  | cons Head Rest ih =>
    intro Sv hnd hcast
    simp only [List.map_cons, List.nodup_cons] at hnd
    obtain ⟨Sv1, h1, hT, hfr, hev⟩ := ApplyTargetsParticle_spec Frame Sv Head
      (hcast Head (List.mem_cons_self _ _))
    have hne : ∀ I ∈ Rest, I.Object ≠ Head.Object := by
      intro I hI heq
      exact hnd.1 (by rw [← heq]; exact List.mem_map_of_mem _ hI)
    obtain ⟨Sv2, h2, hT2, hfr2, hev2⟩ := ih Sv1 hnd.2 (by
      intro I hI hf hc
      rw [hfr _ (hne I hI)]
      exact hcast I (List.mem_cons_of_mem _ hI) hf hc)
    refine ⟨Sv2, by simp only [ApplyTargetsParticles, h1, h2], ?_, ?_, by rw [hev2, hev]⟩
    · intro I hI
      rcases List.mem_cons.1 hI with hI | hI
      · subst hI
        rw [hfr2 _ hnd.1]
        exact hT
      · have := hT2 I hI
        rw [hev, hfr _ (hne I hI)] at this
        exact this
    · intro q hq
      simp only [List.map_cons, List.mem_cons, not_or] at hq
      rw [hfr2 q hq.2, hfr q hq.1]

/-- Counterexample to C18 as stated: a kinematic particle for which a target state was pushed
for frame 12 is tracked, is not a follower, and its `TargetStates` channel is not clean at
`(12, PostPushData)`, where it reads the object state `Dynamic`.  `ApplyTargets(12)` applies the
target position and velocity, but the live object state is still `Kinematic`. -/
theorem ApplyTargets_kinematic_state_kept :
    ExampleStateKinematicTarget.DirtyParticles.map
      (fun I => (I.Object, I.bResimAsFollower, I.History.TargetStates.IsClean ⟨12, .PostPushData⟩,
        (I.History.TargetStates.Read ⟨12, .PostPushData⟩).map (fun Data => Data.ObjectState))) =
      [(0, false, false, some EObjectStateType.Dynamic)] ∧
    (ExampleStateKinematicTarget.ApplyTargets 12 false).map
      (fun S1 => ((S1.Solver.Particles 0).XR, (S1.Solver.Particles 0).Velocities,
        (S1.Solver.Particles 0).ObjectState)) =
      some (⟨⟨9, 0, 0⟩, ⟨0, 0, 0, 1⟩⟩, ⟨⟨2, 0, 0⟩, ⟨0, 0, 0⟩⟩, EObjectStateType.Kinematic) := by
  refine ⟨by decide, by decide⟩

/-- C18 (amended): `ApplyTargets(Frame)` runs to completion when no tracked non-follower
particle with recorded target velocities is static, and then for every tracked particle with
`bResimAsFollower == false`: if `TargetPositions` is not clean at `(Frame, PostPushData)` the
live position and rotation equal the value it reads there; if `TargetVelocities` is not clean
the live velocities equal the value it reads; if `TargetStates` is not clean, the particle is
rigid and the solver has an evolution, the live Disabled flag and object state equal the value
it reads.  For a follower, or a clean channel, the corresponding live property is unchanged,
and so are the Disabled flag and object state of a particle that is not rigid or whose solver
has no evolution.  The registry entries point to distinct particles. -/
theorem ApplyTargets_applies (S : FRewindData) (Frame : Int) (bResetSimulation : Bool)
    (hnd : (S.DirtyParticles.map (fun I => I.Object)).Nodup)
    (hcast : ∀ Info ∈ S.DirtyParticles, Info.bResimAsFollower = false →
      Info.History.TargetVelocities.IsClean ⟨Frame, .PostPushData⟩ = false →
      (S.Solver.Particles Info.Object).ParticleType ≠ EParticleType.Static) :
    ∃ S1, ApplyTargets S Frame bResetSimulation = some S1 ∧
      ∀ Info ∈ S.DirtyParticles,
        TargetsApplied ⟨Frame, .PostPushData⟩ Info S.Solver.Evolution.isSome
          (S.Solver.Particles Info.Object) (S1.Solver.Particles Info.Object) := by
  have h1 : (S.RewindStates Frame bResetSimulation).Solver = S.Solver := rfl
  have h2 : (S.RewindStates Frame bResetSimulation).DirtyParticles = S.DirtyParticles := rfl
  obtain ⟨Sv1, hrun, hT, _, _⟩ := ApplyTargetsParticles_spec Frame S.DirtyParticles S.Solver hnd hcast
  refine ⟨{ S.RewindStates Frame bResetSimulation with Solver := Sv1 }, ?_, hT⟩
  unfold ApplyTargets
  simp only [h1, h2, hrun]

/-- The targets recorded for frame 12 applied to the rigid example particle: position
`(9, 0, 0)`, velocity `(2, 0, 0)`, enabled and sleeping. -/
theorem ApplyTargets_applies_witness :
    ((ExampleStateTargets.DirtyParticles.map (fun I => I.Object)).Nodup ∧
      ExampleStateTargets.DirtyParticles.map (fun I =>
        (I.bResimAsFollower, I.History.TargetPositions.Read ⟨12, .PostPushData⟩,
          I.History.TargetVelocities.Read ⟨12, .PostPushData⟩,
          I.History.TargetStates.Read ⟨12, .PostPushData⟩)) =
        [(false, some (ExampleXR 9), some ⟨⟨2, 0, 0⟩, ⟨0, 0, 0⟩⟩, some ⟨.Sleeping, false⟩)]) ∧
    (∃ S1, ApplyTargets ExampleStateTargets 12 false = some S1 ∧
      ∀ Info ∈ ExampleStateTargets.DirtyParticles,
        TargetsApplied ⟨12, .PostPushData⟩ Info ExampleStateTargets.Solver.Evolution.isSome
          (ExampleStateTargets.Solver.Particles Info.Object) (S1.Solver.Particles Info.Object)) ∧
    (ExampleStateTargets.ApplyTargets 12 false).map
      (fun S1 => ((S1.Solver.Particles 0).XR, (S1.Solver.Particles 0).Velocities,
        (S1.Solver.Particles 0).Disabled, (S1.Solver.Particles 0).ObjectState)) =
      some (ExampleXR 9, ⟨⟨2, 0, 0⟩, ⟨0, 0, 0⟩⟩, false, EObjectStateType.Sleeping) :=
  ⟨⟨by decide, by decide⟩,
    ApplyTargets_applies ExampleStateTargets 12 false (by decide) (by decide), by decide⟩

end FRewindData

/-! ## FindValidResimFrame -/

namespace FRewindData

theorem HasTargetHistory_iff (F : Int) (L : List FDirtyParticleInfo) :
    HasTargetHistory F L = true ↔ ∀ Info ∈ L, LacksTargetHistory Info F = false := by
  induction L with
  | nil => simp [HasTargetHistory]
  | cons Info Rest ih =>
    unfold HasTargetHistory
    cases h : LacksTargetHistory Info F with
    | true => simp [h]
    | false => simp [h, ih]

/-- On histories whose weak pointers are valid the loop dereferences no null pointer and ends
with `bHasTargetHistory` set exactly when every history has valid data for the frame. -/
theorem HistoriesHaveValidDatas_alive (F : Int) (L : List FBaseRewindHistory)
    (halive : ∀ History ∈ L, History.bValid = true) :
    ∃ b, HistoriesHaveValidDatas F L = some b ∧
      (b = true ↔ ∀ History ∈ L, History.HasValidDatas F = true) := by
  induction L with
  | nil => exact ⟨true, rfl, by simp⟩
  | cons History Rest ih =>
    have hv := halive History (List.mem_cons_self _ _)
    obtain ⟨b, hb, hiff⟩ := ih (fun H hH => halive H (List.mem_cons_of_mem _ hH))
    unfold HistoriesHaveValidDatas
    cases hd : History.HasValidDatas F with
    | false => exact ⟨false, by simp [hv], by simp [hd]⟩
    | true => exact ⟨b, by simp [hv, hb], by simp [hd, hiff]⟩

/-- The check of the particle loop of `FindValidResimFrame` against the claim's words: an entry
breaks the loop exactly when the particle has no valid target history for the frame. -/
theorem LacksTargetHistory_iff (Info : FDirtyParticleInfo) (F : Int) :
    LacksTargetHistory Info F = false ↔ Info.HasValidTargetHistory F = true := by
  have hc : ∀ {T : Type} (B : TParticlePropertyBuffer T) (K : FFrameAndPhase),
      B.IsClean K = !(B.Read K).isSome := by
    intro T B K
    cases h : B.Read K with
    | none => simpa using (TParticlePropertyBuffer.IsClean_iff_Read_none B K).2 h
    | some v =>
      cases hcl : B.IsClean K with
      | false => rfl
      | true =>
        rw [(TParticlePropertyBuffer.IsClean_iff_Read_none B K).1 hcl] at h
        cases h
  unfold LacksTargetHistory FDirtyParticleInfo.HasValidTargetHistory
  simp only [hc]
  cases hm : Info.History.DynamicsMisc.Read ⟨F, .PostPushData⟩ with
  | none => simp
  | some Misc =>
    cases hd : Misc.Disabled <;>
    cases ho : Misc.ObjectState <;>
    cases hp : Info.History.TargetPositions.IsEmpty <;>
    cases hv : Info.History.TargetVelocities.IsEmpty <;>
    cases hs : Info.History.TargetStates.IsEmpty <;>
    cases hf : Info.bResimAsFollower <;>
    cases (Info.History.TargetPositions.Read ⟨F, .PostPushData⟩).isSome <;>
    cases (Info.History.TargetVelocities.Read ⟨F, .PostPushData⟩).isSome <;>
    cases (Info.History.TargetStates.Read ⟨F, .PostPushData⟩).isSome <;>
    simp [hd, ho, hp, hv, hs, hf]

theorem IsValidResimFrame_alive (S : FRewindData) (halive : S.HistoriesAlive) (F : Int) :
    ∃ b, IsValidResimFrame S F = some b ∧ (b = true ↔ S.FullyValidFrame F) := by
  obtain ⟨bi, hbi, hii⟩ := HistoriesHaveValidDatas_alive F S.InputsHistories halive.1
  obtain ⟨bs, hbs, his⟩ := HistoriesHaveValidDatas_alive F S.StatesHistories halive.2
  have hfull : S.FullyValidFrame F ↔
      ((∀ Info ∈ S.DirtyParticles, LacksTargetHistory Info F = false) ∧
        (∀ History ∈ S.InputsHistories, History.HasValidDatas F = true) ∧
        (∀ History ∈ S.StatesHistories, History.HasValidDatas F = true)) := by
    unfold FullyValidFrame
    constructor
    · intro h
      exact ⟨fun I hI => (LacksTargetHistory_iff I F).2 (h.1 I hI),
        fun H hH => h.2.1 H hH (halive.1 H hH), fun H hH => h.2.2 H hH (halive.2 H hH)⟩
    · intro h
      exact ⟨fun I hI => (LacksTargetHistory_iff I F).1 (h.1 I hI),
        fun H hH _ => h.2.1 H hH, fun H hH _ => h.2.2 H hH⟩
  unfold IsValidResimFrame
  rw [hfull, ← HasTargetHistory_iff, ← hii, ← his]
  cases ht : HasTargetHistory F S.DirtyParticles with
  | false => exact ⟨false, by simp, by simp⟩
  | true =>
    cases bi with
    | false => exact ⟨false, by simp [hbi], by simp⟩
    | true => exact ⟨bs, by simp [hbi, hbs], by simp⟩

/-- The frame loop, run with enough fuel on live histories, is left either at the greatest
fully valid frame between `EarliestFrame` and its start, or, when there is none, one frame
below `EarliestFrame` (at its start, if that is lower still). -/
theorem FindValidResimLoop_spec (S : FRewindData) (halive : S.HistoriesAlive) (E : Int) (n : Nat) :
    ∀ V : Int, V - E + 1 ≤ (n : Int) →
      ∃ G, FindValidResimLoop S E n V = some G ∧
        ((E ≤ G ∧ G ≤ V ∧ S.FullyValidFrame G ∧ ∀ F, G < F → F ≤ V → ¬ S.FullyValidFrame F) ∨
          (G = min V (E - 1) ∧ ∀ F, E ≤ F → F ≤ V → ¬ S.FullyValidFrame F)) := by
  induction n with
  | zero =>
    intro V hV
    refine ⟨V, rfl, Or.inr ⟨?_, ?_⟩⟩
    · rw [min_eq_left]; omega
    · intro F h1 h2; omega
  | succ n ih =>
    intro V hV
    unfold FindValidResimLoop
    by_cases hge : V ≥ E
    · simp only [hge, if_true]
      obtain ⟨b, hb, hiff⟩ := IsValidResimFrame_alive S halive V
      rw [hb]
      cases b with
      | true =>
        exact ⟨V, rfl, Or.inl ⟨hge, le_refl _, hiff.1 rfl, fun F h1 h2 => by omega⟩⟩
      | false =>
        have hnv : ¬ S.FullyValidFrame V := fun h => by
          have := hiff.2 h
          cases this
        obtain ⟨G, hG, hcase⟩ := ih (V - 1) (by push_cast at hV ⊢; omega)
        refine ⟨G, hG, ?_⟩
        rcases hcase with ⟨h1, h2, h3, h4⟩ | ⟨h1, h2⟩
        · refine Or.inl ⟨h1, by omega, h3, ?_⟩
          intro F hF1 hF2
          by_cases hFV : F = V
          · rw [hFV]; exact hnv
          · exact h4 F hF1 (by omega)
        · refine Or.inr ⟨?_, ?_⟩
          · rw [h1, min_eq_right (by omega), min_eq_right (by omega)]
          · intro F hF1 hF2
            by_cases hFV : F = V
            · rw [hFV]; exact hnv
            · exact h2 F hF1 (by omega)
    · simp only [hge, if_false]
      refine ⟨V, rfl, Or.inr ⟨?_, ?_⟩⟩
      · rw [min_eq_left]; omega
      · intro F h1 h2; omega

/-- The search on live histories: for every `RequestedFrame > 0`, on a coordinator whose inputs
and states histories are all alive, if some frame `F` with
`max(earliest retained frame, 0) <= F <= RequestedFrame` has valid target history for every
tracked particle and valid data in every inputs history and every states history, then
`FindValidResimFrame(RequestedFrame)` returns the greatest such frame. -/
theorem FindValidResimFrame_greatest (S : FRewindData) (RequestedFrame F : Int)
    (hreq : RequestedFrame > 0) (halive : S.HistoriesAlive)
    (hlo : max S.GetEarliestFrame_Internal 0 ≤ F) (hhi : F ≤ RequestedFrame)
    (hvalid : S.FullyValidFrame F) :
    ∃ G, S.FindValidResimFrame RequestedFrame = some G ∧
      max S.GetEarliestFrame_Internal 0 ≤ G ∧ F ≤ G ∧ G ≤ RequestedFrame ∧ S.FullyValidFrame G ∧
      ∀ F1, max S.GetEarliestFrame_Internal 0 ≤ F1 → F1 ≤ RequestedFrame →
        S.FullyValidFrame F1 → F1 ≤ G := by
  obtain ⟨G, hG, hcase⟩ := FindValidResimLoop_spec S halive (max S.GetEarliestFrame_Internal 0)
    (RequestedFrame - max S.GetEarliestFrame_Internal 0 + 1).toNat RequestedFrame
    (by rw [Int.toNat_of_nonneg (by omega)])
  refine ⟨G, by simp only [FindValidResimFrame, hreq, if_true, hG], ?_⟩
  rcases hcase with ⟨h1, h2, h3, h4⟩ | ⟨_, h2⟩
  · refine ⟨h1, ?_, h2, h3, ?_⟩
    · by_contra hlt
      exact h4 F (by omega) hhi hvalid
    · intro F1 _ hF1 hv1
      by_contra hlt
      exact h4 F1 (by omega) hF1 hv1
  · exact absurd hvalid (h2 F hlo hhi)

/-- The search on the example coordinator with targets recorded on frame 12, an inputs history
valid from frame 10 on and a states history valid up to frame 11: requested frame 18 gives
frame 10.  Frame 11 has valid inputs and states data but the particle, enabled and dynamic on
that frame, has no target recorded at or before it. -/
theorem FindValidResimFrame_greatest_example :
    ((18 : Int) > 0 ∧ ExampleStateTargetHistories.HistoriesAlive ∧
      max ExampleStateTargetHistories.GetEarliestFrame_Internal 0 ≤ 10 ∧ (10 : Int) ≤ 18 ∧
      ExampleStateTargetHistories.FullyValidFrame 10) ∧
    (∃ G, ExampleStateTargetHistories.FindValidResimFrame 18 = some G ∧
      max ExampleStateTargetHistories.GetEarliestFrame_Internal 0 ≤ G ∧ 10 ≤ G ∧ G ≤ 18 ∧
      ExampleStateTargetHistories.FullyValidFrame G ∧
      ∀ F1, max ExampleStateTargetHistories.GetEarliestFrame_Internal 0 ≤ F1 → F1 ≤ 18 →
        ExampleStateTargetHistories.FullyValidFrame F1 → F1 ≤ G) ∧
    ExampleStateTargetHistories.FindValidResimFrame 18 = some 10 ∧
    ExampleStateTargetHistories.DirtyParticles.map (fun Info => Info.HasValidTargetHistory 11) = [false] ∧
    ExampleStateTargetHistories.InputsHistories.map (fun History => History.HasValidDatas 11) = [true] ∧
    ExampleStateTargetHistories.StatesHistories.map (fun History => History.HasValidDatas 11) = [true] :=
  have halive : ExampleStateTargetHistories.HistoriesAlive := by
    unfold HistoriesAlive; decide
  have hvalid : ExampleStateTargetHistories.FullyValidFrame 10 := by
    unfold FullyValidFrame; decide
  ⟨⟨by decide, halive, by decide, by decide, hvalid⟩,
    FindValidResimFrame_greatest ExampleStateTargetHistories 18 10 (by decide) halive (by decide)
      (by decide) hvalid,
    by decide, by decide, by decide, by decide⟩

/-- C21: on the example coordinator (frame 20, earliest retained frame 10) whose only inputs
history has expired and whose states history is valid up to frame 16, frame 16 has valid target
history for the tracked particle and valid data in every history that is alive, and frames 17
and 18 have not.  `FindValidResimFrame(18)` does not return 16: on frame 18 the particle loop
passes and the inputs loop calls `HasValidDatas` through the null pointer that pinning the
expired weak pointer gives.  Without the expired history the call returns 16. -/
theorem FindValidResimFrame_expired_history :
    ExampleStateExpiredHistory.InputsHistories.map (fun History => History.bValid) = [false] ∧
    max ExampleStateExpiredHistory.GetEarliestFrame_Internal 0 = 10 ∧
    ExampleStateExpiredHistory.FullyValidFrame 16 ∧
    ¬ ExampleStateExpiredHistory.FullyValidFrame 17 ∧
    ¬ ExampleStateExpiredHistory.FullyValidFrame 18 ∧
    HasTargetHistory 18 ExampleStateExpiredHistory.DirtyParticles = true ∧
    ExampleStateExpiredHistory.FindValidResimFrame 18 = none ∧
    FindValidResimFrame { ExampleStateExpiredHistory with InputsHistories := [] } 18 = some 16 := by
  refine ⟨by decide, by decide, ?_, ?_, ?_, by decide, by decide, by decide⟩
  · unfold FullyValidFrame; decide
  · unfold FullyValidFrame; decide
  · unfold FullyValidFrame; decide

/-- C29: on the example coordinator at frame 20 with ten frames retained (earliest retained
frame 10), whose inputs history has no valid data for any frame from 10 on,
`FindValidResimFrame(15)` finds no valid frame and returns 9: not `INDEX_NONE`, a frame before
the earliest retained frame that no check has validated.  A requested frame before the
earliest retained frame is handed back as it is. -/
theorem FindValidResimFrame_exhausted_example :
    ExampleStateNoValidFrame.GetEarliestFrame_Internal = 10 ∧
    ExampleStateNoValidFrame.FindValidResimFrame 15 = some 9 ∧
    ExampleStateNoValidFrame.InputsHistories.map (fun History => History.HasValidDatas 9) = [true] ∧
    (9 : Int) ≠ INDEX_NONE ∧
    (List.range 6).all (fun i =>
      decide (IsValidResimFrame ExampleStateNoValidFrame (10 + (i : Int)) = some false)) = true ∧
    ExampleStateNoValidFrame.FindValidResimFrame 5 = some 5 := by
  refine ⟨by decide, by decide, by decide, by decide, by decide, by decide⟩

end FRewindData

/-! ## Reads of a property history channel -/

namespace TParticlePropertyBuffer

variable {T : Type}

/-- The entry that `Latest` picks has the greatest key at or before `K`. -/
theorem Latest_some_greatest (K : FFrameAndPhase) (es : List (FFrameAndPhase × T))
    (b : FFrameAndPhase × T) (h : Latest K es = some b) :
    ∀ e ∈ es, e.1.le K = true → e.1.le b.1 = true := by
  induction es generalizing b with
  | nil => simp [Latest] at h
  | cons e0 es ih =>
    simp only [Latest] at h
    cases h2 : Latest K es with
    | none =>
      rw [h2] at h
      simp only at h
      have hnone := (Latest_eq_none_iff K es).1 h2
      split at h
      · cases h
        intro e he hle
        rcases List.mem_cons.1 he with he | he
        · rw [he]; exact key_le_refl _
        · rw [hnone e he] at hle; cases hle
      · cases h
    | some c =>
      rw [h2] at h
      simp only at h
      have ihc := ih c h2
      split at h
      · cases h
        rename_i hcond
        simp only [Bool.and_eq_true] at hcond
        intro e he hle
        rcases List.mem_cons.1 he with he | he
        · rw [he]; exact key_le_refl _
        · exact key_le_trans _ _ _ (ihc e he hle) hcond.2
      · cases h
        rename_i hcond
        intro e he hle
        rcases List.mem_cons.1 he with he | he
        · rw [he] at hle ⊢
          simp only [hle, Bool.true_and, Bool.not_eq_true] at hcond
          rcases key_le_total e0.1 b.1 with ht | ht
          · exact ht
          · rw [ht] at hcond; cases hcond
        · exact ihc e he hle

/-- C22: a channel written only at frames 5 and 9, with values `V5` and `V9` (in any phases),
reads `V5` at frame 7, `V9` at frame 10 and nothing at frame 3.  In general, for every channel
and key `K`, `Read(K)` returns nothing exactly when no value is recorded at or before `K`, and
otherwise the value recorded at the greatest of the recorded keys at or before `K`. -/
theorem Read_clean_fallback (V5 V9 : T) (p5 p9 p : EParticleHistoryPhase)
    (B : TParticlePropertyBuffer T) (K : FFrameAndPhase) :
    (((⟨[]⟩ : TParticlePropertyBuffer T).Write ⟨5, p5⟩ V5).Write ⟨9, p9⟩ V9).Read ⟨7, p⟩ = some V5 ∧
    (((⟨[]⟩ : TParticlePropertyBuffer T).Write ⟨5, p5⟩ V5).Write ⟨9, p9⟩ V9).Read ⟨10, p⟩ = some V9 ∧
    (((⟨[]⟩ : TParticlePropertyBuffer T).Write ⟨5, p5⟩ V5).Write ⟨9, p9⟩ V9).Read ⟨3, p⟩ = none ∧
    (B.Read K = none ↔ ∀ e ∈ B.Buffer, e.1.le K = false) ∧
    (∀ v, B.Read K = some v →
      ∃ e ∈ B.Buffer, e.2 = v ∧ e.1.le K = true ∧
        ∀ e1 ∈ B.Buffer, e1.1.le K = true → e1.1.le e.1 = true) := by
  refine ⟨?_, ?_, ?_, ?_, ?_⟩
  · simp [Read, Write, Latest, FFrameAndPhase.le]
  · simp [Read, Write, Latest, FFrameAndPhase.le]
  · simp [Read, Write, Latest, FFrameAndPhase.le]
  · simp only [Read, Option.map_eq_none', Latest_eq_none_iff]
  · intro v hv
    simp only [Read, Option.map_eq_some'] at hv
    obtain ⟨e, he, hev⟩ := hv
    obtain ⟨hmem, hle⟩ := Latest_some_le K B.Buffer e he
    exact ⟨e, hmem, hev, hle, Latest_some_greatest K B.Buffer e he⟩

end TParticlePropertyBuffer

/-! ## The values stored by PushStateAtFrame -/

namespace FRewindData

theorem FindDirtyParticle_Store (L : List FDirtyParticleInfo) (Info1 : FDirtyParticleInfo)
    (h : ∃ Info0, FindDirtyParticle L Info1.Object = some Info0) :
    FindDirtyParticle (StoreDirtyParticle L Info1) Info1.Object = some Info1 := by
  induction L with
  | nil =>
    obtain ⟨Info0, h0⟩ := h
    simp [FindDirtyParticle] at h0
  | cons Old Rest ih =>
    obtain ⟨Info0, h0⟩ := h
    unfold StoreDirtyParticle
    unfold FindDirtyParticle at h0 ⊢
    by_cases ho : Old.Object = Info1.Object
    · simp [ho]
    · simp only [ho, if_false, List.find?_cons, decide_False] at h0 ⊢
      exact ih ⟨Info0, h0⟩

/-- After a modification of the entry that `FindOrAddDirtyObj` returns is written back, the
registry finds the modified entry for the object. -/
theorem Find_Store_FindOrAdd (L : List FDirtyParticleInfo) (o : Nat) (c i : Int)
    (f : FDirtyParticleInfo → FDirtyParticleInfo) (hf : ∀ Info, (f Info).Object = Info.Object) :
    FindDirtyParticle
      (StoreDirtyParticle (FindOrAddDirtyParticle L o c i).1 (f (FindOrAddDirtyParticle L o c i).2)) o
      = some (f (FindOrAddDirtyParticle L o c i).2) := by
  obtain ⟨hfind, hobj⟩ := FindOrAddDirtyParticle_find L o c i
  have hfo : (f (FindOrAddDirtyParticle L o c i).2).Object = o := by rw [hf, hobj]
  have := FindDirtyParticle_Store (FindOrAddDirtyParticle L o c i).1
    (f (FindOrAddDirtyParticle L o c i).2) ⟨_, by rw [hfo]; exact hfind⟩
  rw [hfo] at this
  exact this

theorem TargetStored_InsertTarget {T : Type} (b : Bool) (K : FFrameAndPhase)
    (B : TParticlePropertyBuffer T) (Value : T) :
    TargetStored b K B (InsertTarget b K B Value) Value := by
  unfold TargetStored InsertTarget
  constructor
  · intro h
    have hc : (b || B.IsClean K) = true := by
      rcases h with h | h <;> simp [h]
    simp only [hc, if_true]
    exact TParticlePropertyBuffer.Read_Write_self B K Value
  · intro h1 h2
    simp [h1, h2]

/-- C23: after `PushStateAtFrame` the registry tracks the particle, and for each of the three
target channels of its entry (a fresh entry if the particle was untracked): when the call
records (the particle is not in sync during a resim, or the channel is clean at
`(Frame, Phase)`), the channel reads at `(Frame, Phase)` exactly the arguments: `TargetPositions`
holds `X == Position` and `R == Quaternion`, `TargetVelocities` holds `V == LinVelocity` and
`W == AngVelocity`, `TargetStates` holds `Disabled == false` with `ObjectState == Sleeping` if
`bShouldSleep` and `Dynamic` otherwise; when the particle is in sync during a resim and the
channel is not clean at the key, the channel is unchanged. -/
theorem PushStateAtFrame_stores (S : FRewindData) (Handle : Nat) (Frame : Int)
    (Phase : EParticleHistoryPhase) (Position : FVec3) (Quaternion : FQuat)
    (LinVelocity AngVelocity : FVec3) (bShouldSleep : Bool) :
    ∃ New, FindDirtyParticle
        (S.PushStateAtFrame Handle Frame Phase Position Quaternion LinVelocity AngVelocity
          bShouldSleep).DirtyParticles Handle = some New ∧
      TargetStored (!S.IsResimAndInSync (S.Solver.Particles Handle).SyncState) ⟨Frame, Phase⟩
        (FindOrAddDirtyParticle S.DirtyParticles Handle S.CurFrame INDEX_NONE).2.History.TargetPositions
        New.History.TargetPositions ⟨Position, Quaternion⟩ ∧
      TargetStored (!S.IsResimAndInSync (S.Solver.Particles Handle).SyncState) ⟨Frame, Phase⟩
        (FindOrAddDirtyParticle S.DirtyParticles Handle S.CurFrame INDEX_NONE).2.History.TargetVelocities
        New.History.TargetVelocities ⟨LinVelocity, AngVelocity⟩ ∧
      TargetStored (!S.IsResimAndInSync (S.Solver.Particles Handle).SyncState) ⟨Frame, Phase⟩
        (FindOrAddDirtyParticle S.DirtyParticles Handle S.CurFrame INDEX_NONE).2.History.TargetStates
        New.History.TargetStates
        ⟨if bShouldSleep then EObjectStateType.Sleeping else EObjectStateType.Dynamic, false⟩ := by
  have h := Find_Store_FindOrAdd S.DirtyParticles Handle S.CurFrame INDEX_NONE
    (fun Info => { Info with History := { Info.History with
      TargetPositions := InsertTarget (!S.IsResimAndInSync (S.Solver.Particles Handle).SyncState)
        ⟨Frame, Phase⟩ Info.History.TargetPositions ⟨Position, Quaternion⟩
      TargetVelocities := InsertTarget (!S.IsResimAndInSync (S.Solver.Particles Handle).SyncState)
        ⟨Frame, Phase⟩ Info.History.TargetVelocities ⟨LinVelocity, AngVelocity⟩
      TargetStates := InsertTarget (!S.IsResimAndInSync (S.Solver.Particles Handle).SyncState)
        ⟨Frame, Phase⟩ Info.History.TargetStates
        ⟨if bShouldSleep then EObjectStateType.Sleeping else EObjectStateType.Dynamic, false⟩ } })
    (fun _ => rfl)
  exact ⟨_, h, TargetStored_InsertTarget _ _ _ _, TargetStored_InsertTarget _ _ _ _,
    TargetStored_InsertTarget _ _ _ _⟩

end FRewindData

/-! ## The hand-over of the accumulated errors -/

namespace TMap

theorem Find_Add_self {V : Type} (Map : TMap V) (Key : Nat) (Value : V) :
    (Map.Add Key Value).Find Key = some Value := by
  induction Map with
  | nil => simp [Add, Find]
  | cons e Rest ih =>
    obtain ⟨k, v⟩ := e
    unfold Add
    by_cases hk : k = Key
    · simp [hk, Find]
    · simp only [hk, if_false]
      unfold Find at ih ⊢
      simp only [List.find?_cons, hk, decide_False]
      exact ih

theorem Find_Add_ne {V : Type} (Map : TMap V) (Key Other : Nat) (Value : V) (hne : Other ≠ Key) :
    (Map.Add Key Value).Find Other = Map.Find Other := by
  induction Map with
  | nil => simp [Add, Find, Ne.symm hne]
  | cons e Rest ih =>
    obtain ⟨k, v⟩ := e
    unfold Add
    by_cases hk : k = Key
    · have hko : ¬ k = Other := fun h => hne (by rw [← h, hk])
      simp [hk, Find, Ne.symm hne, hko]
    · simp only [hk, if_false]
      unfold Find at ih ⊢
      by_cases hko : k = Other
      · simp [List.find?_cons, hko]
      · simp only [List.find?_cons, hko, decide_False]
        exact ih

end TMap

namespace FRewindData

/-- The loop of `BufferPhysicsResults` over accumulated entries with distinct proxies: the map
afterwards holds each entry's errors under the proxy of its particle, and what it held under
other keys. -/
theorem BufferPhysicsResults_loop (PhysicsProxy : Nat → Nat) (L : List FDirtyParticleErrorInfo) :
    ∀ Map : TMap FDirtyRigidParticleReplicationErrorData,
      (L.map (fun e => PhysicsProxy e.Object)).Nodup →
      (∀ e ∈ L,
        TMap.Find (L.foldl (fun Map ErrorInfo =>
            Map.Add (PhysicsProxy ErrorInfo.Object) ⟨ErrorInfo.ErrorX, ErrorInfo.ErrorR⟩) Map)
          (PhysicsProxy e.Object) = some ⟨e.ErrorX, e.ErrorR⟩) ∧
      (∀ Key, Key ∉ L.map (fun e => PhysicsProxy e.Object) →
        TMap.Find (L.foldl (fun Map ErrorInfo =>
            Map.Add (PhysicsProxy ErrorInfo.Object) ⟨ErrorInfo.ErrorX, ErrorInfo.ErrorR⟩) Map) Key
          = TMap.Find Map Key) := by
  induction L with
  | nil =>
    intro Map _
    exact ⟨fun e he => absurd he (List.not_mem_nil _), fun _ _ => rfl⟩
  | cons Head Rest ih =>
    intro Map hnd
    simp only [List.map_cons, List.nodup_cons] at hnd
    obtain ⟨h1, h2⟩ := ih (Map.Add (PhysicsProxy Head.Object) ⟨Head.ErrorX, Head.ErrorR⟩) hnd.2
    simp only [List.foldl_cons]
    constructor
    · intro e he
      rcases List.mem_cons.1 he with he | he
      · rw [he, h2 _ hnd.1]
        exact TMap.Find_Add_self _ _ _
      · exact h1 e he
    · intro Key hKey
      simp only [List.map_cons, List.mem_cons, not_or] at hKey
      rw [h2 Key hKey.2]
      exact TMap.Find_Add_ne _ _ _ _ hKey.1

/-- The loop of `BufferPhysicsResults` leaves the map as it was under every key that is not the
proxy of an accumulated entry. -/
theorem BufferPhysicsResults_loop_other (PhysicsProxy : Nat → Nat) (L : List FDirtyParticleErrorInfo) :
    ∀ (Map : TMap FDirtyRigidParticleReplicationErrorData) (Key : Nat),
      (∀ e ∈ L, PhysicsProxy e.Object ≠ Key) →
      TMap.Find (L.foldl (fun Map ErrorInfo =>
          Map.Add (PhysicsProxy ErrorInfo.Object) ⟨ErrorInfo.ErrorX, ErrorInfo.ErrorR⟩) Map) Key
        = TMap.Find Map Key := by
  induction L with
  | nil => intro Map Key _; rfl
  | cons Head Rest ih =>
    intro Map Key h
    simp only [List.foldl_cons]
    rw [ih _ Key (fun e he => h e (List.mem_cons_of_mem _ he))]
    exact TMap.Find_Add_ne _ _ _ _ (Ne.symm (h Head (List.mem_cons_self _ _)))

/-- The loop of `BufferPhysicsResults`: an accumulated entry whose proxy no later entry shares
has its errors in the map afterwards, under its proxy. -/
theorem BufferPhysicsResults_loop_last (PhysicsProxy : Nat → Nat)
    (Pre Post : List FDirtyParticleErrorInfo) (e : FDirtyParticleErrorInfo)
    (Map : TMap FDirtyRigidParticleReplicationErrorData)
    (hpost : ∀ e1 ∈ Post, PhysicsProxy e1.Object ≠ PhysicsProxy e.Object) :
    TMap.Find ((Pre ++ e :: Post).foldl (fun Map ErrorInfo =>
        Map.Add (PhysicsProxy ErrorInfo.Object) ⟨ErrorInfo.ErrorX, ErrorInfo.ErrorR⟩) Map)
      (PhysicsProxy e.Object) = some ⟨e.ErrorX, e.ErrorR⟩ := by
  rw [List.foldl_append, List.foldl_cons, BufferPhysicsResults_loop_other PhysicsProxy Post _ _ hpost]
  exact TMap.Find_Add_self _ _ _

/-- Every key the map holds after the loop of `BufferPhysicsResults` with errors other than
those it held before is the proxy of an accumulated entry, and the errors are those of such an
entry. -/
theorem BufferPhysicsResults_loop_from (PhysicsProxy : Nat → Nat) (L : List FDirtyParticleErrorInfo) :
    ∀ (Map : TMap FDirtyRigidParticleReplicationErrorData) (Key : Nat),
      (∃ e ∈ L, PhysicsProxy e.Object = Key) →
      ∃ e ∈ L, PhysicsProxy e.Object = Key ∧
        TMap.Find (L.foldl (fun Map ErrorInfo =>
            Map.Add (PhysicsProxy ErrorInfo.Object) ⟨ErrorInfo.ErrorX, ErrorInfo.ErrorR⟩) Map) Key
          = some ⟨e.ErrorX, e.ErrorR⟩ := by
  induction L with
  | nil => intro Map Key h; obtain ⟨e, he, _⟩ := h; exact absurd he (List.not_mem_nil _)
  | cons Head Rest ih =>
    intro Map Key h
    simp only [List.foldl_cons]
    by_cases hr : ∃ e ∈ Rest, PhysicsProxy e.Object = Key
    · obtain ⟨e, he, hk, hf⟩ := ih (Map.Add (PhysicsProxy Head.Object) ⟨Head.ErrorX, Head.ErrorR⟩) Key hr
      exact ⟨e, List.mem_cons_of_mem _ he, hk, hf⟩
    · have hHead : PhysicsProxy Head.Object = Key := by
        obtain ⟨e, he, hk⟩ := h
        rcases List.mem_cons.1 he with he | he
        · rw [← he]; exact hk
        · exact absurd ⟨e, he, hk⟩ hr
      refine ⟨Head, List.mem_cons_self _ _, hHead, ?_⟩
      rw [BufferPhysicsResults_loop_other PhysicsProxy Rest _ Key
        (fun e he hk => hr ⟨e, he, hk⟩), ← hHead]
      exact TMap.Find_Add_self _ _ _

/-- Counterexample to C24 as stated: the accumulator of the example coordinator holds an entry
for particle 0 with `ErrorX = (1, 0, 0)` and one for particle 1 with `ErrorX = (0, 2, 0)`.
When both particles have the same physics proxy, the output map afterwards holds one pair, the
errors of the entry of particle 1: the errors of the entry of particle 0 are not in it. -/
theorem BufferPhysicsResults_shared_proxy :
    ExampleStateErrors.DirtyParticleErrors.map (fun e => (e.Object, e.ErrorX)) =
      [(0, ⟨1, 0, 0⟩), (1, ⟨0, 2, 0⟩)] ∧
    (ExampleStateErrors.BufferPhysicsResults (fun _ => 7) []).1 =
      [(7, ⟨⟨0, 2, 0⟩, ⟨0, 0, 0, 1⟩⟩)] ∧
    (ExampleStateErrors.BufferPhysicsResults (fun _ => 7) []).1.Find 7 ≠
      some ⟨⟨1, 0, 0⟩, ⟨0, 0, 0, 1⟩⟩ := by
  refine ⟨by decide, by decide, by decide⟩

/-- C24 (amended): `BufferPhysicsResults` consumes the Error Accumulator.  For every accumulator
content, after the call the output map holds, under the physics proxy of each accumulated
entry, the `ErrorX` and `ErrorR` of an accumulated entry with that proxy: those of the entry
itself when no later entry shares its proxy (so of every entry when the proxies are pairwise
distinct), since a later entry with the same proxy overwrites an earlier one.  Under every
other key the map holds what it held before; the coordinator is unchanged except that
`DirtyParticleErrors` is empty; and a second call changes neither the map nor the
coordinator. -/
theorem BufferPhysicsResults_consumes (S : FRewindData) (PhysicsProxy : Nat → Nat)
    (DirtyRigidErrors : TMap FDirtyRigidParticleReplicationErrorData) :
    (∀ Pre e Post, S.DirtyParticleErrors = Pre ++ e :: Post →
      (∀ e1 ∈ Post, PhysicsProxy e1.Object ≠ PhysicsProxy e.Object) →
      (S.BufferPhysicsResults PhysicsProxy DirtyRigidErrors).1.Find (PhysicsProxy e.Object)
        = some ⟨e.ErrorX, e.ErrorR⟩) ∧
    ((S.DirtyParticleErrors.map (fun e => PhysicsProxy e.Object)).Nodup →
      ∀ e ∈ S.DirtyParticleErrors,
        (S.BufferPhysicsResults PhysicsProxy DirtyRigidErrors).1.Find (PhysicsProxy e.Object)
          = some ⟨e.ErrorX, e.ErrorR⟩) ∧
    (∀ e ∈ S.DirtyParticleErrors, ∃ e1 ∈ S.DirtyParticleErrors,
      PhysicsProxy e1.Object = PhysicsProxy e.Object ∧
      (S.BufferPhysicsResults PhysicsProxy DirtyRigidErrors).1.Find (PhysicsProxy e.Object)
        = some ⟨e1.ErrorX, e1.ErrorR⟩) ∧
    (∀ Key, Key ∉ S.DirtyParticleErrors.map (fun e => PhysicsProxy e.Object) →
      (S.BufferPhysicsResults PhysicsProxy DirtyRigidErrors).1.Find Key = DirtyRigidErrors.Find Key) ∧
    (S.BufferPhysicsResults PhysicsProxy DirtyRigidErrors).2 = { S with DirtyParticleErrors := [] } ∧
    (S.BufferPhysicsResults PhysicsProxy DirtyRigidErrors).2.BufferPhysicsResults PhysicsProxy
        (S.BufferPhysicsResults PhysicsProxy DirtyRigidErrors).1
      = S.BufferPhysicsResults PhysicsProxy DirtyRigidErrors := by
  refine ⟨?_, ?_, ?_, ?_, rfl, rfl⟩
  · intro Pre e Post hL hpost
    unfold BufferPhysicsResults
    simp only [hL]
    exact BufferPhysicsResults_loop_last PhysicsProxy Pre Post e DirtyRigidErrors hpost
  · intro hnd
    exact (BufferPhysicsResults_loop PhysicsProxy S.DirtyParticleErrors DirtyRigidErrors hnd).1
  · intro e he
    exact BufferPhysicsResults_loop_from PhysicsProxy S.DirtyParticleErrors DirtyRigidErrors _
      ⟨e, he, rfl⟩
  · intro Key hKey
    exact BufferPhysicsResults_loop_other PhysicsProxy S.DirtyParticleErrors DirtyRigidErrors Key
      (fun e he hk => hKey (List.mem_map.2 ⟨e, he, hk⟩))

/-- The hand-over of the two accumulated errors of the example coordinator into an empty map,
each particle being its own proxy: both entries are in the map. -/
theorem BufferPhysicsResults_consumes_witness :
    (ExampleStateErrors.DirtyParticleErrors.map (fun e => id e.Object)).Nodup ∧
    (∀ e ∈ ExampleStateErrors.DirtyParticleErrors,
      (ExampleStateErrors.BufferPhysicsResults id []).1.Find (id e.Object)
        = some ⟨e.ErrorX, e.ErrorR⟩) ∧
    (ExampleStateErrors.BufferPhysicsResults id []).1
      = [(0, ⟨⟨1, 0, 0⟩, ⟨0, 0, 0, 1⟩⟩), (1, ⟨⟨0, 2, 0⟩, ⟨0, 0, 0, 1⟩⟩)] :=
  ⟨by decide, (BufferPhysicsResults_consumes ExampleStateErrors id []).2.1 (by decide), by decide⟩

end FRewindData

/-! ## The desync test with and without dynamics -/

namespace FRewindData

/-- C25: excluding dynamics only weakens the desync test.  If
`FGeometryParticleStateBase::IsInSync<false>` (dynamics included) returns true then
`IsInSync<true>` (dynamics skipped) returns true; the two differ only for a rigid particle in
organic mode (network physics prediction disabled, or a target channel empty) whose `Dynamics`
channel is out of sync; and `FJointStateBase::IsInSync<true>` equals `IsInSync<false>` for all
inputs. -/
theorem IsInSync_skip_dynamics (Sv : FPBDRigidsSolver) (H : FGeometryParticleStateBase) (p : Nat)
    (P : FGeometryParticleHandle) (K : FFrameAndPhase) (JH : FJointStateBase)
    (J : FPBDJointConstraintHandle) :
    (ParticleIsInSync false Sv H p P K = true → ParticleIsInSync true Sv H p P K = true) ∧
    (ParticleIsInSync true Sv H p P K ≠ ParticleIsInSync false Sv H p P K →
      P.ParticleType = EParticleType.Rigid ∧
      (Sv.bNetworkPhysicsPredictionEnabled = false ∨ H.TargetPositions.IsEmpty = true ∨
        H.TargetVelocities.IsEmpty = true ∨ H.TargetStates.IsEmpty = true) ∧
      H.Dynamics.IsInSync P.Dynamics K = false ∧
      ParticleIsInSync true Sv H p P K = true ∧ ParticleIsInSync false Sv H p P K = false) ∧
    JointIsInSync true JH J K = JointIsInSync false JH J K := by
  refine ⟨?_, ?_, rfl⟩
  · unfold ParticleIsInSync
    cases Sv.bNetworkPhysicsPredictionEnabled <;> cases H.TargetPositions.IsEmpty <;>
    cases H.TargetVelocities.IsEmpty <;> cases H.TargetStates.IsEmpty <;>
    cases hX : H.ParticlePositionRotation.IsInSync P.XR K <;>
    cases hN : H.NonFrequentData.IsInSync P.NonFrequentData K <;>
    cases hT : P.ParticleType <;>
    cases hD : H.Dynamics.IsInSync P.Dynamics K <;>
    simp [FGeometryParticleHandle.CastToKinematicParticle,
      FGeometryParticleHandle.CastToRigidParticle, hT, hD]
  · unfold ParticleIsInSync
    cases hc : (Sv.bNetworkPhysicsPredictionEnabled && !H.TargetPositions.IsEmpty
        && !H.TargetVelocities.IsEmpty && !H.TargetStates.IsEmpty) with
    | true => simp
    | false =>
      have hmode : Sv.bNetworkPhysicsPredictionEnabled = false ∨ H.TargetPositions.IsEmpty = true ∨
          H.TargetVelocities.IsEmpty = true ∨ H.TargetStates.IsEmpty = true := by
        revert hc
        cases Sv.bNetworkPhysicsPredictionEnabled <;> cases H.TargetPositions.IsEmpty <;>
        cases H.TargetVelocities.IsEmpty <;> cases H.TargetStates.IsEmpty <;> simp
      cases hT : P.ParticleType <;>
      cases hD : H.Dynamics.IsInSync P.Dynamics K <;>
      simp only [FGeometryParticleHandle.CastToKinematicParticle,
        FGeometryParticleHandle.CastToRigidParticle, hT, hD, Bool.false_eq_true, if_false,
        ne_eq, not_true_eq_false, false_implies, Bool.not_true, Bool.not_false, Bool.and_true,
        Bool.and_false, if_true, true_and, and_true]
      · intro hne
        refine ⟨hmode, ?_⟩
        revert hne
        cases H.ParticlePositionRotation.IsInSync P.XR K <;>
        cases H.NonFrequentData.IsInSync P.NonFrequentData K <;>
        cases H.Velocities.IsInSync P.Velocities K <;>
        cases H.KinematicTarget.IsInSync P.KinematicTarget K <;>
        cases H.DynamicsMisc.IsInSync P.DynamicsMisc K <;>
        cases H.MassProps.IsInSync P.MassProps K <;> simp

end FRewindData

/-! ## SpawnProxyIfNeeded -/

namespace FRewindData

theorem ClearEntryAndFuture_history_ClearedFrom (H : FGeometryParticleStateBase) (K : FFrameAndPhase) :
    (H.ClearEntryAndFuture K).ClearedFrom K := by
  simp only [FGeometryParticleStateBase.ClearedFrom, FGeometryParticleStateBase.ClearEntryAndFuture]
  exact ⟨TParticlePropertyBuffer.ClearEntryAndFuture_ClearedFrom _ _,
    TParticlePropertyBuffer.ClearEntryAndFuture_ClearedFrom _ _,
    TParticlePropertyBuffer.ClearEntryAndFuture_ClearedFrom _ _,
    TParticlePropertyBuffer.ClearEntryAndFuture_ClearedFrom _ _,
    TParticlePropertyBuffer.ClearEntryAndFuture_ClearedFrom _ _,
    TParticlePropertyBuffer.ClearEntryAndFuture_ClearedFrom _ _,
    TParticlePropertyBuffer.ClearEntryAndFuture_ClearedFrom _ _,
    TParticlePropertyBuffer.ClearEntryAndFuture_ClearedFrom _ _,
    TParticlePropertyBuffer.ClearEntryAndFuture_ClearedFrom _ _,
    TParticlePropertyBuffer.ClearEntryAndFuture_ClearedFrom _ _⟩

/-- The call of `SpawnProxyIfNeeded` that spawns: its result spelled out. -/
theorem SpawnProxyIfNeeded_spawn (S : FRewindData) (Proxy : FSingleParticlePhysicsProxy) (p : Nat)
    (hgt : Proxy.InitializedStep > S.CurFrame) (he : S.Solver.Evolution.isSome = true) :
    S.SpawnProxyIfNeeded Proxy (some p) =
      some ({ S with
              DirtyParticles :=
                StoreDirtyParticle (FindOrAddDirtyParticle S.DirtyParticles p S.CurFrame S.CurFrame).1
                  { (FindOrAddDirtyParticle S.DirtyParticles p S.CurFrame S.CurFrame).2 with
                    History :=
                      (FindOrAddDirtyParticle S.DirtyParticles p S.CurFrame S.CurFrame).2.History.ClearEntryAndFuture
                        ⟨Proxy.InitializedStep, .PrePushData⟩
                    InitializedOnStep := S.CurFrame }
              Solver := S.Solver.SetParticle p
                { ((FPBDRigidsEvolution.EnableParticle (S.Solver.Particles p)).SetSyncState
                    ESyncState.HardDesync) with Proxy := Proxy.SetInitialized S.CurFrame } },
        Proxy.SetInitialized S.CurFrame) := by
  have hne : Proxy.InitializedStep ≠ S.CurFrame := by omega
  unfold SpawnProxyIfNeeded
  cases hev : S.Solver.Evolution with
  | none => rw [hev] at he; cases he
  | some E => simp [hgt, hne, DesyncParticle]

/-- C30: `SpawnProxyIfNeeded` is a no-op when `Proxy.GetInitializedStep() <= CurFrame`.
Otherwise (on a non-null handle and evolution) it leaves the particle tracked and enabled, with
`Proxy.GetInitializedStep()` and the registry entry's `InitializedOnStep` both equal to
`CurFrame`, the particle desynced and its history cleared from
`(old initialized step, PrePushData)` on.  Hence after any call
`Proxy.GetInitializedStep() <= CurFrame`, and a second call at the same `CurFrame` changes
nothing: two calls in a row have the effect of one. -/
theorem SpawnProxyIfNeeded_spec (S : FRewindData) (Proxy : FSingleParticlePhysicsProxy)
    (Handle : Option Nat) :
    (Proxy.InitializedStep ≤ S.CurFrame → S.SpawnProxyIfNeeded Proxy Handle = some (S, Proxy)) ∧
    (Proxy.InitializedStep > S.CurFrame → ∀ p, Handle = some p → S.Solver.Evolution.isSome = true →
      ∃ S1 Proxy1 Info1, S.SpawnProxyIfNeeded Proxy Handle = some (S1, Proxy1) ∧
        S1.CurFrame = S.CurFrame ∧ Proxy1.InitializedStep = S.CurFrame ∧
        FindDirtyParticle S1.DirtyParticles p = some Info1 ∧
        Info1.InitializedOnStep = S.CurFrame ∧
        Info1.History.ClearedFrom ⟨Proxy.InitializedStep, .PrePushData⟩ ∧
        (S1.Solver.Particles p).Disabled = false ∧
        (S1.Solver.Particles p).SyncState = ESyncState.HardDesync) ∧
    (∀ S1 Proxy1, S.SpawnProxyIfNeeded Proxy Handle = some (S1, Proxy1) →
      Proxy1.InitializedStep ≤ S1.CurFrame ∧
      S1.SpawnProxyIfNeeded Proxy1 Handle = some (S1, Proxy1)) := by
  have hnoop : ∀ (S0 : FRewindData) (Proxy0 : FSingleParticlePhysicsProxy),
      Proxy0.InitializedStep ≤ S0.CurFrame → S0.SpawnProxyIfNeeded Proxy0 Handle = some (S0, Proxy0) := by
    intro S0 Proxy0 h
    unfold SpawnProxyIfNeeded
    simp [not_lt.mpr h]
  refine ⟨hnoop S Proxy, ?_, ?_⟩
  · intro hgt p hp he
    subst hp
    refine ⟨_, _,
      { (FindOrAddDirtyParticle S.DirtyParticles p S.CurFrame S.CurFrame).2 with
        History :=
          (FindOrAddDirtyParticle S.DirtyParticles p S.CurFrame S.CurFrame).2.History.ClearEntryAndFuture
            ⟨Proxy.InitializedStep, .PrePushData⟩
        InitializedOnStep := S.CurFrame },
      SpawnProxyIfNeeded_spawn S Proxy p hgt he, rfl, rfl, ?_, rfl, ?_, ?_, ?_⟩
    · exact Find_Store_FindOrAdd S.DirtyParticles p S.CurFrame S.CurFrame
        (fun Info => { Info with
          History := Info.History.ClearEntryAndFuture ⟨Proxy.InitializedStep, .PrePushData⟩
          InitializedOnStep := S.CurFrame }) (fun _ => rfl)
    · exact ClearEntryAndFuture_history_ClearedFrom _ _
    · simp [FPBDRigidsSolver.SetParticle, FGeometryParticleHandle.Disabled,
        FGeometryParticleHandle.SetSyncState, FPBDRigidsEvolution.EnableParticle,
        FGeometryParticleHandle.SetDisabled]
    · simp [FPBDRigidsSolver.SetParticle, FGeometryParticleHandle.SetSyncState]
  · intro S1 Proxy1 h
    by_cases hle : Proxy.InitializedStep ≤ S.CurFrame
    · rw [hnoop S Proxy hle] at h
      simp only [Option.some.injEq, Prod.mk.injEq] at h
      rw [← h.1, ← h.2]
      exact ⟨hle, hnoop S Proxy hle⟩
    · have hgt : Proxy.InitializedStep > S.CurFrame := by omega
      cases Handle with
      | none => simp [SpawnProxyIfNeeded, hgt] at h
      | some p =>
        cases hev : S.Solver.Evolution with
        | none => simp [SpawnProxyIfNeeded, hgt, hev] at h
        | some E =>
          rw [SpawnProxyIfNeeded_spawn S Proxy p hgt (by rw [hev]; rfl)] at h
          simp only [Option.some.injEq, Prod.mk.injEq] at h
          have hP : Proxy1.InitializedStep = S.CurFrame := by rw [← h.2]; rfl
          have hC : S1.CurFrame = S.CurFrame := by rw [← h.1]
          have hle1 : Proxy1.InitializedStep ≤ S1.CurFrame := by rw [hP, hC]
          exact ⟨hle1, hnoop S1 Proxy1 hle1⟩

end FRewindData

/-! ## The retained window stays below the capacity -/

namespace FRewindData

end FRewindData

namespace FRewindData

end FRewindData

namespace FRewindData

end FRewindData

/-! ## ApplyTargets on a particle whose kinematic cast fails -/

namespace FRewindData

/-- C27: a static particle is tracked after `PushStateAtFrame` pushed a target state for frame
12: its entry is not a follower and its `TargetVelocities` channel is not clean at
`(12, PostPushData)`.  `ApplyTargets(12)` then calls `SetVelocities` through the null result of
the kinematic cast: the call does not complete. -/
theorem ApplyTargets_static_velocity_null :
    (ExampleStateStaticTarget.Solver.Particles 0).CastToKinematicParticle.isNone = true ∧
    ExampleStateStaticTarget.DirtyParticles.map
      (fun I => (I.Object, I.bResimAsFollower,
        I.History.TargetVelocities.IsClean ⟨12, .PostPushData⟩,
        I.History.TargetVelocities.Read ⟨12, .PostPushData⟩)) =
      [(0, false, false, some ⟨⟨2, 0, 0⟩, ⟨0, 0, 0⟩⟩)] ∧
    (ExampleStateStaticTarget.ApplyTargets 12 false).isNone = true := by
  refine ⟨by decide, by decide, by decide⟩

end FRewindData

/-! ## ApplyTargets on target states written by PushStateAtFrame -/

namespace FRewindData

/-- The lambda passed for `TargetStates`, on a target value that is enabled and sleeping or
dynamic: the evolution is untouched, the particle ends enabled and is not made a follower. -/
theorem ApplyTargetState_pushed (E : FPBDRigidsEvolution) (p : Nat) (P : FGeometryParticleHandle)
    (Data : FParticleDynamicMisc) (hd : Data.Disabled = false)
    (ho : Data.ObjectState = EObjectStateType.Sleeping ∨ Data.ObjectState = EObjectStateType.Dynamic) :
    (ApplyTargetState E p P Data).1 = E ∧
    (ApplyTargetState E p P Data).2.DynamicsMisc.Disabled = false ∧
    (ApplyTargetState E p P Data).2.ResimType =
      (if Data.ObjectState = EObjectStateType.Dynamic then EResimType.FullResim else P.ResimType) ∧
    (ApplyTargetState E p P Data).2.ParticleType = P.ParticleType := by
  unfold ApplyTargetState
  simp only
  rcases ho with ho | ho <;>
  cases hP : P.DynamicsMisc.Disabled <;>
  split_ifs <;>
  simp_all [FGeometryParticleHandle.SetDisabled, FGeometryParticleHandle.SetResimType,
    FGeometryParticleHandle.SetInertiaConditioningDirty, FPBDRigidsEvolution.SetParticleObjectState,
    FPBDRigidsEvolution.DisableParticle, FPBDRigidsEvolution.EnableParticle,
    FGeometryParticleHandle.Disabled, FGeometryParticleHandle.ObjectState]

theorem Read_mem {T : Type} (B : TParticlePropertyBuffer T) (K : FFrameAndPhase) (v : T)
    (h : B.Read K = some v) : ∃ e ∈ B.Buffer, e.2 = v := by
  simp only [TParticlePropertyBuffer.Read, Option.map_eq_some'] at h
  obtain ⟨e, he, hev⟩ := h
  exact ⟨e, (TParticlePropertyBuffer.Latest_some_le K B.Buffer e he).1, hev⟩

set_option maxHeartbeats 1000000 in
/-- One iteration of the particle loop of `ApplyTargets` on an entry whose target states are
enabled and sleeping or dynamic. -/
theorem ApplyTargetsParticle_pushed (Frame : Int) (Sv Sv1 : FPBDRigidsSolver)
    (Info : FDirtyParticleInfo)
    (hinv : ∀ e ∈ Info.History.TargetStates.Buffer, e.2.Disabled = false ∧
      (e.2.ObjectState = EObjectStateType.Sleeping ∨ e.2.ObjectState = EObjectStateType.Dynamic))
    (h : ApplyTargetsParticle Frame Sv Info = some Sv1) :
    Sv1.Evolution = Sv.Evolution ∧
    (∀ q, (Sv.Particles q).DynamicsMisc.Disabled = false →
      (Sv1.Particles q).DynamicsMisc.Disabled = false) ∧
    (∀ q, (Sv1.Particles q).ResimType = EResimType.ResimAsFollower →
      (Sv.Particles q).ResimType = EResimType.ResimAsFollower) ∧
    (∀ q, (Sv1.Particles q).ParticleType = (Sv.Particles q).ParticleType) ∧
    (Info.bResimAsFollower = false →
      Info.History.TargetStates.IsClean ⟨Frame, .PostPushData⟩ = false →
      (Sv.Particles Info.Object).ParticleType = EParticleType.Rigid → Sv.Evolution.isSome = true →
      (Sv1.Particles Info.Object).DynamicsMisc.Disabled = false) := by
  have hread : ∀ s, Info.History.TargetStates.Read ⟨Frame, .PostPushData⟩ = some s →
      s.Disabled = false ∧
      (s.ObjectState = EObjectStateType.Sleeping ∨ s.ObjectState = EObjectStateType.Dynamic) := by
    intro s hs
    obtain ⟨e, he, hes⟩ := Read_mem _ _ _ hs
    rw [← hes]
    exact hinv e he
  cases hf : Info.bResimAsFollower with
  | true =>
    simp only [ApplyTargetsParticle, hf, TargetToApply_follower, Option.some.injEq] at h
    subst h
    refine ⟨rfl, ?_, ?_, ?_, ?_⟩
    · intro q hq
      by_cases hqo : q = Info.Object <;> simp [FPBDRigidsSolver.SetParticle, hqo, hq]
      rw [← hqo]; exact hq
    · intro q hq
      by_cases hqo : q = Info.Object <;> simp_all [FPBDRigidsSolver.SetParticle]
    · intro q
      by_cases hqo : q = Info.Object <;> simp_all [FPBDRigidsSolver.SetParticle]
    · intro h1; cases h1
  | false =>
    obtain ⟨rX, hX, hXc⟩ := TargetToApply_false ⟨Frame, .PostPushData⟩ Info.History.TargetPositions
    obtain ⟨rV, hV, hVc⟩ := TargetToApply_false ⟨Frame, .PostPushData⟩ Info.History.TargetVelocities
    obtain ⟨rS, hS, hSc⟩ := TargetToApply_false ⟨Frame, .PostPushData⟩ Info.History.TargetStates
    have hA : ∀ E P s, Info.History.TargetStates.Read ⟨Frame, .PostPushData⟩ = some s →
        (ApplyTargetState E Info.Object P s).1 = E ∧
        (ApplyTargetState E Info.Object P s).2.DynamicsMisc.Disabled = false ∧
        (ApplyTargetState E Info.Object P s).2.ResimType =
          (if s.ObjectState = EObjectStateType.Dynamic then EResimType.FullResim else P.ResimType) ∧
        (ApplyTargetState E Info.Object P s).2.ParticleType = P.ParticleType :=
      fun E P s hs => ApplyTargetState_pushed E Info.Object P s (hread s hs).1 (hread s hs).2
    have hA1 := fun E P s hs => (hA E P s hs).1
    have hA2 := fun E P s hs => (hA E P s hs).2.1
    have hA3 := fun E P s hs => (hA E P s hs).2.2.1
    have hA4 := fun E P s hs => (hA E P s hs).2.2.2
    rcases hXc with ⟨cX, rfl, hx⟩ | ⟨cX, x, rfl, hx⟩ <;>
    rcases hVc with ⟨cV, rfl, hv⟩ | ⟨cV, v, rfl, hv⟩ <;>
    rcases hSc with ⟨cS, rfl, hs⟩ | ⟨cS, s, rfl, hs⟩ <;>
    cases ht : (Sv.Particles Info.Object).ParticleType <;>
    cases he : Sv.Evolution <;>
    simp only [ApplyTargetsParticle, hf, hX, hV, hS, FGeometryParticleHandle.CastToKinematicParticle,
      FGeometryParticleHandle.CastToRigidParticle, FGeometryParticleHandle.SetXR,
      FGeometryParticleHandle.SetVelocities, ht, he, Option.some.injEq, reduceCtorEq] at h <;>
    subst h <;>
    (refine ⟨?_, ?_, ?_, ?_, ?_⟩
     · simp [FPBDRigidsSolver.SetParticle, he, hs, hA1]
     · intro q hq
       by_cases hqo : q = Info.Object
       · subst hqo
         simp [FPBDRigidsSolver.SetParticle, hs, hA2, hq]
       · simpa [FPBDRigidsSolver.SetParticle, hqo] using hq
     · intro q hq
       by_cases hqo : q = Info.Object
       · subst hqo
         revert hq
         simp [FPBDRigidsSolver.SetParticle, hs, hA3]
         try (split_ifs <;> simp)
       · simpa [FPBDRigidsSolver.SetParticle, hqo] using hq
     · intro q
       by_cases hqo : q = Info.Object
       · subst hqo
         simp [FPBDRigidsSolver.SetParticle, ht, hs, hA4]
       · simp [FPBDRigidsSolver.SetParticle, hqo]
     · intro _ hc hr hev
       first
       | (cases (cS.symm.trans hc); done)
       | (cases hr; done)
       | (cases hev; done)
       | simp [FPBDRigidsSolver.SetParticle, hs, hA2])

/-- The particle loop of `ApplyTargets` over entries whose target states are enabled and
sleeping or dynamic. -/
theorem ApplyTargetsParticles_pushed (Frame : Int) (L : List FDirtyParticleInfo) :
    ∀ (Sv Sv1 : FPBDRigidsSolver),
    (∀ Info ∈ L, ∀ e ∈ Info.History.TargetStates.Buffer, e.2.Disabled = false ∧
      (e.2.ObjectState = EObjectStateType.Sleeping ∨ e.2.ObjectState = EObjectStateType.Dynamic)) →
    ApplyTargetsParticles Frame Sv L = some Sv1 →
    Sv1.Evolution = Sv.Evolution ∧
    (∀ q, (Sv.Particles q).DynamicsMisc.Disabled = false →
      (Sv1.Particles q).DynamicsMisc.Disabled = false) ∧
    (∀ q, (Sv1.Particles q).ResimType = EResimType.ResimAsFollower →
      (Sv.Particles q).ResimType = EResimType.ResimAsFollower) ∧
    (∀ q, (Sv1.Particles q).ParticleType = (Sv.Particles q).ParticleType) ∧
    (∀ Info ∈ L, Info.bResimAsFollower = false →
      Info.History.TargetStates.IsClean ⟨Frame, .PostPushData⟩ = false →
      (Sv.Particles Info.Object).ParticleType = EParticleType.Rigid → Sv.Evolution.isSome = true →
      (Sv1.Particles Info.Object).DynamicsMisc.Disabled = false) := by
  induction L with
  | nil =>
    intro Sv Sv1 _ h
    simp only [ApplyTargetsParticles, Option.some.injEq] at h
    subst h
    exact ⟨rfl, fun _ hq => hq, fun _ hq => hq, fun _ => rfl, fun _ hm => absurd hm (List.not_mem_nil _)⟩
  | cons Info Rest ih =>
    intro Sv Sv1 hinv h
    unfold ApplyTargetsParticles at h
    cases hstep : ApplyTargetsParticle Frame Sv Info with
    | none => simp [hstep] at h
    | some Sv2 =>
      simp only [hstep] at h
      obtain ⟨a1, a2, a3, a4, a5⟩ := ApplyTargetsParticle_pushed Frame Sv Sv2 Info
        (hinv Info (List.mem_cons_self _ _)) hstep
      obtain ⟨b1, b2, b3, b4, b5⟩ := ih Sv2 Sv1
        (fun I hI => hinv I (List.mem_cons_of_mem _ hI)) h
      refine ⟨b1.trans a1, fun q hq => b2 q (a2 q hq), fun q hq => a3 q (b3 q hq),
        fun q => (b4 q).trans (a4 q), ?_⟩
      intro I hI hf hc hr hev
      rcases List.mem_cons.mp hI with hI | hI
      · subst hI
        exact b2 _ (a5 hf hc hr hev)
      · exact b5 I hI hf hc (by rw [a4]; exact hr) (by rw [a1]; exact hev)

theorem mem_StoreDirtyParticle (L : List FDirtyParticleInfo) (X I : FDirtyParticleInfo)
    (h : I ∈ StoreDirtyParticle L X) : I = X ∨ I ∈ L := by
  induction L with
  | nil => simp [StoreDirtyParticle] at h
  | cons Old Rest ih =>
    unfold StoreDirtyParticle at h
    split_ifs at h
    · rcases List.mem_cons.mp h with h | h
      · exact Or.inl h
      · exact Or.inr (List.mem_cons_of_mem _ h)
    · rcases List.mem_cons.mp h with h | h
      · exact Or.inr (h ▸ List.mem_cons_self _ _)
      · rcases ih h with h | h
        · exact Or.inl h
        · exact Or.inr (List.mem_cons_of_mem _ h)

theorem mem_FindOrAddDirtyParticle (L : List FDirtyParticleInfo) (o : Nat) (c i : Int)
    (I : FDirtyParticleInfo)
    (h : I ∈ (FindOrAddDirtyParticle L o c i).1 ∨ I = (FindOrAddDirtyParticle L o c i).2) :
    I ∈ L ∨ I = NewDirtyParticleInfo o c i := by
  unfold FindOrAddDirtyParticle at h
  cases hfind : FindDirtyParticle L o with
  | some Info =>
    simp only [hfind] at h
    rcases h with h | h
    · exact Or.inl h
    · subst h
      exact Or.inl (List.mem_of_find?_eq_some hfind)
  | none =>
    simp only [hfind, List.mem_append, List.mem_singleton] at h
    rcases h with (h | h) | h
    · exact Or.inl h
    · exact Or.inr h
    · exact Or.inr h

/-- A guarded insertion of an enabled sleeping or dynamic state keeps a `TargetStates` channel
within such values. -/
theorem InsertTarget_pushed (b : Bool) (K : FFrameAndPhase)
    (B : TParticlePropertyBuffer FParticleDynamicMisc) (Value : FParticleDynamicMisc)
    (hV : Value.Disabled = false ∧
      (Value.ObjectState = EObjectStateType.Sleeping ∨ Value.ObjectState = EObjectStateType.Dynamic))
    (hB : ∀ e ∈ B.Buffer, e.2.Disabled = false ∧
      (e.2.ObjectState = EObjectStateType.Sleeping ∨ e.2.ObjectState = EObjectStateType.Dynamic)) :
    ∀ e ∈ (InsertTarget b K B Value).Buffer,
      e.2.Disabled = false ∧
      (e.2.ObjectState = EObjectStateType.Sleeping ∨ e.2.ObjectState = EObjectStateType.Dynamic) := by
  intro e he
  unfold InsertTarget at he
  split_ifs at he
  · simp only [TParticlePropertyBuffer.Insert, TParticlePropertyBuffer.Write, List.mem_cons,
      List.mem_filter] at he
    rcases he with he | he
    · subst he
      exact hV
    · exact hB e he.1
  · exact hB e he

/-- The invariant `TargetStatesPushed` survives `PushStateAtFrame`. -/
theorem PushStateAtFrame_pushed (S : FRewindData) (hinv : S.TargetStatesPushed) (Handle : Nat)
    (Frame : Int) (Phase : EParticleHistoryPhase) (Position : FVec3) (Quaternion : FQuat)
    (LinVelocity AngVelocity : FVec3) (bShouldSleep : Bool) :
    (S.PushStateAtFrame Handle Frame Phase Position Quaternion LinVelocity AngVelocity
      bShouldSleep).TargetStatesPushed := by
  have hOld : ∀ I, (I ∈ (FindOrAddDirtyParticle S.DirtyParticles Handle S.CurFrame INDEX_NONE).1 ∨
      I = (FindOrAddDirtyParticle S.DirtyParticles Handle S.CurFrame INDEX_NONE).2) →
      ∀ e ∈ I.History.TargetStates.Buffer, e.2.Disabled = false ∧
        (e.2.ObjectState = EObjectStateType.Sleeping ∨ e.2.ObjectState = EObjectStateType.Dynamic) := by
    intro I hI
    rcases mem_FindOrAddDirtyParticle _ _ _ _ I hI with h | h
    · exact hinv I h
    · subst h
      intro e he
      simp [NewDirtyParticleInfo, EmptyHistory] at he
  intro I hI
  unfold PushStateAtFrame at hI
  simp only at hI
  rcases mem_StoreDirtyParticle _ _ I hI with h | h
  · subst h
    exact InsertTarget_pushed _ _ _ _ (by cases bShouldSleep <;> simp) (hOld _ (Or.inr rfl))
  · exact hOld I (Or.inl h)

/-- C28: let every value recorded in a `TargetStates` channel of the registry be enabled and
sleeping or dynamic.  `PushStateAtFrame` and `SetTargetStateAtFrame` keep it so: each value
they store has `Disabled == false` and `ObjectState` in {Sleeping, Dynamic}.  And a completed
`ApplyTargets` leaves the evolution, hence the island manager, as it was, disables no enabled
particle, gives no particle the resim type `ResimAsFollower` that it did not have, and every
particle whose target state it applies (a rigid particle of a non-follower entry whose target
state channel is not clean at the frame, with an evolution present) ends with
`Disabled == false`. -/
theorem ApplyTargets_pushed_states (S : FRewindData) (hinv : S.TargetStatesPushed) :
    (∀ (Handle : Nat) (Frame : Int) (Phase : EParticleHistoryPhase) (Position : FVec3)
        (Quaternion : FQuat) (LinVelocity AngVelocity : FVec3) (bShouldSleep : Bool),
      (S.PushStateAtFrame Handle Frame Phase Position Quaternion LinVelocity AngVelocity
        bShouldSleep).TargetStatesPushed ∧
      (S.SetTargetStateAtFrame Handle Frame Phase Position Quaternion LinVelocity AngVelocity
        bShouldSleep).TargetStatesPushed) ∧
    (∀ (Frame : Int) (bResetSimulation : Bool) (S1 : FRewindData),
      S.ApplyTargets Frame bResetSimulation = some S1 →
      S1.Solver.Evolution = S.Solver.Evolution ∧
      (∀ q, (S.Solver.Particles q).DynamicsMisc.Disabled = false →
        (S1.Solver.Particles q).DynamicsMisc.Disabled = false) ∧
      (∀ q, (S1.Solver.Particles q).ResimType = EResimType.ResimAsFollower →
        (S.Solver.Particles q).ResimType = EResimType.ResimAsFollower) ∧
      (∀ Info ∈ S.DirtyParticles, Info.bResimAsFollower = false →
        Info.History.TargetStates.IsClean ⟨Frame, .PostPushData⟩ = false →
        (S.Solver.Particles Info.Object).ParticleType = EParticleType.Rigid →
        S.Solver.Evolution.isSome = true →
        (S1.Solver.Particles Info.Object).DynamicsMisc.Disabled = false)) := by
  refine ⟨fun Handle Frame Phase Position Quaternion LinVelocity AngVelocity bShouldSleep =>
    ⟨PushStateAtFrame_pushed S hinv _ _ _ _ _ _ _ _, PushStateAtFrame_pushed S hinv _ _ _ _ _ _ _ _⟩,
    ?_⟩
  intro Frame bResetSimulation S1 h
  unfold ApplyTargets at h
  simp only [RewindStates] at h
  cases hloop : ApplyTargetsParticles Frame S.Solver S.DirtyParticles with
  | none => simp [hloop] at h
  | some Sv =>
    simp only [hloop, Option.some.injEq] at h
    subst h
    obtain ⟨a1, a2, a3, _, a5⟩ := ApplyTargetsParticles_pushed Frame S.DirtyParticles S.Solver Sv
      hinv hloop
    exact ⟨a1, a2, a3, a5⟩

/-- The example coordinator with a disabled dynamic particle and a target state recorded on
frame 12 satisfies the invariant, its `ApplyTargets(12)` completes, and the particle ends
enabled with the evolution untouched. -/
theorem ApplyTargets_pushed_states_witness :
    ExampleStateTargetsDisabled.TargetStatesPushed ∧
    (ExampleStateTargetsDisabled.Solver.Particles 0).DynamicsMisc.Disabled = true ∧
    (∃ S1, ExampleStateTargetsDisabled.ApplyTargets 12 false = some S1 ∧
      S1.Solver.Evolution = ExampleStateTargetsDisabled.Solver.Evolution ∧
      (S1.Solver.Particles 0).DynamicsMisc.Disabled = false) := by
  have hinv : ExampleStateTargetsDisabled.TargetStatesPushed := by
    intro Info hI e he
    simp only [ExampleStateTargetsDisabled, ExampleStateTargets, List.mem_singleton] at hI
    subst hI
    simp only [ExampleHistoryTargets, List.mem_singleton] at he
    subst he
    exact ⟨rfl, Or.inl rfl⟩
  obtain ⟨S1, h1⟩ : ∃ S1, ExampleStateTargetsDisabled.ApplyTargets 12 false = some S1 :=
    Option.isSome_iff_exists.mp (by decide)
  obtain ⟨a1, _, _, a5⟩ := (ApplyTargets_pushed_states ExampleStateTargetsDisabled hinv).2 12 false S1 h1
  exact ⟨hinv, rfl, S1, h1, a1,
    a5 { ExampleInfo with History := ExampleHistoryTargets } (List.mem_cons_self _ _) rfl
      (by decide) rfl rfl⟩

end FRewindData

end Chaos
